import Mathlib

/-!
# lwmqtt: a shallow embedding of the client engine and the varint helpers

The client engine of `src/client.c` is translated function by function into
state-passing Lean definitions.  The transport, the timers and the user
callback are function pointers in the C code; here they are the fields of
`Hooks`, arbitrary functions over an abstract outside world `W`.  The packet
codec (`lwmqtt_encode_*`, `lwmqtt_decode_*`, `lwmqtt_detect_*`) is called by
`client.c` but is not part of the sources at hand, so it is a parameter too
(`Codec`).  Hooks act on the outside world only: they get the client pointer in
C, but are taken not to write the client's own fields.  Every hook call and
every encoder call is recorded in a ghost trace, so that statements such as
"nothing is written" can be made.

Loops (`lwmqtt_cycle_until`, the remaining-length loop of
`lwmqtt_read_packet`) take fuel, one unit per iteration; a result whose error
is `none` is a run that has not returned yet, and the client that comes with
it is the state the run has reached.

Integers: `unsigned short` values are `Nat` with an explicit `% 65536` at the
cast of `lwmqtt_get_next_packet_id`; `int` values are `Int`; bytes are `Nat`.
The struct declarations live in `lwmqtt.h`, which is not among the sources;
`keep_alive_interval` (seconds, taken from the 16-bit keep-alive of the
connect options) is a `Nat` and `keep_alive_interval * 1000` is the
mathematical product.
-/

namespace Lwmqtt

/-! ## Types -/

/-- Error codes of `lwmqtt_err_t`.  The four named values are the ones
`client.c` mentions; `other` stands for every further value a hook or the
codec may return. -/
inductive lwmqtt_err_t where
  | LWMQTT_SUCCESS
  | LWMQTT_FAILURE
  | LWMQTT_BUFFER_TOO_SHORT
  | LWMQTT_NOT_ENOUGH_DATA
  | other (code : Int)
deriving DecidableEq, Repr

/-- Packet types as named in `client.c`. -/
inductive lwmqtt_packet_type_t where
  | LWMQTT_INVALID_PACKET
  | LWMQTT_NO_PACKET
  | LWMQTT_CONNECT_PACKET
  | LWMQTT_CONNACK_PACKET
  | LWMQTT_PUBLISH_PACKET
  | LWMQTT_PUBACK_PACKET
  | LWMQTT_PUBREC_PACKET
  | LWMQTT_PUBREL_PACKET
  | LWMQTT_PUBCOMP_PACKET
  | LWMQTT_SUBSCRIBE_PACKET
  | LWMQTT_SUBACK_PACKET
  | LWMQTT_UNSUBSCRIBE_PACKET
  | LWMQTT_UNSUBACK_PACKET
  | LWMQTT_PINGREQ_PACKET
  | LWMQTT_PINGRESP_PACKET
  | LWMQTT_DISCONNECT_PACKET
deriving DecidableEq, Repr

open lwmqtt_err_t lwmqtt_packet_type_t

/-- Quality of service, an enum in C: any integer value can be stored. -/
abbrev lwmqtt_qos_t := Nat

def LWMQTT_QOS0 : lwmqtt_qos_t := 0
def LWMQTT_QOS1 : lwmqtt_qos_t := 1
def LWMQTT_QOS2 : lwmqtt_qos_t := 2

/-- Connack return code, an enum in C. -/
abbrev lwmqtt_return_code_t := Nat

def LWMQTT_CONNACK_CONNECTION_ACCEPTED : lwmqtt_return_code_t := 0

/-- Byte strings (`lwmqtt_string_t`, `const char *`). -/
abbrev lwmqtt_string_t := List Nat

/-- The fields of `lwmqtt_message_t` that `client.c` reads and writes. -/
structure lwmqtt_message_t where
  qos : lwmqtt_qos_t
  retained : Bool
  payload : List Nat
  payload_len : Int
deriving DecidableEq, Repr

/-- Connect options; `client.c` itself reads only `keep_alive`. -/
structure lwmqtt_options_t where
  client_id : lwmqtt_string_t
  clean_session : Bool
  keep_alive : Nat
  username : Option lwmqtt_string_t
  password : Option lwmqtt_string_t
deriving DecidableEq, Repr

/-- The will of a connect request. -/
structure lwmqtt_will_t where
  topic : lwmqtt_string_t
  payload : List Nat
  qos : lwmqtt_qos_t
  retained : Bool
deriving DecidableEq, Repr

/-- The two timer references a client holds. -/
inductive Timer where
  | keep_alive_timer
  | command_timer
deriving DecidableEq, Repr

/-- Ghost record of the calls a client makes to its hooks and to the
encoders, and of its writes to the `ping_outstanding` flag after
`lwmqtt_init`, in the order in which they happen. -/
inductive Event where
  | network_peek
  | network_read (offset : Int) (len : Int)
  | network_write (bytes : List Nat) (len : Int)
  | timer_set (t : Timer) (ms : Nat)
  | timer_get (t : Timer)
  | callback (topic : lwmqtt_string_t) (msg : lwmqtt_message_t)
  | encode_connect
  | encode_subscribe (packet_id : Nat)
  | encode_unsubscribe (packet_id : Nat)
  | encode_publish (qos : lwmqtt_qos_t) (packet_id : Nat)
  | encode_ack (type : lwmqtt_packet_type_t) (packet_id : Nat)
  | encode_zero (type : lwmqtt_packet_type_t)
  | ping_outstanding (value : Bool)
deriving DecidableEq, Repr

/-- Ghost record of what a transport hook gave back: the call as it stands in
the trace, the error the hook returned and the count it reported
(`available`, `read` or `sent`). -/
structure HookReturn where
  call : Event
  err : lwmqtt_err_t
  count : Int
deriving DecidableEq, Repr

/-- The function pointers of a client (`lwmqtt_set_network`,
`lwmqtt_set_timers`, `lwmqtt_set_callback`) as functions over the outside
world `W`.  `network_peek` and `callback` may be `NULL`.

* `network_peek w = (err, available, w')`
* `network_read w len timeout = (err, data, read, w')`: `data` are the bytes
  the hook stored at the pointer it was given, `read` the count it reports
* `network_write w buf len timeout = (err, sent, w')`
* `timer_get w t = (remaining, w')` -/
structure Hooks (W : Type) where
  network_peek : Option (W → lwmqtt_err_t × Int × W)
  network_read : W → Int → Int → lwmqtt_err_t × List Nat × Int × W
  network_write : W → List Nat → Int → Int → lwmqtt_err_t × Int × W
  timer_set : W → Timer → Nat → W
  timer_get : W → Timer → Int × W
  callback : Option (W → lwmqtt_string_t → lwmqtt_message_t → W)

/-- Result of `lwmqtt_decode_publish`: the out-parameters. -/
structure PublishFields where
  dup : Bool
  qos : lwmqtt_qos_t
  retained : Bool
  packet_id : Nat
  topic : lwmqtt_string_t
  payload : List Nat
  payload_len : Int
deriving DecidableEq, Repr

/-- The packet codec `client.c` calls.  Encoders take the write buffer and
its size and give back the error, the length and the buffer as written;
decoders take the read buffer and its size and give back the error and
their out-parameters. -/
structure Codec where
  lwmqtt_detect_packet_type : List Nat → lwmqtt_packet_type_t
  lwmqtt_detect_remaining_length : List Nat → Int → lwmqtt_err_t × Int
  lwmqtt_decode_publish : List Nat → Int → lwmqtt_err_t × PublishFields
  lwmqtt_decode_ack : List Nat → Int → lwmqtt_err_t × lwmqtt_packet_type_t × Bool × Nat
  lwmqtt_decode_connack : List Nat → Int → lwmqtt_err_t × Bool × lwmqtt_return_code_t
  lwmqtt_decode_suback : List Nat → Int → lwmqtt_err_t × Nat × Int × lwmqtt_qos_t
  lwmqtt_encode_ack : List Nat → Int → lwmqtt_packet_type_t → Bool → Nat →
    lwmqtt_err_t × Int × List Nat
  lwmqtt_encode_zero : List Nat → Int → lwmqtt_packet_type_t → lwmqtt_err_t × Int × List Nat
  lwmqtt_encode_connect : List Nat → Int → lwmqtt_options_t → Option lwmqtt_will_t →
    lwmqtt_err_t × Int × List Nat
  lwmqtt_encode_subscribe : List Nat → Int → Nat → lwmqtt_string_t → lwmqtt_qos_t →
    lwmqtt_err_t × Int × List Nat
  lwmqtt_encode_unsubscribe : List Nat → Int → Nat → lwmqtt_string_t →
    lwmqtt_err_t × Int × List Nat
  lwmqtt_encode_publish : List Nat → Int → Bool → lwmqtt_qos_t → Bool → Nat →
    lwmqtt_string_t → List Nat → Int → lwmqtt_err_t × Int × List Nat

/-- The data fields of `lwmqtt_client_t`, the outside world the hooks act on,
the ghost trace, and the ghost list of what the transport hooks returned,
one entry per call of `network_peek`, `network_read` and `network_write`, in
the order of the calls. -/
structure lwmqtt_client_t (W : Type) where
  next_packet_id : Nat
  keep_alive_interval : Nat
  ping_outstanding : Bool
  write_buf : List Nat
  write_buf_size : Int
  read_buf : List Nat
  read_buf_size : Int
  world : W
  trace : List Event
  returns : List HookReturn

variable {W : Type}

/-! ## Client engine (`src/client.c`) -/

/-- Model of `lwmqtt_init`: the fields it sets; the ghost lists start empty. -/
def lwmqtt_init (write_buf : List Nat) (write_buf_size : Int) (read_buf : List Nat)
    (read_buf_size : Int) (w : W) : lwmqtt_client_t W :=
  { next_packet_id := 1
    keep_alive_interval := 0
    ping_outstanding := false
    write_buf := write_buf
    write_buf_size := write_buf_size
    read_buf := read_buf
    read_buf_size := read_buf_size
    world := w
    trace := []
    returns := [] }

/-- Model of `lwmqtt_get_next_packet_id`: stores and returns the new id. -/
def lwmqtt_get_next_packet_id (c : lwmqtt_client_t W) : Nat × lwmqtt_client_t W :=
  let id := (if c.next_packet_id = 65535 then 1 else c.next_packet_id + 1) % 65536
  (id, { c with next_packet_id := id })

/-- Call of `c->timer_set(c, ref, ms)`. -/
def call_timer_set (h : Hooks W) (c : lwmqtt_client_t W) (t : Timer) (ms : Nat) :
    lwmqtt_client_t W :=
  { c with world := h.timer_set c.world t ms, trace := c.trace ++ [Event.timer_set t ms] }

/-- Call of `c->timer_get(c, ref)`. -/
def call_timer_get (h : Hooks W) (c : lwmqtt_client_t W) (t : Timer) : Int × lwmqtt_client_t W :=
  let r := h.timer_get c.world t
  (r.1, { c with world := r.2, trace := c.trace ++ [Event.timer_get t] })

/-- Bytes `data` stored into `buf` from offset `off` on. -/
def store_bytes : List Nat → Nat → List Nat → List Nat
  | buf, _, [] => buf
  | buf, off, d :: ds => store_bytes (buf.set off d) (off + 1) ds

/-- Call of `c->network_read(c, c->network, c->read_buf + offset, len, &read,
c->timer_get(c, c->command_timer))`; gives the error and `read`. -/
def call_network_read (h : Hooks W) (c : lwmqtt_client_t W) (offset len : Int) :
    lwmqtt_err_t × Int × lwmqtt_client_t W :=
  let t := call_timer_get h c Timer.command_timer
  let r := h.network_read t.2.world len t.1
  (r.1, r.2.2.1,
    { t.2 with
      read_buf := store_bytes t.2.read_buf offset.toNat (r.2.1.take len.toNat)
      world := r.2.2.2
      trace := t.2.trace ++ [Event.network_read offset len]
      returns := t.2.returns ++
        [{ call := Event.network_read offset len, err := r.1, count := r.2.2.1 }] })

/-- Model of `lwmqtt_send_packet`. -/
def lwmqtt_send_packet (h : Hooks W) (c : lwmqtt_client_t W) (length : Int) :
    lwmqtt_err_t × lwmqtt_client_t W :=
  -- write to network
  let t := call_timer_get h c Timer.command_timer
  let r := h.network_write t.2.world t.2.write_buf length t.1
  let c1 : lwmqtt_client_t W :=
    { t.2 with
      world := r.2.2
      trace := t.2.trace ++ [Event.network_write (t.2.write_buf.take length.toNat) length]
      returns := t.2.returns ++
        [{ call := Event.network_write (t.2.write_buf.take length.toNat) length, err := r.1,
           count := r.2.1 }] }
  if r.1 ≠ LWMQTT_SUCCESS then (r.1, c1)
  -- check length
  else if r.2.1 ≠ length then (LWMQTT_NOT_ENOUGH_DATA, c1)
  -- reset keep alive timer
  else (LWMQTT_SUCCESS, call_timer_set h c1 Timer.keep_alive_timer (c1.keep_alive_interval * 1000))

/-- State of the `do ... while (err == LWMQTT_BUFFER_TOO_SHORT)` loop of
`lwmqtt_read_packet` when it is left; `err = none` when the fuel ran out. -/
structure RemLen (W : Type) where
  err : Option lwmqtt_err_t
  len : Int
  rem_len : Int
  client : lwmqtt_client_t W

/-- The `do ... while` loop of `lwmqtt_read_packet`, one iteration per unit
of fuel.  A `return` inside the loop and the `return err` after it are both
the `err` of the result; `LWMQTT_SUCCESS` comes only from
`lwmqtt_detect_remaining_length`. -/
def read_remaining_length (k : Codec) (h : Hooks W) :
    Nat → lwmqtt_client_t W → Int → RemLen W
  | 0, c, len => { err := none, len := len, rem_len := 0, client := c }
  | fuel + 1, c, len =>
    -- adjust len
    let len := len + 1
    -- read next byte
    let r := call_network_read h c len 1
    if r.1 ≠ LWMQTT_SUCCESS then
      { err := some r.1, len := len, rem_len := 0, client := r.2.2 }
    else if r.2.1 ≠ 1 then
      { err := some LWMQTT_NOT_ENOUGH_DATA, len := len, rem_len := 0, client := r.2.2 }
    else
      -- attempt to detect remaining length
      let d := k.lwmqtt_detect_remaining_length (r.2.2.read_buf.drop 1) len
      if d.1 = LWMQTT_BUFFER_TOO_SHORT then read_remaining_length k h fuel r.2.2 len
      else { err := some d.1, len := len, rem_len := d.2, client := r.2.2 }

/-- Model of `lwmqtt_read_packet` from `// read header byte` on. -/
def read_packet_body (k : Codec) (h : Hooks W) (fuel : Nat) (c : lwmqtt_client_t W)
    (packet_type : lwmqtt_packet_type_t) :
    Option lwmqtt_err_t × lwmqtt_packet_type_t × lwmqtt_client_t W :=
  -- read header byte
  let r := call_network_read h c 0 1
  if r.1 ≠ LWMQTT_SUCCESS then (some r.1, packet_type, r.2.2)
  else if r.2.1 = 0 then (some LWMQTT_SUCCESS, LWMQTT_NO_PACKET, r.2.2)
  else
    -- detect packet type
    let pt := k.lwmqtt_detect_packet_type r.2.2.read_buf
    if pt = LWMQTT_INVALID_PACKET then (some LWMQTT_FAILURE, pt, r.2.2)
    else
      let l := read_remaining_length k h fuel r.2.2 0
      -- check final error
      if l.err ≠ some LWMQTT_SUCCESS then (l.err, pt, l.client)
      -- read the rest of the buffer if needed
      else if l.rem_len > 0 then
        let b := call_network_read h l.client (1 + l.len) l.rem_len
        if b.1 ≠ LWMQTT_SUCCESS then (some b.1, pt, b.2.2)
        else if b.2.1 ≠ l.rem_len then (some LWMQTT_NOT_ENOUGH_DATA, pt, b.2.2)
        else (some LWMQTT_SUCCESS, pt, b.2.2)
      else (some LWMQTT_SUCCESS, pt, l.client)

/-- Model of `lwmqtt_read_packet`; `packet_type` is the value `*packet_type` holds at
the call.  The error is `none` when the fuel ran out. -/
def lwmqtt_read_packet (k : Codec) (h : Hooks W) (fuel : Nat) (c : lwmqtt_client_t W)
    (packet_type : lwmqtt_packet_type_t) :
    Option lwmqtt_err_t × lwmqtt_packet_type_t × lwmqtt_client_t W :=
  -- peek available bytes if supported
  match h.network_peek with
  | some peek =>
    let p := peek c.world
    let c1 : lwmqtt_client_t W :=
      { c with
        world := p.2.2
        trace := c.trace ++ [Event.network_peek]
        returns := c.returns ++ [{ call := Event.network_peek, err := p.1, count := p.2.1 }] }
    if p.1 ≠ LWMQTT_SUCCESS then (some p.1, packet_type, c1)
    -- return if no bytes are available
    else if p.2.1 = 0 then (some LWMQTT_SUCCESS, LWMQTT_NO_PACKET, c1)
    else read_packet_body k h fuel c1 packet_type
  | none => read_packet_body k h fuel c packet_type

/-- Call of `lwmqtt_encode_ack` on the write buffer. -/
def call_encode_ack (k : Codec) (c : lwmqtt_client_t W) (type : lwmqtt_packet_type_t)
    (dup : Bool) (packet_id : Nat) : lwmqtt_err_t × Int × lwmqtt_client_t W :=
  let e := k.lwmqtt_encode_ack c.write_buf c.write_buf_size type dup packet_id
  (e.1, e.2.1,
    { c with write_buf := e.2.2, trace := c.trace ++ [Event.encode_ack type packet_id] })

/-- Call of `lwmqtt_encode_zero` on the write buffer. -/
def call_encode_zero (k : Codec) (c : lwmqtt_client_t W) (type : lwmqtt_packet_type_t) :
    lwmqtt_err_t × Int × lwmqtt_client_t W :=
  let e := k.lwmqtt_encode_zero c.write_buf c.write_buf_size type
  (e.1, e.2.1, { c with write_buf := e.2.2, trace := c.trace ++ [Event.encode_zero type] })

/-- Encode an acknowledgement and send it (the tail shared by the three
handshake cases of `lwmqtt_cycle`). -/
def encode_and_send_ack (k : Codec) (h : Hooks W) (c : lwmqtt_client_t W)
    (type : lwmqtt_packet_type_t) (packet_id : Nat) : lwmqtt_err_t × lwmqtt_client_t W :=
  let e := call_encode_ack k c type false packet_id
  if e.1 ≠ LWMQTT_SUCCESS then (e.1, e.2.2)
  else lwmqtt_send_packet h e.2.2 e.2.1

/-- Call of `c->callback(c, &topic, &msg)` when the callback is set. -/
def call_callback (h : Hooks W) (c : lwmqtt_client_t W) (topic : lwmqtt_string_t)
    (msg : lwmqtt_message_t) : lwmqtt_client_t W :=
  match h.callback with
  | some cb =>
    { c with world := cb c.world topic msg, trace := c.trace ++ [Event.callback topic msg] }
  | none => c

/-- The `LWMQTT_PUBLISH_PACKET` case of `lwmqtt_cycle`. -/
def cycle_publish (k : Codec) (h : Hooks W) (c : lwmqtt_client_t W) :
    lwmqtt_err_t × lwmqtt_client_t W :=
  -- decode publish packet
  let d := k.lwmqtt_decode_publish c.read_buf c.read_buf_size
  if d.1 ≠ LWMQTT_SUCCESS then (d.1, c)
  else
    let msg : lwmqtt_message_t :=
      { qos := d.2.qos, retained := d.2.retained, payload := d.2.payload,
        payload_len := d.2.payload_len }
    -- call callback if set
    let c1 := call_callback h c d.2.topic msg
    -- break early of qos zero
    if msg.qos = LWMQTT_QOS0 then (LWMQTT_SUCCESS, c1)
    else
      -- define ack packet
      let ack_type :=
        if msg.qos = LWMQTT_QOS1 then LWMQTT_PUBREC_PACKET
        else if msg.qos = LWMQTT_QOS2 then LWMQTT_PUBREL_PACKET
        else LWMQTT_NO_PACKET
      encode_and_send_ack k h c1 ack_type d.2.packet_id

/-- The `LWMQTT_PUBREC_PACKET` and `LWMQTT_PUBREL_PACKET` cases of
`lwmqtt_cycle`: decode the acknowledgement (which also writes
`*packet_type`), answer with `reply`. -/
def cycle_ack (k : Codec) (h : Hooks W) (c : lwmqtt_client_t W)
    (reply : lwmqtt_packet_type_t) :
    lwmqtt_err_t × lwmqtt_packet_type_t × lwmqtt_client_t W :=
  let d := k.lwmqtt_decode_ack c.read_buf c.read_buf_size
  if d.1 ≠ LWMQTT_SUCCESS then (d.1, d.2.1, c)
  else
    let r := encode_and_send_ack k h c reply d.2.2.2
    (r.1, d.2.1, r.2)

/-- Model of `lwmqtt_cycle`. -/
def lwmqtt_cycle (k : Codec) (h : Hooks W) (fuel : Nat) (c : lwmqtt_client_t W)
    (packet_type : lwmqtt_packet_type_t) :
    Option lwmqtt_err_t × lwmqtt_packet_type_t × lwmqtt_client_t W :=
  -- read next packet from the network
  let r := lwmqtt_read_packet k h fuel c packet_type
  if r.1 ≠ some LWMQTT_SUCCESS then r
  else if r.2.1 = LWMQTT_NO_PACKET then (some LWMQTT_SUCCESS, r.2.1, r.2.2)
  else
    match r.2.1 with
    | LWMQTT_PUBLISH_PACKET =>
      let p := cycle_publish k h r.2.2
      (some p.1, LWMQTT_PUBLISH_PACKET, p.2)
    | LWMQTT_PUBREC_PACKET =>
      let a := cycle_ack k h r.2.2 LWMQTT_PUBREL_PACKET
      (some a.1, a.2.1, a.2.2)
    | LWMQTT_PUBREL_PACKET =>
      let a := cycle_ack k h r.2.2 LWMQTT_PUBCOMP_PACKET
      (some a.1, a.2.1, a.2.2)
    | LWMQTT_PINGRESP_PACKET =>
      (some LWMQTT_SUCCESS, LWMQTT_PINGRESP_PACKET,
        { r.2.2 with
          ping_outstanding := false
          trace := r.2.2.trace ++ [Event.ping_outstanding false] })
    | pt => (some LWMQTT_SUCCESS, pt, r.2.2)

/-- Model of `lwmqtt_cycle_until`, one iteration of the `do ... while` loop per unit
of fuel; the error is `none` when the fuel ran out. -/
def lwmqtt_cycle_until (k : Codec) (h : Hooks W) :
    Nat → lwmqtt_client_t W → lwmqtt_packet_type_t → lwmqtt_packet_type_t →
      Option lwmqtt_err_t × lwmqtt_packet_type_t × lwmqtt_client_t W
  | 0, c, packet_type, _ => (none, packet_type, c)
  | fuel + 1, c, packet_type, needle =>
    -- do one cycle
    let r := lwmqtt_cycle k h (fuel + 1) c packet_type
    if r.1 ≠ some LWMQTT_SUCCESS then r
    -- check if needle has been found
    else if needle ≠ LWMQTT_NO_PACKET ∧ r.2.1 = needle then (some LWMQTT_SUCCESS, r.2.1, r.2.2)
    else
      let t := call_timer_get h r.2.2 Timer.command_timer
      if t.1 > 0 then lwmqtt_cycle_until k h fuel t.2 r.2.1 needle
      else (some LWMQTT_SUCCESS, r.2.1, t.2)

/-- Call of `lwmqtt_encode_connect` on the write buffer. -/
def call_encode_connect (k : Codec) (c : lwmqtt_client_t W) (options : lwmqtt_options_t)
    (will : Option lwmqtt_will_t) : lwmqtt_err_t × Int × lwmqtt_client_t W :=
  let e := k.lwmqtt_encode_connect c.write_buf c.write_buf_size options will
  (e.1, e.2.1, { c with write_buf := e.2.2, trace := c.trace ++ [Event.encode_connect] })

/-- Call of `lwmqtt_encode_subscribe` on the write buffer, for one topic
filter. -/
def call_encode_subscribe (k : Codec) (c : lwmqtt_client_t W) (packet_id : Nat)
    (topic_filter : lwmqtt_string_t) (qos : lwmqtt_qos_t) :
    lwmqtt_err_t × Int × lwmqtt_client_t W :=
  let e := k.lwmqtt_encode_subscribe c.write_buf c.write_buf_size packet_id topic_filter qos
  (e.1, e.2.1,
    { c with write_buf := e.2.2, trace := c.trace ++ [Event.encode_subscribe packet_id] })

/-- Call of `lwmqtt_encode_unsubscribe` on the write buffer, for one topic
filter. -/
def call_encode_unsubscribe (k : Codec) (c : lwmqtt_client_t W) (packet_id : Nat)
    (topic_filter : lwmqtt_string_t) : lwmqtt_err_t × Int × lwmqtt_client_t W :=
  let e := k.lwmqtt_encode_unsubscribe c.write_buf c.write_buf_size packet_id topic_filter
  (e.1, e.2.1,
    { c with write_buf := e.2.2, trace := c.trace ++ [Event.encode_unsubscribe packet_id] })

/-- Call of `lwmqtt_encode_publish` on the write buffer. -/
def call_encode_publish (k : Codec) (c : lwmqtt_client_t W) (dup : Bool) (qos : lwmqtt_qos_t)
    (retained : Bool) (packet_id : Nat) (topic : lwmqtt_string_t) (payload : List Nat)
    (payload_len : Int) : lwmqtt_err_t × Int × lwmqtt_client_t W :=
  let e := k.lwmqtt_encode_publish c.write_buf c.write_buf_size dup qos retained packet_id topic
    payload payload_len
  (e.1, e.2.1,
    { c with write_buf := e.2.2, trace := c.trace ++ [Event.encode_publish qos packet_id] })

/-- Model of `lwmqtt_yield`. -/
def lwmqtt_yield (k : Codec) (h : Hooks W) (fuel : Nat) (client : lwmqtt_client_t W)
    (timeout : Nat) : Option lwmqtt_err_t × lwmqtt_client_t W :=
  -- set timeout
  let c1 := call_timer_set h client Timer.command_timer timeout
  -- cycle until timeout has been reached
  let r := lwmqtt_cycle_until k h fuel c1 LWMQTT_NO_PACKET LWMQTT_NO_PACKET
  if r.1 ≠ some LWMQTT_SUCCESS then (r.1, r.2.2)
  else (some LWMQTT_SUCCESS, r.2.2)

/-- Model of `lwmqtt_connect` from `// send packet` on, `len` being the encoded
length. -/
def connect_send_and_wait (k : Codec) (h : Hooks W) (fuel : Nat) (client : lwmqtt_client_t W)
    (len : Int) (return_code : lwmqtt_return_code_t) :
    Option lwmqtt_err_t × lwmqtt_return_code_t × lwmqtt_client_t W :=
  -- send packet
  let s := lwmqtt_send_packet h client len
  if s.1 ≠ LWMQTT_SUCCESS then (some s.1, return_code, s.2)
  else
    -- wait for connack packet
    let r := lwmqtt_cycle_until k h fuel s.2 LWMQTT_NO_PACKET LWMQTT_CONNACK_PACKET
    if r.1 ≠ some LWMQTT_SUCCESS then (r.1, return_code, r.2.2)
    else if r.2.1 ≠ LWMQTT_CONNACK_PACKET then (some LWMQTT_FAILURE, return_code, r.2.2)
    else
      -- decode connack packet
      let d := k.lwmqtt_decode_connack r.2.2.read_buf r.2.2.read_buf_size
      if d.1 ≠ LWMQTT_SUCCESS then (some LWMQTT_FAILURE, d.2.2, r.2.2)
      -- return error if connection was not accepted
      else if d.2.2 ≠ LWMQTT_CONNACK_CONNECTION_ACCEPTED then (some LWMQTT_FAILURE, d.2.2, r.2.2)
      else (some LWMQTT_SUCCESS, d.2.2, r.2.2)

/-- Model of `lwmqtt_connect`; `return_code` is the value `*return_code` holds at the
call, the middle component of the result the value it holds at the return. -/
def lwmqtt_connect (k : Codec) (h : Hooks W) (fuel : Nat) (client : lwmqtt_client_t W)
    (options : lwmqtt_options_t) (will : Option lwmqtt_will_t)
    (return_code : lwmqtt_return_code_t) (timeout : Nat) :
    Option lwmqtt_err_t × lwmqtt_return_code_t × lwmqtt_client_t W :=
  -- set timer to command timeout
  let c1 := call_timer_set h client Timer.command_timer timeout
  -- save keep alive interval
  let c2 : lwmqtt_client_t W := { c1 with keep_alive_interval := options.keep_alive }
  -- set keep alive timer
  let c3 :=
    if c2.keep_alive_interval > 0 then
      call_timer_set h c2 Timer.keep_alive_timer (c2.keep_alive_interval * 1000)
    else c2
  -- encode connect packet
  let e := call_encode_connect k c3 options will
  if e.1 ≠ LWMQTT_SUCCESS then (some LWMQTT_FAILURE, return_code, e.2.2)
  else connect_send_and_wait k h fuel e.2.2 e.2.1 return_code

/-- Model of `lwmqtt_subscribe` from `// send packet` on, `len` being the encoded
length. -/
def subscribe_send_and_wait (k : Codec) (h : Hooks W) (fuel : Nat) (client : lwmqtt_client_t W)
    (len : Int) : Option lwmqtt_err_t × lwmqtt_client_t W :=
  -- send packet
  let s := lwmqtt_send_packet h client len
  if s.1 ≠ LWMQTT_SUCCESS then (some s.1, s.2)
  else
    -- wait for suback packet
    let r := lwmqtt_cycle_until k h fuel s.2 LWMQTT_NO_PACKET LWMQTT_SUBACK_PACKET
    if r.1 ≠ some LWMQTT_SUCCESS then (r.1, r.2.2)
    else if r.2.1 ≠ LWMQTT_SUBACK_PACKET then (some LWMQTT_FAILURE, r.2.2)
    else
      -- decode packet
      let d := k.lwmqtt_decode_suback r.2.2.read_buf r.2.2.read_buf_size
      if d.1 = LWMQTT_SUCCESS then (some d.1, r.2.2)
      else (some LWMQTT_SUCCESS, r.2.2)

/-- Model of `lwmqtt_subscribe`. -/
def lwmqtt_subscribe (k : Codec) (h : Hooks W) (fuel : Nat) (client : lwmqtt_client_t W)
    (topic_filter : lwmqtt_string_t) (qos : lwmqtt_qos_t) (timeout : Nat) :
    Option lwmqtt_err_t × lwmqtt_client_t W :=
  -- set timeout
  let c1 := call_timer_set h client Timer.command_timer timeout
  -- encode subscribe packet
  let g := lwmqtt_get_next_packet_id c1
  let e := call_encode_subscribe k g.2 g.1 topic_filter qos
  if e.1 ≠ LWMQTT_SUCCESS then (some e.1, e.2.2)
  else subscribe_send_and_wait k h fuel e.2.2 e.2.1

/-- Model of `lwmqtt_unsubscribe` from `// send unsubscribe packet` on, `len` being
the encoded length. -/
def unsubscribe_send_and_wait (k : Codec) (h : Hooks W) (fuel : Nat)
    (client : lwmqtt_client_t W) (len : Int) : Option lwmqtt_err_t × lwmqtt_client_t W :=
  -- send unsubscribe packet
  let s := lwmqtt_send_packet h client len
  if s.1 ≠ LWMQTT_SUCCESS then (some s.1, s.2)
  else
    -- wait for unsuback packet
    let r := lwmqtt_cycle_until k h fuel s.2 LWMQTT_NO_PACKET LWMQTT_UNSUBACK_PACKET
    if r.1 ≠ some LWMQTT_SUCCESS then (r.1, r.2.2)
    else if r.2.1 ≠ LWMQTT_UNSUBACK_PACKET then (some LWMQTT_FAILURE, r.2.2)
    else
      -- decode unsuback packet
      let d := k.lwmqtt_decode_ack r.2.2.read_buf r.2.2.read_buf_size
      if d.1 ≠ LWMQTT_SUCCESS then (some d.1, r.2.2)
      else (some LWMQTT_SUCCESS, r.2.2)

/-- Model of `lwmqtt_unsubscribe`. -/
def lwmqtt_unsubscribe (k : Codec) (h : Hooks W) (fuel : Nat) (client : lwmqtt_client_t W)
    (topic_filter : lwmqtt_string_t) (timeout : Nat) :
    Option lwmqtt_err_t × lwmqtt_client_t W :=
  -- set timer
  let c1 := call_timer_set h client Timer.command_timer timeout
  -- encode unsubscribe packet
  let g := lwmqtt_get_next_packet_id c1
  let e := call_encode_unsubscribe k g.2 g.1 topic_filter
  if e.1 ≠ LWMQTT_SUCCESS then (some e.1, e.2.2)
  else unsubscribe_send_and_wait k h fuel e.2.2 e.2.1

/-- Model of `lwmqtt_publish` from `// send packet` on, `len` being the encoded length
and `qos` the `message->qos` of the call. -/
def publish_send_and_wait (k : Codec) (h : Hooks W) (fuel : Nat) (client : lwmqtt_client_t W)
    (len : Int) (qos : lwmqtt_qos_t) : Option lwmqtt_err_t × lwmqtt_client_t W :=
  -- send packet
  let s := lwmqtt_send_packet h client len
  if s.1 ≠ LWMQTT_SUCCESS then (some s.1, s.2)
  -- immediately return on qos zero
  else if qos = LWMQTT_QOS0 then (some LWMQTT_SUCCESS, s.2)
  else
    -- define ack packet
    let ack_type :=
      if qos = LWMQTT_QOS1 then LWMQTT_PUBACK_PACKET
      else if qos = LWMQTT_QOS2 then LWMQTT_PUBCOMP_PACKET
      else LWMQTT_NO_PACKET
    -- wait for ack packet
    let r := lwmqtt_cycle_until k h fuel s.2 LWMQTT_NO_PACKET ack_type
    if r.1 ≠ some LWMQTT_SUCCESS then (r.1, r.2.2)
    else if r.2.1 ≠ ack_type then (some LWMQTT_FAILURE, r.2.2)
    else
      -- decode ack packet
      let d := k.lwmqtt_decode_ack r.2.2.read_buf r.2.2.read_buf_size
      if d.1 ≠ LWMQTT_SUCCESS then (some d.1, r.2.2)
      else (some LWMQTT_SUCCESS, r.2.2)

/-- Model of `lwmqtt_publish`. -/
def lwmqtt_publish (k : Codec) (h : Hooks W) (fuel : Nat) (client : lwmqtt_client_t W)
    (topicName : lwmqtt_string_t) (message : lwmqtt_message_t) (timeout : Nat) :
    Option lwmqtt_err_t × lwmqtt_client_t W :=
  -- set timer
  let c1 := call_timer_set h client Timer.command_timer timeout
  -- add packet id if at least qos 1
  let g : Nat × lwmqtt_client_t W :=
    if message.qos = LWMQTT_QOS1 ∨ message.qos = LWMQTT_QOS2 then lwmqtt_get_next_packet_id c1
    else (0, c1)
  -- encode publish packet
  let e := call_encode_publish k g.2 false message.qos message.retained g.1 topicName
    message.payload message.payload_len
  if e.1 ≠ LWMQTT_SUCCESS then (some e.1, e.2.2)
  else publish_send_and_wait k h fuel e.2.2 e.2.1 message.qos

/-- Model of `lwmqtt_disconnect`. -/
def lwmqtt_disconnect (k : Codec) (h : Hooks W) (client : lwmqtt_client_t W) (timeout : Nat) :
    lwmqtt_err_t × lwmqtt_client_t W :=
  -- set timer
  let c1 := call_timer_set h client Timer.command_timer timeout
  -- encode disconnect packet
  let e := call_encode_zero k c1 LWMQTT_DISCONNECT_PACKET
  if e.1 ≠ LWMQTT_SUCCESS then (LWMQTT_FAILURE, e.2.2)
  -- send disconnected packet
  else
    let s := lwmqtt_send_packet h e.2.2 e.2.1
    if s.1 ≠ LWMQTT_SUCCESS then (s.1, s.2)
    else (LWMQTT_SUCCESS, s.2)

/-- Model of `lwmqtt_keep_alive`. -/
def lwmqtt_keep_alive (k : Codec) (h : Hooks W) (client : lwmqtt_client_t W) (timeout : Nat) :
    lwmqtt_err_t × lwmqtt_client_t W :=
  -- set timer
  let c1 := call_timer_set h client Timer.command_timer timeout
  -- return immediately if keep alive interval is zero
  if c1.keep_alive_interval = 0 then (LWMQTT_SUCCESS, c1)
  else
    -- return immediately if no ping is due
    let t := call_timer_get h c1 Timer.keep_alive_timer
    if t.1 > 0 then (LWMQTT_SUCCESS, t.2)
    -- fail immediately if a ping is still outstanding
    else if t.2.ping_outstanding then (LWMQTT_FAILURE, t.2)
    else
      -- encode pingreq packet
      let e := call_encode_zero k t.2 LWMQTT_PINGREQ_PACKET
      if e.1 ≠ LWMQTT_SUCCESS then (e.1, e.2.2)
      else
        -- send packet
        let s := lwmqtt_send_packet h e.2.2 e.2.1
        if s.1 ≠ LWMQTT_SUCCESS then (s.1, s.2)
        -- set flag
        else
          (LWMQTT_SUCCESS,
            { s.2 with
              ping_outstanding := true
              trace := s.2.trace ++ [Event.ping_outstanding true] })

/-! ## Varint helpers (`lwmqtt_write_varnum`, `lwmqtt_read_varnum`)

`tests/helpers.cpp` exercises these two functions of `helpers.c`; the file
itself is not among the sources. -/

/-- Value of `LWMQTT_BUFFER_TOO_SHORT` in `enum errors` of `packet.h`. -/
def LWMQTT_BUFFER_TOO_SHORT_CODE : Int := -2

/-- Modelled from the spec: the digits `lwmqtt_write_varnum` produces (its
source `helpers.c` is absent).  "Encodes a non-negative integer into 1–4
bytes; each byte carries 7 payload bits with the high bit marking
continuation"; for 128·128·128·128 "encode produces 4 bytes".  One digit per
unit of fuel. -/
def varnum_digits : Nat → Nat → List Nat
  | 0, _ => []
  | fuel + 1, num =>
    let digit := num % 128
    let num := num / 128
    if num > 0 then (digit ||| 0x80) :: varnum_digits fuel num
    else [digit]

/-- Modelled from the spec: `lwmqtt_write_varnum(&ptr, num)` of the absent
`helpers.c`, on a buffer `buf` with the cursor at offset `pos`: stores at
most four digits and advances the cursor by the bytes written ("all
cursor-based primitives advance a caller-held pointer/offset by the consumed
bytes").  Gives the buffer and the cursor after the call. -/
def lwmqtt_write_varnum (buf : List Nat) (pos : Nat) (num : Nat) : List Nat × Nat :=
  (store_bytes buf pos (varnum_digits 4 num), pos + (varnum_digits 4 num).length)

/-- Modelled from the spec: the decoding loop of `lwmqtt_read_varnum` (source
absent).  "Decoding accumulates bytes until a byte with the continuation bit
clear"; `none` when the window ends inside the varint or when a fifth byte
would be needed.  Gives the value and the number of bytes consumed. -/
def read_varnum_loop : Nat → List Nat → Nat → Nat → Nat → Option (Nat × Nat)
  | 0, _, _, _, _ => none
  | _ + 1, [], _, _, _ => none
  | fuel + 1, byte :: rest, multiplier, num, len =>
    let num := num + (byte &&& 127) * multiplier
    if byte &&& 128 ≠ 0 then read_varnum_loop fuel rest (multiplier * 128) num (len + 1)
    else some (num, len + 1)

/-- Modelled from the spec: `lwmqtt_read_varnum(&ptr, buf_len)` of the absent
`helpers.c`, on a buffer `buf` with the cursor at offset `pos` and a window of
`buf_len` bytes.  On success the value is returned and the cursor advanced by
the bytes consumed.  When the window is shorter than the varint, and when four
continuation bytes leave "no legal fifth byte", the result is
`LWMQTT_BUFFER_TOO_SHORT` (−2, as `tests/helpers.cpp` expects) and the cursor
stays. -/
def lwmqtt_read_varnum (buf : List Nat) (pos : Nat) (buf_len : Nat) : Int × Nat :=
  match read_varnum_loop 4 ((buf.drop pos).take buf_len) 1 0 0 with
  | some r => (r.1, pos + r.2)
  | none => (LWMQTT_BUFFER_TOO_SHORT_CODE, pos)

/-- Modelled from the spec: the "encoded varint length" of a remaining
length, the number of bytes `lwmqtt_write_varnum` writes for it. -/
def encoded_varint_length (n : Nat) : Nat :=
  (lwmqtt_write_varnum [] 0 n).2

/-- Modelled from the spec: `lwmqtt_fixed_header_len`, declared in `packet.h`
and defined in a file that is absent.  "Fixed header length is
`1 + encoded_varint_length(rem_len)`". -/
def lwmqtt_fixed_header_len (rem_len : Nat) : Nat :=
  1 + encoded_varint_length rem_len

/-! ## A concrete transport, timers and codec for the examples

The theorems below hold for every `Hooks` and every `Codec`.  To run the
engine on concrete inputs the examples use a scripted broker and a small
codec that follows the packet table of the specification. -/

/-- Outside world of the examples: the bytes the broker has queued, the bytes
written so far, the two timers (remaining milliseconds). -/
structure World where
  inbound : List Nat
  outbound : List Nat
  keep_alive_ms : Int
  command_ms : Int
deriving DecidableEq, Repr

/-- Hooks of the examples.  A read with nothing queued waits for the whole
timeout; timers are plain cells. -/
def exampleHooks : Hooks World where
  network_peek := none
  network_read := fun w len timeout =>
    if w.inbound = [] then
      (LWMQTT_SUCCESS, [], 0,
        { w with keep_alive_ms := max 0 (w.keep_alive_ms - timeout), command_ms := 0 })
    else
      (LWMQTT_SUCCESS, w.inbound.take len.toNat, ((w.inbound.take len.toNat).length : Int),
        { w with inbound := w.inbound.drop len.toNat })
  network_write := fun w buf len _ =>
    (LWMQTT_SUCCESS, len, { w with outbound := w.outbound ++ buf.take len.toNat })
  timer_set := fun w t ms =>
    match t with
    | Timer.keep_alive_timer => { w with keep_alive_ms := ms }
    | Timer.command_timer => { w with command_ms := ms }
  timer_get := fun w t =>
    match t with
    | Timer.keep_alive_timer => (w.keep_alive_ms, w)
    | Timer.command_timer => (w.command_ms, w)
  callback := none

/-- Hooks of the examples with a transport whose writes fail. -/
def brokenWriteHooks : Hooks World :=
  { exampleHooks with network_write := fun w _ _ _ => (other (-9), 0, w) }

/-- Hooks of the examples with a transport that accepts one byte less than
asked. -/
def shortWriteHooks : Hooks World :=
  { exampleHooks with
    network_write := fun w buf len _ =>
      (LWMQTT_SUCCESS, len - 1, { w with outbound := w.outbound ++ buf.take (len - 1).toNat }) }

/-- Packet type of a type nibble. -/
def packetTypeOfNibble (n : Nat) : lwmqtt_packet_type_t :=
  match n with
  | 1 => LWMQTT_CONNECT_PACKET
  | 2 => LWMQTT_CONNACK_PACKET
  | 3 => LWMQTT_PUBLISH_PACKET
  | 4 => LWMQTT_PUBACK_PACKET
  | 5 => LWMQTT_PUBREC_PACKET
  | 6 => LWMQTT_PUBREL_PACKET
  | 7 => LWMQTT_PUBCOMP_PACKET
  | 8 => LWMQTT_SUBSCRIBE_PACKET
  | 9 => LWMQTT_SUBACK_PACKET
  | 10 => LWMQTT_UNSUBSCRIBE_PACKET
  | 11 => LWMQTT_UNSUBACK_PACKET
  | 12 => LWMQTT_PINGREQ_PACKET
  | 13 => LWMQTT_PINGRESP_PACKET
  | 14 => LWMQTT_DISCONNECT_PACKET
  | _ => LWMQTT_INVALID_PACKET

/-- First header byte of a packet type (type nibble and fixed flags). -/
def headerByte (t : lwmqtt_packet_type_t) : Nat :=
  match t with
  | LWMQTT_CONNECT_PACKET => 0x10
  | LWMQTT_CONNACK_PACKET => 0x20
  | LWMQTT_PUBLISH_PACKET => 0x30
  | LWMQTT_PUBACK_PACKET => 0x40
  | LWMQTT_PUBREC_PACKET => 0x50
  | LWMQTT_PUBREL_PACKET => 0x62
  | LWMQTT_PUBCOMP_PACKET => 0x70
  | LWMQTT_SUBSCRIBE_PACKET => 0x82
  | LWMQTT_SUBACK_PACKET => 0x90
  | LWMQTT_UNSUBSCRIBE_PACKET => 0xA2
  | LWMQTT_UNSUBACK_PACKET => 0xB0
  | LWMQTT_PINGREQ_PACKET => 0xC0
  | LWMQTT_PINGRESP_PACKET => 0xD0
  | LWMQTT_DISCONNECT_PACKET => 0xE0
  | _ => 0

/-- A 16-bit big-endian integer. -/
def int16 (n : Nat) : List Nat := [n / 256 % 256, n % 256]

/-- A length-mqttString string. -/
def mqttString (s : List Nat) : List Nat := int16 s.length ++ s

/-- Encoder of the examples: the packet `first :: varint(body.length) ++ body`
is stored at the start of the buffer when it fits the buffer size. -/
def encodePacket (buf : List Nat) (size : Int) (first : Nat) (body : List Nat) :
    lwmqtt_err_t × Int × List Nat :=
  let packet := first :: (varnum_digits 4 body.length ++ body)
  if size < packet.length then (LWMQTT_BUFFER_TOO_SHORT, 0, buf)
  else (LWMQTT_SUCCESS, packet.length, store_bytes buf 0 packet)

/-- Modelled from the spec: a codec for the examples, after the packet table
of the specification (the codec sources are absent).  Remaining lengths of one
byte are enough for the examples. -/
def exampleCodec : Codec where
  lwmqtt_detect_packet_type := fun buf => packetTypeOfNibble (buf.headD 0 / 16)
  lwmqtt_detect_remaining_length := fun buf len =>
    match read_varnum_loop 4 (buf.take len.toNat) 1 0 0 with
    | some r => (LWMQTT_SUCCESS, r.1)
    | none => if len ≥ 4 then (other (-4), 0) else (LWMQTT_BUFFER_TOO_SHORT, 0)
  lwmqtt_decode_publish := fun buf _ =>
    let qos := buf.headD 0 / 2 % 4
    let rem := buf.getD 1 0
    let tlen := buf.getD 2 0 * 256 + buf.getD 3 0
    let idlen := if qos > 0 then 2 else 0
    let id := if qos > 0 then buf.getD (4 + tlen) 0 * 256 + buf.getD (5 + tlen) 0 else 0
    let payload := (buf.drop (4 + tlen + idlen)).take (rem - 2 - tlen - idlen)
    (LWMQTT_SUCCESS,
      { dup := buf.headD 0 / 8 % 2 = 1, qos := qos, retained := buf.headD 0 % 2 = 1,
        packet_id := id, topic := (buf.drop 4).take tlen, payload := payload,
        payload_len := payload.length })
  lwmqtt_decode_ack := fun buf _ =>
    (LWMQTT_SUCCESS, packetTypeOfNibble (buf.headD 0 / 16), buf.headD 0 / 8 % 2 = 1,
      buf.getD 2 0 * 256 + buf.getD 3 0)
  lwmqtt_decode_connack := fun buf _ => (LWMQTT_SUCCESS, buf.getD 2 0 % 2 = 1, buf.getD 3 0)
  lwmqtt_decode_suback := fun buf _ =>
    (LWMQTT_SUCCESS, buf.getD 2 0 * 256 + buf.getD 3 0, 1, buf.getD 4 0)
  lwmqtt_encode_ack := fun buf size t _ id => encodePacket buf size (headerByte t) (int16 id)
  lwmqtt_encode_zero := fun buf size t => encodePacket buf size (headerByte t) []
  lwmqtt_encode_connect := fun buf size o _ =>
    encodePacket buf size 0x10
      (mqttString [77, 81, 84, 84] ++ [4, if o.clean_session then 2 else 0] ++ int16 o.keep_alive
        ++ mqttString o.client_id)
  lwmqtt_encode_subscribe := fun buf size id topic qos =>
    encodePacket buf size 0x82 (int16 id ++ mqttString topic ++ [qos])
  lwmqtt_encode_unsubscribe := fun buf size id topic =>
    encodePacket buf size 0xA2 (int16 id ++ mqttString topic)
  lwmqtt_encode_publish := fun buf size dup qos retained id topic payload _ =>
    encodePacket buf size
      (0x30 + (if dup then 8 else 0) + 2 * qos + (if retained then 1 else 0))
      (mqttString topic ++ (if qos > 0 then int16 id else []) ++ payload)

/-- The codec of the examples with an `lwmqtt_encode_zero` that reports an
error (a write buffer that is too small). -/
def failingEncodeCodec : Codec :=
  { exampleCodec with
    lwmqtt_encode_zero := fun buf _ _ => (LWMQTT_BUFFER_TOO_SHORT, 0, buf) }

/-- A fresh client of the examples: 32-byte buffers, the broker has queued
`inbound`. -/
def freshClient (inbound : List Nat) : lwmqtt_client_t World :=
  lwmqtt_init (List.replicate 32 0) 32 (List.replicate 32 0) 32
    { inbound := inbound, outbound := [], keep_alive_ms := 0, command_ms := 0 }

/-! ## Reading the trace -/

/-- The network writes of a trace: the bytes handed to `network_write` and
the length asked for, in order. -/
def network_writes : List Event → List (List Nat × Int)
  | [] => []
  | Event.network_write bytes len :: t => (bytes, len) :: network_writes t
  | _ :: t => network_writes t

/-- The calls of `network_peek` and `network_read` of a trace. -/
def network_reads : List Event → List Event
  | [] => []
  | Event.network_peek :: t => Event.network_peek :: network_reads t
  | Event.network_read offset len :: t => Event.network_read offset len :: network_reads t
  | _ :: t => network_reads t

/-- The values the timer `t` is set to in a trace, in order. -/
def timer_sets (t : Timer) : List Event → List Nat
  | [] => []
  | Event.timer_set u ms :: rest =>
    if u = t then ms :: timer_sets t rest else timer_sets t rest
  | _ :: rest => timer_sets t rest

/-- Events of the send/receive machinery: everything but the calls of the
request encoders made by the commands themselves. -/
def Event.is_engine : Event → Bool
  | Event.encode_connect => false
  | Event.encode_subscribe _ => false
  | Event.encode_unsubscribe _ => false
  | Event.encode_publish _ _ => false
  | _ => true

/-- The packet id of an encoder call is in order: the id handed to the
subscribe and unsubscribe encoders, and to the publish encoder at QoS 1 or 2,
is not zero. -/
def Event.packet_id_ok : Event → Prop
  | Event.encode_subscribe packet_id => packet_id ≠ 0
  | Event.encode_unsubscribe packet_id => packet_id ≠ 0
  | Event.encode_publish qos packet_id => (qos = LWMQTT_QOS1 ∨ qos = LWMQTT_QOS2) → packet_id ≠ 0
  | _ => True

/-- The client `c'` comes from `c` by steps of the send/receive machinery:
the packet-id counter and the keep-alive interval are the same and the trace
has grown by engine events only. -/
structure Extends (c c' : lwmqtt_client_t W) : Prop where
  next_packet_id : c'.next_packet_id = c.next_packet_id
  keep_alive_interval : c'.keep_alive_interval = c.keep_alive_interval
  trace : ∃ evs, c'.trace = c.trace ++ evs ∧ ∀ e ∈ evs, Event.is_engine e = true

/-- The commands of the client with their arguments. -/
inductive Command where
  | connect (options : lwmqtt_options_t) (will : Option lwmqtt_will_t)
      (return_code : lwmqtt_return_code_t) (timeout : Nat)
  | subscribe (topic_filter : lwmqtt_string_t) (qos : lwmqtt_qos_t) (timeout : Nat)
  | unsubscribe (topic_filter : lwmqtt_string_t) (timeout : Nat)
  | publish (topicName : lwmqtt_string_t) (message : lwmqtt_message_t) (timeout : Nat)
  | disconnect (timeout : Nat)
  | yield (timeout : Nat)
  | keep_alive (timeout : Nat)

/-- One command call: the result (`none` when the fuel ran out before the
command returned) and the client afterwards. -/
def run_command (k : Codec) (h : Hooks W) (fuel : Nat) (c : lwmqtt_client_t W) :
    Command → Option lwmqtt_err_t × lwmqtt_client_t W
  | Command.connect options will return_code timeout =>
    let r := lwmqtt_connect k h fuel c options will return_code timeout
    (r.1, r.2.2)
  | Command.subscribe topic_filter qos timeout => lwmqtt_subscribe k h fuel c topic_filter qos timeout
  | Command.unsubscribe topic_filter timeout => lwmqtt_unsubscribe k h fuel c topic_filter timeout
  | Command.publish topicName message timeout => lwmqtt_publish k h fuel c topicName message timeout
  | Command.disconnect timeout =>
    let r := lwmqtt_disconnect k h c timeout
    (some r.1, r.2)
  | Command.yield timeout => lwmqtt_yield k h fuel c timeout
  | Command.keep_alive timeout =>
    let r := lwmqtt_keep_alive k h c timeout
    (some r.1, r.2)

/-- Client states reachable from `lwmqtt_init` by command calls that return,
for a codec and hooks of any behaviour. -/
inductive Reachable (k : Codec) (h : Hooks W) : lwmqtt_client_t W → Prop where
  | init (write_buf : List Nat) (write_buf_size : Int) (read_buf : List Nat)
      (read_buf_size : Int) (w : W) :
      Reachable k h (lwmqtt_init write_buf write_buf_size read_buf read_buf_size w)
  | step (c : lwmqtt_client_t W) (cmd : Command) (fuel : Nat) (e : lwmqtt_err_t) :
      Reachable k h c → (run_command k h fuel c cmd).1 = some e →
      Reachable k h (run_command k h fuel c cmd).2


/-- A client of the examples that is connected with keep-alive interval
`interval` (seconds), whose keep-alive timer reads `remaining` and whose
`ping_outstanding` flag is `ping`. -/
def idleClient (interval : Nat) (remaining : Int) (ping : Bool) : lwmqtt_client_t World :=
  { freshClient [] with
    keep_alive_interval := interval
    ping_outstanding := ping
    world := { inbound := [], outbound := [], keep_alive_ms := remaining, command_ms := 0 } }


/-- The packet ids handed to `lwmqtt_encode_publish` in a trace, in order. -/
def publish_packet_ids : List Event → List Nat
  | [] => []
  | Event.encode_publish _ packet_id :: t => packet_id :: publish_packet_ids t
  | _ :: t => publish_packet_ids t

/-- The packet ids handed to `lwmqtt_encode_subscribe` in a trace, in order. -/
def subscribe_packet_ids : List Event → List Nat
  | [] => []
  | Event.encode_subscribe packet_id :: t => packet_id :: subscribe_packet_ids t
  | _ :: t => subscribe_packet_ids t

/-- The QoS-1 publish scenario of the specification on a fresh client: topic
`"a"`, payload `"x"`, QoS 1, the broker answers with the PUBACK
`40 02 00 01`. -/
def firstPublish : Option lwmqtt_err_t × lwmqtt_client_t World :=
  lwmqtt_publish exampleCodec exampleHooks 10 (freshClient [0x40, 2, 0, 1]) [0x61]
    { qos := LWMQTT_QOS1, retained := false, payload := [0x78], payload_len := 1 } 100

/-- The subscribe scenario of the specification on a fresh client: filter
`"sensors/#"`, QoS 1, the broker answers with the SUBACK `90 03 00 01 01`. -/
def firstSubscribe : Option lwmqtt_err_t × lwmqtt_client_t World :=
  lwmqtt_subscribe exampleCodec exampleHooks 10 (freshClient [0x90, 3, 0, 1, 1])
    [0x73, 0x65, 0x6E, 0x73, 0x6F, 0x72, 0x73, 0x2F, 0x23] LWMQTT_QOS1 100


instance (e : Event) : Decidable (Event.packet_id_ok e) := by
  cases e <;> simp only [Event.packet_id_ok] <;> infer_instance

/-- The packet-id invariant of a client: the counter lies in `1..65535` and
every packet id handed so far to the subscribe and unsubscribe encoders, and
to the publish encoder at QoS 1 or 2, is non-zero. -/
def packet_id_invariant (c : lwmqtt_client_t W) : Prop :=
  1 ≤ c.next_packet_id ∧ c.next_packet_id ≤ 65535 ∧ ∀ e ∈ c.trace, Event.packet_id_ok e


/-! ## The ping flag, the acknowledgements and the transport results -/

/-- The calls of `lwmqtt_encode_ack` of a trace: packet type and packet id,
in order. -/
def encode_acks : List Event → List (lwmqtt_packet_type_t × Nat)
  | [] => []
  | Event.encode_ack type packet_id :: t => (type, packet_id) :: encode_acks t
  | _ :: t => encode_acks t

/-- The calls of the user callback of a trace: topic and message, in
order. -/
def callbacks : List Event → List (lwmqtt_string_t × lwmqtt_message_t)
  | [] => []
  | Event.callback topic msg :: t => (topic, msg) :: callbacks t
  | _ :: t => callbacks t

/-- The value of `ping_outstanding` after the events `evs`, when it was `b`
before them: the last value written, if any. -/
def flag_after (b : Bool) : List Event → Bool
  | [] => b
  | Event.ping_outstanding value :: t => flag_after value t
  | _ :: t => flag_after b t

/-- Events that neither encode a PINGREQ nor write the `ping_outstanding`
flag. -/
def Event.ping_neutral : Event → Bool
  | Event.encode_zero type => decide (type ≠ LWMQTT_PINGREQ_PACKET)
  | Event.ping_outstanding _ => false
  | _ => true

/-- Events that neither encode a PINGREQ nor set the `ping_outstanding`
flag; clearing the flag is allowed. -/
def Event.no_ping : Event → Bool
  | Event.encode_zero type => decide (type ≠ LWMQTT_PINGREQ_PACKET)
  | Event.ping_outstanding value => !value
  | _ => true

/-- The client `c'` comes from `c` by steps that leave the ping exchange
alone: the flag is the same and the trace has grown by events that neither
encode a PINGREQ nor write the flag. -/
def PingQuiet (c c' : lwmqtt_client_t W) : Prop :=
  c'.ping_outstanding = c.ping_outstanding
    ∧ ∃ evs, c'.trace = c.trace ++ evs ∧ ∀ e ∈ evs, Event.ping_neutral e = true

/-- The client `c'` comes from `c` by steps that encode no PINGREQ and do not
set the flag: the trace has grown by such events and the flag is what the
flag writes among them leave. -/
def PingStep (c c' : lwmqtt_client_t W) : Prop :=
  ∃ evs, c'.trace = c.trace ++ evs ∧ (∀ e ∈ evs, Event.no_ping e = true)
    ∧ c'.ping_outstanding = flag_after c.ping_outstanding evs

/-- The events of one PINGREQ that was encoded, written in full (the
keep-alive timer is re-armed only then) and followed by the setting of the
flag. -/
def pingreq_block (bytes : List Nat) (len : Int) (ms : Nat) : List Event :=
  [Event.encode_zero LWMQTT_PINGREQ_PACKET, Event.timer_get Timer.command_timer,
    Event.network_write bytes len, Event.timer_set Timer.keep_alive_timer ms,
    Event.ping_outstanding true]

/-- The ping invariant of a client: the flag is the last value written to it
(false when none was written since `lwmqtt_init`), and when it is set the
trace is `pre ++ block ++ post` where the flag was clear after `pre`, `block`
is one PINGREQ encoded and written in full, and `post` neither encodes a
PINGREQ nor writes the flag. -/
def ping_invariant (c : lwmqtt_client_t W) : Prop :=
  c.ping_outstanding = flag_after false c.trace
    ∧ (c.ping_outstanding = true →
        ∃ pre bytes len ms post,
          c.trace = pre ++ pingreq_block bytes len ms ++ post
            ∧ flag_after false pre = false
            ∧ ∀ e ∈ post, Event.ping_neutral e = true)

/-- The error a transport result forces on the run: the error of the hook
when it is not `LWMQTT_SUCCESS`; `LWMQTT_NOT_ENOUGH_DATA` for a read past the
header byte or a write whose count differs from the length asked for; nothing
otherwise. -/
def HookReturn.forces (r : HookReturn) : Option lwmqtt_err_t :=
  if r.err ≠ LWMQTT_SUCCESS then some r.err
  else
    match r.call with
    | Event.network_read offset len =>
      if offset ≠ 0 ∧ r.count ≠ len then some LWMQTT_NOT_ENOUGH_DATA else none
    | Event.network_write _ len =>
      if r.count ≠ len then some LWMQTT_NOT_ENOUGH_DATA else none
    | _ => none

/-- The transport results `new` of a run with result `res` are in order: a
result that forces an error is the last one and its error is the result of
the run. -/
def Verbatim (res : Option lwmqtt_err_t) : List HookReturn → Prop
  | [] => True
  | r :: rest => (∀ e, r.forces = some e → rest = [] ∧ res = some e) ∧ Verbatim res rest

/-- The run from `c` to `c'` with result `res` has added transport results
that are in order. -/
def TransportStep (c c' : lwmqtt_client_t W) (res : Option lwmqtt_err_t) : Prop :=
  ∃ new, c'.returns = c.returns ++ new ∧ Verbatim res new


/-- The number of PINGREQ packets encoded in a trace. -/
def pingreq_encodes : List Event → Nat
  | [] => 0
  | Event.encode_zero type :: t =>
    (if type = LWMQTT_PINGREQ_PACKET then 1 else 0) + pingreq_encodes t
  | _ :: t => pingreq_encodes t

/-- A session of the examples: connect with keep-alive 5 s (the broker
answers with the CONNACK `20 02 00 00`), then yield for 5000 ms with nothing
arriving. -/
def idleSession : lwmqtt_client_t World :=
  (run_command exampleCodec exampleHooks 10
    (run_command exampleCodec exampleHooks 10 (freshClient [0x20, 2, 0, 0])
      (Command.connect
        { client_id := [0x63], clean_session := true, keep_alive := 5, username := none,
          password := none } none 0 100)).2
    (Command.yield 5000)).2

/-- The session of the examples after a `lwmqtt_keep_alive` call that found
the keep-alive timer run down. -/
def pingedSession : lwmqtt_client_t World :=
  (run_command exampleCodec exampleHooks 10 idleSession (Command.keep_alive 100)).2

/-- A fresh client of the examples to which the broker has sent the QoS-1
PUBLISH `32 06 00 01 74 00 07 70` (topic `"t"`, packet id 7, payload `"p"`). -/
def publishInbound : lwmqtt_client_t World :=
  freshClient [0x32, 6, 0, 1, 0x74, 0, 7, 0x70]

/-- A fresh client of the examples to which the broker has sent the PUBREC
`50 02 00 09` (packet id 9). -/
def pubrecInbound : lwmqtt_client_t World :=
  freshClient [0x50, 2, 0, 9]

/-- Hooks of the examples with a user callback set (one that leaves the
outside world as it is). -/
def callbackHooks : Hooks World :=
  { exampleHooks with callback := some (fun w _ _ => w) }

/-- A fresh client of the examples whose write buffer has only two bytes: no
CONNECT, SUBSCRIBE or PUBLISH fits it. -/
def smallBufferClient (inbound : List Nat) : lwmqtt_client_t World :=
  lwmqtt_init [0, 0] 2 (List.replicate 32 0) 32
    { inbound := inbound, outbound := [], keep_alive_ms := 0, command_ms := 0 }

/-- The codec of the examples with an `lwmqtt_decode_suback` that rejects a
SUBACK whose remaining length is below 3 (no return code) with the error
`other (-7)`. -/
def checkedSubackCodec : Codec :=
  { exampleCodec with
    lwmqtt_decode_suback := fun buf size =>
      if buf.getD 1 0 < 3 then (other (-7), 0, 0, 0)
      else exampleCodec.lwmqtt_decode_suback buf size }

/-- The connect options of the examples: client id `"c"`, clean session,
keep-alive 60 s. -/
def exampleOptions : lwmqtt_options_t :=
  { client_id := [0x63], clean_session := true, keep_alive := 60, username := none,
    password := none }

/-- The transport hook calls of a trace (`network_peek`, `network_read`,
`network_write`), in order. -/
def transport_calls : List Event → List Event
  | [] => []
  | Event.network_peek :: t => Event.network_peek :: transport_calls t
  | Event.network_read offset len :: t => Event.network_read offset len :: transport_calls t
  | Event.network_write bytes len :: t => Event.network_write bytes len :: transport_calls t
  | _ :: t => transport_calls t

/-- From `c` to `c'` every transport hook call of the trace has its result in
`returns`, in the same order, and `returns` holds nothing else. -/
def Logged (c c' : lwmqtt_client_t W) : Prop :=
  ∃ evs new, c'.trace = c.trace ++ evs ∧ c'.returns = c.returns ++ new
    ∧ transport_calls evs = new.map HookReturn.call

/-- Hooks of the examples with a transport that can tell how many bytes are
queued. -/
def peekHooks : Hooks World :=
  { exampleHooks with
    network_peek := some (fun w => (LWMQTT_SUCCESS, (w.inbound.length : Int), w)) }

/-- Every `network_read` call of the trace stays inside a buffer of `size`
bytes: it targets the offsets `offset .. offset + len - 1` with
`0 ≤ offset` and `offset + len ≤ size`. -/
def reads_within (size : Int) : List Event → Bool
  | [] => true
  | Event.network_read offset len :: t =>
    decide (0 ≤ offset ∧ offset + len ≤ size) && reads_within size t
  | _ :: t => reads_within size t

/-- A fresh client of the examples whose read buffer has only four bytes; the
broker has queued `inbound`. -/
def tightReadClient (inbound : List Nat) : lwmqtt_client_t World :=
  lwmqtt_init (List.replicate 32 0) 32 (List.replicate 4 0) 4
    { inbound := inbound, outbound := [], keep_alive_ms := 0, command_ms := 0 }

/-- The codec `k` with other packet ids in the acknowledgements a command
waits for: the id that `lwmqtt_decode_ack` gives for a packet whose header
byte is not that of a PUBREC or PUBREL (a PUBACK, PUBCOMP or UNSUBACK), and
the id that `lwmqtt_decode_suback` gives, are replaced by their image under
`f`.  Everything else the codec gives is as in `k`. -/
def Codec.remap_ack_id (k : Codec) (f : Nat → Nat) : Codec :=
  { k with
    lwmqtt_decode_ack := fun buf size =>
      let d := k.lwmqtt_decode_ack buf size
      if k.lwmqtt_detect_packet_type buf = LWMQTT_PUBREC_PACKET
          ∨ k.lwmqtt_detect_packet_type buf = LWMQTT_PUBREL_PACKET then d
      else (d.1, d.2.1, d.2.2.1, f d.2.2.2)
    lwmqtt_decode_suback := fun buf size =>
      let d := k.lwmqtt_decode_suback buf size
      (d.1, f d.2.1, d.2.2.1, d.2.2.2) }

/-- The states of the `do ... while` loop of `lwmqtt_cycle_until` (fuel left,
client, `*packet_type`) at the start of its passes, from the state `s` on:
`s` itself, and after a pass whose cycle returned `LWMQTT_SUCCESS`, did not
find the needle and found the command timer still running, the state the
next pass starts in. -/
inductive LoopReaches (k : Codec) (h : Hooks W) (needle : lwmqtt_packet_type_t)
    (s : Nat × lwmqtt_client_t W × lwmqtt_packet_type_t) :
    Nat × lwmqtt_client_t W × lwmqtt_packet_type_t → Prop where
  | start : LoopReaches k h needle s s
  | again (n : Nat) (c : lwmqtt_client_t W) (packet_type : lwmqtt_packet_type_t) :
      LoopReaches k h needle s (n + 1, c, packet_type) →
      (lwmqtt_cycle k h (n + 1) c packet_type).1 = some LWMQTT_SUCCESS →
      ¬ (needle ≠ LWMQTT_NO_PACKET ∧ (lwmqtt_cycle k h (n + 1) c packet_type).2.1 = needle) →
      (call_timer_get h (lwmqtt_cycle k h (n + 1) c packet_type).2.2 Timer.command_timer).1 > 0 →
      LoopReaches k h needle s
        (n, (call_timer_get h (lwmqtt_cycle k h (n + 1) c packet_type).2.2
              Timer.command_timer).2,
          (lwmqtt_cycle k h (n + 1) c packet_type).2.1)

/-- The codec of the examples with an `lwmqtt_decode_publish` that rejects
every PUBLISH with the error `other (-5)`. -/
def failingDecodeCodec : Codec :=
  { exampleCodec with
    lwmqtt_decode_publish := fun buf size =>
      (other (-5), (exampleCodec.lwmqtt_decode_publish buf size).2) }

/-! # Theorems -/

theorem network_writes_append (a b : List Event) :
    network_writes (a ++ b) = network_writes a ++ network_writes b := by
  induction a with
  | nil => rfl
  | cons e t ih => cases e <;> simp [network_writes, ih]

theorem network_reads_append (a b : List Event) :
    network_reads (a ++ b) = network_reads a ++ network_reads b := by
  induction a with
  | nil => rfl
  | cons e t ih => cases e <;> simp [network_reads, ih]

theorem timer_sets_append (t : Timer) (a b : List Event) :
    timer_sets t (a ++ b) = timer_sets t a ++ timer_sets t b := by
  induction a with
  | nil => rfl
  | cons e r ih =>
    cases e <;> simp [timer_sets, ih]
    split <;> simp

/-! ## C1: the packet-id allocator -/

/-- C1: for a client whose `next_packet_id` is `p` with `1 ≤ p ≤ 65535`,
`lwmqtt_get_next_packet_id` returns `1` when `p = 65535` and `p + 1`
otherwise, stores the returned value as the new `next_packet_id` (and
changes nothing else), and the returned id is not `0`. -/
theorem get_next_packet_id_spec (c : lwmqtt_client_t W) (h1 : 1 ≤ c.next_packet_id)
    (h2 : c.next_packet_id ≤ 65535) :
    (lwmqtt_get_next_packet_id c).1 = (if c.next_packet_id = 65535 then 1 else c.next_packet_id + 1)
      ∧ (lwmqtt_get_next_packet_id c).2 =
          { c with next_packet_id := (lwmqtt_get_next_packet_id c).1 }
      ∧ (lwmqtt_get_next_packet_id c).1 ≠ 0 := by
  have hid : (lwmqtt_get_next_packet_id c).1
      = (if c.next_packet_id = 65535 then 1 else c.next_packet_id + 1) := by
    simp only [lwmqtt_get_next_packet_id]
    split <;> omega
  refine ⟨hid, rfl, ?_⟩
  rw [hid]
  split <;> omega

/-- C1, at the wrap: a client with `next_packet_id = 65535` is handed `1`. -/
theorem get_next_packet_id_spec_witness :
    1 ≤ ({ freshClient [] with next_packet_id := 65535 } : lwmqtt_client_t World).next_packet_id
      ∧ ({ freshClient [] with next_packet_id := 65535 } : lwmqtt_client_t World).next_packet_id
          ≤ 65535
      ∧ (lwmqtt_get_next_packet_id { freshClient [] with next_packet_id := 65535 }).1 = 1 :=
  ⟨by decide, by decide,
    (get_next_packet_id_spec { freshClient [] with next_packet_id := 65535 }
      (by decide) (by decide)).1⟩

/-! ## C10: `lwmqtt_send_packet` -/

/-- C10: `lwmqtt_send_packet(len)` calls the write hook once, with the
reading of the command timer as deadline.  If the hook succeeds and reports
`sent = len` the result is `LWMQTT_SUCCESS` and the keep-alive timer has been
set to `keep_alive_interval * 1000`; if the hook succeeds with `sent ≠ len`
the result is `LWMQTT_NOT_ENOUGH_DATA`; if the hook fails its error is the
result; on the last two paths no timer is set. -/
theorem send_packet_spec (h : Hooks W) (c : lwmqtt_client_t W) (len : Int) :
    let t := h.timer_get c.world Timer.command_timer
    let wr := h.network_write t.2 c.write_buf len t.1
    let r := lwmqtt_send_packet h c len
    (wr.1 = LWMQTT_SUCCESS → wr.2.1 = len →
        r.1 = LWMQTT_SUCCESS
        ∧ r.2.world = h.timer_set wr.2.2 Timer.keep_alive_timer (c.keep_alive_interval * 1000)
        ∧ r.2.trace = c.trace ++ [Event.timer_get Timer.command_timer,
            Event.network_write (c.write_buf.take len.toNat) len,
            Event.timer_set Timer.keep_alive_timer (c.keep_alive_interval * 1000)])
    ∧ (wr.1 = LWMQTT_SUCCESS → wr.2.1 ≠ len →
        r.1 = LWMQTT_NOT_ENOUGH_DATA
        ∧ r.2.world = wr.2.2
        ∧ r.2.trace = c.trace ++ [Event.timer_get Timer.command_timer,
            Event.network_write (c.write_buf.take len.toNat) len]
        ∧ timer_sets Timer.keep_alive_timer r.2.trace = timer_sets Timer.keep_alive_timer c.trace)
    ∧ (wr.1 ≠ LWMQTT_SUCCESS →
        r.1 = wr.1
        ∧ r.2.world = wr.2.2
        ∧ r.2.trace = c.trace ++ [Event.timer_get Timer.command_timer,
            Event.network_write (c.write_buf.take len.toNat) len]
        ∧ timer_sets Timer.keep_alive_timer r.2.trace = timer_sets Timer.keep_alive_timer c.trace) := by
  intro t wr r
  refine ⟨fun h1 h2 => ?_, fun h1 h2 => ?_, fun h1 => ?_⟩
  · simp [r, lwmqtt_send_packet, call_timer_get, call_timer_set, wr, t] at *
    simp [h1, h2]
  · simp [r, lwmqtt_send_packet, call_timer_get, call_timer_set, wr, t] at *
    simp [h1, h2, timer_sets_append, timer_sets]
  · simp [r, lwmqtt_send_packet, call_timer_get, call_timer_set, wr, t] at *
    simp [h1, timer_sets_append, timer_sets]


/-- C10 on the three transports of the examples: a full write re-arms the
keep-alive timer (5 s give 5000 ms), a short write and a failed write leave
it at its old reading. -/
theorem send_packet_spec_witness :
    ((lwmqtt_send_packet exampleHooks (idleClient 5 0 false) 2).1 = LWMQTT_SUCCESS
      ∧ (lwmqtt_send_packet exampleHooks (idleClient 5 0 false) 2).2.world.keep_alive_ms = 5000)
    ∧ ((lwmqtt_send_packet shortWriteHooks (idleClient 5 0 false) 2).1 = LWMQTT_NOT_ENOUGH_DATA
      ∧ (lwmqtt_send_packet shortWriteHooks (idleClient 5 0 false) 2).2.world.keep_alive_ms = 0)
    ∧ ((lwmqtt_send_packet brokenWriteHooks (idleClient 5 0 false) 2).1 = other (-9)
      ∧ (lwmqtt_send_packet brokenWriteHooks (idleClient 5 0 false) 2).2.world.keep_alive_ms = 0) :=
  ⟨⟨((send_packet_spec exampleHooks (idleClient 5 0 false) 2).1 rfl rfl).1,
     congrArg World.keep_alive_ms
       ((send_packet_spec exampleHooks (idleClient 5 0 false) 2).1 rfl rfl).2.1⟩,
   ⟨((send_packet_spec shortWriteHooks (idleClient 5 0 false) 2).2.1 rfl (by decide)).1,
     congrArg World.keep_alive_ms
       ((send_packet_spec shortWriteHooks (idleClient 5 0 false) 2).2.1 rfl (by decide)).2.1⟩,
   ⟨((send_packet_spec brokenWriteHooks (idleClient 5 0 false) 2).2.2 (by decide)).1,
     congrArg World.keep_alive_ms
       ((send_packet_spec brokenWriteHooks (idleClient 5 0 false) 2).2.2 (by decide)).2.1⟩⟩

/-! ## C7, C8, C9: `lwmqtt_keep_alive` -/

/-- C7: when `keep_alive_interval > 0`, the keep-alive timer reads `0` and
`ping_outstanding` is set, `lwmqtt_keep_alive` returns `LWMQTT_FAILURE`,
leaves `ping_outstanding` set, and does nothing but set the command timer and
read the keep-alive timer: no network write takes place. -/
theorem keep_alive_overdue (k : Codec) (h : Hooks W) (c : lwmqtt_client_t W) (timeout : Nat)
    (hinterval : c.keep_alive_interval > 0)
    (hdue : (h.timer_get (h.timer_set c.world Timer.command_timer timeout)
      Timer.keep_alive_timer).1 = 0)
    (hping : c.ping_outstanding = true) :
    (lwmqtt_keep_alive k h c timeout).1 = LWMQTT_FAILURE
    ∧ (lwmqtt_keep_alive k h c timeout).2.ping_outstanding = true
    ∧ (lwmqtt_keep_alive k h c timeout).2.trace
        = c.trace ++ [Event.timer_set Timer.command_timer timeout,
            Event.timer_get Timer.keep_alive_timer]
    ∧ network_writes (lwmqtt_keep_alive k h c timeout).2.trace = network_writes c.trace := by
  have hne : c.keep_alive_interval ≠ 0 := by omega
  simp [lwmqtt_keep_alive, call_timer_set, call_timer_get, hne, hdue, hping,
    network_writes_append, network_writes]

/-- C7 on the examples: interval 5 s, timer at 0, a ping outstanding. -/
theorem keep_alive_overdue_witness :
    (idleClient 5 0 true).keep_alive_interval > 0
    ∧ (exampleHooks.timer_get (exampleHooks.timer_set (idleClient 5 0 true).world
        Timer.command_timer 100) Timer.keep_alive_timer).1 = 0
    ∧ (idleClient 5 0 true).ping_outstanding = true
    ∧ (lwmqtt_keep_alive exampleCodec exampleHooks (idleClient 5 0 true) 100).1 = LWMQTT_FAILURE
    ∧ (lwmqtt_keep_alive exampleCodec exampleHooks (idleClient 5 0 true) 100).2.world.outbound
        = [] :=
  ⟨by decide, rfl, rfl,
    (keep_alive_overdue exampleCodec exampleHooks (idleClient 5 0 true) 100
      (by decide) rfl rfl).1, rfl⟩

/-- C8: when `keep_alive_interval > 0`, the keep-alive timer reads `0` and
`ping_outstanding` is clear, `lwmqtt_keep_alive` encodes a PINGREQ.  If the
encoder and the write hook succeed and the hook reports the whole length
sent, exactly one network write is made, of the encoded PINGREQ,
`ping_outstanding` becomes set and the result is `LWMQTT_SUCCESS`.  If the
encoder fails, its error is the result, nothing is written and the flag stays
clear; if the send fails (hook error, or `LWMQTT_NOT_ENOUGH_DATA` for a short
write), that error is the result and the flag stays clear. -/
theorem keep_alive_ping_due (k : Codec) (h : Hooks W) (c : lwmqtt_client_t W) (timeout : Nat)
    (hinterval : c.keep_alive_interval > 0)
    (hdue : (h.timer_get (h.timer_set c.world Timer.command_timer timeout)
      Timer.keep_alive_timer).1 = 0)
    (hping : c.ping_outstanding = false) :
    let w1 := (h.timer_get (h.timer_set c.world Timer.command_timer timeout)
      Timer.keep_alive_timer).2
    let e := k.lwmqtt_encode_zero c.write_buf c.write_buf_size LWMQTT_PINGREQ_PACKET
    let t := h.timer_get w1 Timer.command_timer
    let wr := h.network_write t.2 e.2.2 e.2.1 t.1
    let r := lwmqtt_keep_alive k h c timeout
    (e.1 = LWMQTT_SUCCESS → wr.1 = LWMQTT_SUCCESS → wr.2.1 = e.2.1 →
        r.1 = LWMQTT_SUCCESS ∧ r.2.ping_outstanding = true
        ∧ network_writes r.2.trace
            = network_writes c.trace ++ [(e.2.2.take e.2.1.toNat, e.2.1)]
        ∧ Event.encode_zero LWMQTT_PINGREQ_PACKET ∈ r.2.trace)
    ∧ (e.1 ≠ LWMQTT_SUCCESS →
        r.1 = e.1 ∧ r.2.ping_outstanding = false
        ∧ network_writes r.2.trace = network_writes c.trace)
    ∧ (e.1 = LWMQTT_SUCCESS → wr.1 ≠ LWMQTT_SUCCESS →
        r.1 = wr.1 ∧ r.2.ping_outstanding = false)
    ∧ (e.1 = LWMQTT_SUCCESS → wr.1 = LWMQTT_SUCCESS → wr.2.1 ≠ e.2.1 →
        r.1 = LWMQTT_NOT_ENOUGH_DATA ∧ r.2.ping_outstanding = false) := by
  have hne : c.keep_alive_interval ≠ 0 := by omega
  intro w1 e t wr r
  refine ⟨fun h1 h2 h3 => ?_, fun h1 => ?_, fun h1 h2 => ?_, fun h1 h2 h3 => ?_⟩
  · simp [r, lwmqtt_keep_alive, call_timer_set, call_timer_get, call_encode_zero,
      lwmqtt_send_packet, w1, e, t, wr] at *
    simp [hne, hdue, hping, h1, h2, h3, network_writes_append, network_writes]
  · simp [r, lwmqtt_keep_alive, call_timer_set, call_timer_get, call_encode_zero,
      lwmqtt_send_packet, w1, e, t, wr] at *
    simp [hne, hdue, hping, h1, network_writes_append, network_writes]
  · simp [r, lwmqtt_keep_alive, call_timer_set, call_timer_get, call_encode_zero,
      lwmqtt_send_packet, w1, e, t, wr] at *
    simp [hne, hdue, hping, h1, h2]
  · simp [r, lwmqtt_keep_alive, call_timer_set, call_timer_get, call_encode_zero,
      lwmqtt_send_packet, w1, e, t, wr] at *
    simp [hne, hdue, hping, h1, h2, h3]

/-- C8 on the examples: the PINGREQ `C0 00` is the one packet written and the
flag is set; with a failing encoder, a failing transport or a short write the
error comes back and the flag stays clear. -/
theorem keep_alive_ping_due_witness :
    ((idleClient 5 0 false).keep_alive_interval > 0
      ∧ (exampleHooks.timer_get (exampleHooks.timer_set (idleClient 5 0 false).world
          Timer.command_timer 100) Timer.keep_alive_timer).1 = 0
      ∧ (idleClient 5 0 false).ping_outstanding = false)
    ∧ ((lwmqtt_keep_alive exampleCodec exampleHooks (idleClient 5 0 false) 100).1 = LWMQTT_SUCCESS
      ∧ (lwmqtt_keep_alive exampleCodec exampleHooks (idleClient 5 0 false) 100).2.ping_outstanding
          = true
      ∧ (lwmqtt_keep_alive exampleCodec exampleHooks (idleClient 5 0 false) 100).2.world.outbound
          = [0xC0, 0])
    ∧ ((lwmqtt_keep_alive failingEncodeCodec exampleHooks (idleClient 5 0 false) 100).1
          = LWMQTT_BUFFER_TOO_SHORT
      ∧ (lwmqtt_keep_alive failingEncodeCodec exampleHooks (idleClient 5 0 false)
          100).2.ping_outstanding = false)
    ∧ ((lwmqtt_keep_alive exampleCodec brokenWriteHooks (idleClient 5 0 false) 100).1 = other (-9)
      ∧ (lwmqtt_keep_alive exampleCodec brokenWriteHooks (idleClient 5 0 false)
          100).2.ping_outstanding = false)
    ∧ ((lwmqtt_keep_alive exampleCodec shortWriteHooks (idleClient 5 0 false) 100).1
          = LWMQTT_NOT_ENOUGH_DATA
      ∧ (lwmqtt_keep_alive exampleCodec shortWriteHooks (idleClient 5 0 false)
          100).2.ping_outstanding = false) :=
  ⟨⟨by decide, rfl, rfl⟩,
   ⟨((keep_alive_ping_due exampleCodec exampleHooks (idleClient 5 0 false) 100
        (by decide) rfl rfl).1 rfl rfl rfl).1,
    ((keep_alive_ping_due exampleCodec exampleHooks (idleClient 5 0 false) 100
        (by decide) rfl rfl).1 rfl rfl rfl).2.1, rfl⟩,
   ⟨((keep_alive_ping_due failingEncodeCodec exampleHooks (idleClient 5 0 false) 100
        (by decide) rfl rfl).2.1 (by decide)).1,
    ((keep_alive_ping_due failingEncodeCodec exampleHooks (idleClient 5 0 false) 100
        (by decide) rfl rfl).2.1 (by decide)).2.1⟩,
   ⟨((keep_alive_ping_due exampleCodec brokenWriteHooks (idleClient 5 0 false) 100
        (by decide) rfl rfl).2.2.1 rfl (by decide)).1,
    ((keep_alive_ping_due exampleCodec brokenWriteHooks (idleClient 5 0 false) 100
        (by decide) rfl rfl).2.2.1 rfl (by decide)).2⟩,
   ⟨((keep_alive_ping_due exampleCodec shortWriteHooks (idleClient 5 0 false) 100
        (by decide) rfl rfl).2.2.2 rfl rfl (by decide)).1,
    ((keep_alive_ping_due exampleCodec shortWriteHooks (idleClient 5 0 false) 100
        (by decide) rfl rfl).2.2.2 rfl rfl (by decide)).2⟩⟩

/-- C9: when `keep_alive_interval = 0` or the keep-alive timer reads more
than `0`, `lwmqtt_keep_alive` returns `LWMQTT_SUCCESS`; it sets the command
timer and, for a non-zero interval, reads the keep-alive timer, and does
nothing else: no network read or write, no `timer_set` on the keep-alive
timer, and `ping_outstanding`, `next_packet_id`, `keep_alive_interval` and
the buffers are as before; the outside world is what these one or two timer
hooks made of it. -/
theorem keep_alive_not_due (k : Codec) (h : Hooks W) (c : lwmqtt_client_t W) (timeout : Nat)
    (hnot : c.keep_alive_interval = 0
      ∨ (h.timer_get (h.timer_set c.world Timer.command_timer timeout)
          Timer.keep_alive_timer).1 > 0) :
    let r := lwmqtt_keep_alive k h c timeout
    r.1 = LWMQTT_SUCCESS
    ∧ r.2.ping_outstanding = c.ping_outstanding
    ∧ r.2.next_packet_id = c.next_packet_id
    ∧ r.2.keep_alive_interval = c.keep_alive_interval
    ∧ r.2.write_buf = c.write_buf ∧ r.2.read_buf = c.read_buf
    ∧ r.2.world = (if c.keep_alive_interval = 0 then
          h.timer_set c.world Timer.command_timer timeout
        else (h.timer_get (h.timer_set c.world Timer.command_timer timeout)
          Timer.keep_alive_timer).2)
    ∧ r.2.trace = c.trace ++ (Event.timer_set Timer.command_timer timeout ::
        (if c.keep_alive_interval = 0 then [] else [Event.timer_get Timer.keep_alive_timer]))
    ∧ network_writes r.2.trace = network_writes c.trace
    ∧ network_reads r.2.trace = network_reads c.trace
    ∧ timer_sets Timer.keep_alive_timer r.2.trace = timer_sets Timer.keep_alive_timer c.trace := by
  intro r
  by_cases h0 : c.keep_alive_interval = 0
  · simp [r, lwmqtt_keep_alive, call_timer_set, h0, network_writes_append, network_writes,
      network_reads_append, network_reads, timer_sets_append, timer_sets]
  · have hpos : (h.timer_get (h.timer_set c.world Timer.command_timer timeout)
        Timer.keep_alive_timer).1 > 0 := by
      rcases hnot with h1 | h1
      · exact absurd h1 h0
      · exact h1
    simp [r, lwmqtt_keep_alive, call_timer_set, call_timer_get, h0, hpos, network_writes_append,
      network_writes, network_reads_append, network_reads, timer_sets_append, timer_sets]

/-- C9 on the examples: interval 5 s with 1200 ms left on the keep-alive
timer; nothing is written and the timer still reads 1200. -/
theorem keep_alive_not_due_witness :
    ((idleClient 5 1200 false).keep_alive_interval = 0
      ∨ (exampleHooks.timer_get (exampleHooks.timer_set (idleClient 5 1200 false).world
          Timer.command_timer 100) Timer.keep_alive_timer).1 > 0)
    ∧ (lwmqtt_keep_alive exampleCodec exampleHooks (idleClient 5 1200 false) 100).1
        = LWMQTT_SUCCESS
    ∧ (lwmqtt_keep_alive exampleCodec exampleHooks (idleClient 5 1200 false) 100).2.world
        = { inbound := [], outbound := [], keep_alive_ms := 1200, command_ms := 100 } :=
  ⟨Or.inr (by decide),
    (keep_alive_not_due exampleCodec exampleHooks (idleClient 5 1200 false) 100
      (Or.inr (by decide))).1, rfl⟩


/-! ## The send/receive machinery only extends the trace -/

theorem Extends.refl (c : lwmqtt_client_t W) : Extends c c :=
  ⟨rfl, rfl, [], by simp, by simp⟩

theorem Extends.trans {a b c : lwmqtt_client_t W} (h1 : Extends a b) (h2 : Extends b c) :
    Extends a c := by
  obtain ⟨n1, k1, e1, t1, p1⟩ := h1
  obtain ⟨n2, k2, e2, t2, p2⟩ := h2
  refine ⟨n2.trans n1, k2.trans k1, e1 ++ e2, ?_, ?_⟩
  · rw [t2, t1, List.append_assoc]
  · intro e he
    rcases List.mem_append.mp he with h | h
    · exact p1 e h
    · exact p2 e h

theorem call_timer_set_extends (h : Hooks W) (c : lwmqtt_client_t W) (t : Timer) (ms : Nat) :
    Extends c (call_timer_set h c t ms) :=
  ⟨rfl, rfl, [Event.timer_set t ms], rfl, by simp [Event.is_engine]⟩

theorem call_timer_get_extends (h : Hooks W) (c : lwmqtt_client_t W) (t : Timer) :
    Extends c (call_timer_get h c t).2 :=
  ⟨rfl, rfl, [Event.timer_get t], rfl, by simp [Event.is_engine]⟩

theorem call_network_read_extends (h : Hooks W) (c : lwmqtt_client_t W) (offset len : Int) :
    Extends c (call_network_read h c offset len).2.2 :=
  (call_timer_get_extends h c Timer.command_timer).trans
    ⟨rfl, rfl, [Event.network_read offset len], rfl, by simp [Event.is_engine]⟩

theorem call_encode_ack_extends (k : Codec) (c : lwmqtt_client_t W)
    (type : lwmqtt_packet_type_t) (dup : Bool) (packet_id : Nat) :
    Extends c (call_encode_ack k c type dup packet_id).2.2 :=
  ⟨rfl, rfl, [Event.encode_ack type packet_id], rfl, by simp [Event.is_engine]⟩

theorem call_encode_zero_extends (k : Codec) (c : lwmqtt_client_t W)
    (type : lwmqtt_packet_type_t) : Extends c (call_encode_zero k c type).2.2 :=
  ⟨rfl, rfl, [Event.encode_zero type], rfl, by simp [Event.is_engine]⟩

theorem send_packet_extends (h : Hooks W) (c : lwmqtt_client_t W) (len : Int) :
    Extends c (lwmqtt_send_packet h c len).2 := by
  have hg := call_timer_get_extends h c Timer.command_timer
  unfold lwmqtt_send_packet
  simp only []
  split_ifs
  · exact hg.trans ⟨rfl, rfl, [Event.network_write _ len], rfl, by simp [Event.is_engine]⟩
  · exact hg.trans ⟨rfl, rfl, [Event.network_write _ len], rfl, by simp [Event.is_engine]⟩
  · refine Extends.trans ?_ (call_timer_set_extends h _ _ _)
    exact hg.trans ⟨rfl, rfl, [Event.network_write _ len], rfl, by simp [Event.is_engine]⟩

theorem read_remaining_length_extends (k : Codec) (h : Hooks W) (fuel : Nat) :
    ∀ (c : lwmqtt_client_t W) (len : Int),
      Extends c (read_remaining_length k h fuel c len).client := by
  induction fuel with
  | zero => intro c len; exact Extends.refl c
  | succ n ih =>
    intro c len
    unfold read_remaining_length
    simp only []
    split_ifs
    · exact call_network_read_extends h c _ _
    · exact call_network_read_extends h c _ _
    · exact (call_network_read_extends h c _ _).trans (ih _ _)
    · exact call_network_read_extends h c _ _

theorem read_packet_body_extends (k : Codec) (h : Hooks W) (fuel : Nat)
    (c : lwmqtt_client_t W) (packet_type : lwmqtt_packet_type_t) :
    Extends c (read_packet_body k h fuel c packet_type).2.2 := by
  have h0 := call_network_read_extends h c 0 1
  have h1 := h0.trans (read_remaining_length_extends k h fuel _ 0)
  unfold read_packet_body
  simp only []
  split_ifs
  · exact h0
  · exact h0
  · exact h0
  · exact h1
  · exact h1.trans (call_network_read_extends h _ _ _)
  · exact h1.trans (call_network_read_extends h _ _ _)
  · exact h1.trans (call_network_read_extends h _ _ _)
  · exact h1

theorem read_packet_extends (k : Codec) (h : Hooks W) (fuel : Nat)
    (c : lwmqtt_client_t W) (packet_type : lwmqtt_packet_type_t) :
    Extends c (lwmqtt_read_packet k h fuel c packet_type).2.2 := by
  unfold lwmqtt_read_packet
  split
  · next peek _ =>
    simp only []
    split_ifs
    · exact ⟨rfl, rfl, [Event.network_peek], rfl, by simp [Event.is_engine]⟩
    · exact ⟨rfl, rfl, [Event.network_peek], rfl, by simp [Event.is_engine]⟩
    · refine Extends.trans ?_ (read_packet_body_extends k h fuel _ _)
      exact ⟨rfl, rfl, [Event.network_peek], rfl, by simp [Event.is_engine]⟩
  · exact read_packet_body_extends k h fuel c packet_type

theorem encode_and_send_ack_extends (k : Codec) (h : Hooks W) (c : lwmqtt_client_t W)
    (type : lwmqtt_packet_type_t) (packet_id : Nat) :
    Extends c (encode_and_send_ack k h c type packet_id).2 := by
  unfold encode_and_send_ack
  simp only []
  split_ifs
  · exact call_encode_ack_extends k c _ _ _
  · exact (call_encode_ack_extends k c _ _ _).trans (send_packet_extends h _ _)

theorem call_callback_extends (h : Hooks W) (c : lwmqtt_client_t W) (topic : lwmqtt_string_t)
    (msg : lwmqtt_message_t) : Extends c (call_callback h c topic msg) := by
  unfold call_callback
  split
  · exact ⟨rfl, rfl, [Event.callback _ _], rfl, by simp [Event.is_engine]⟩
  · exact Extends.refl c

theorem cycle_publish_extends (k : Codec) (h : Hooks W) (c : lwmqtt_client_t W) :
    Extends c (cycle_publish k h c).2 := by
  unfold cycle_publish
  simp only []
  split_ifs
  · exact Extends.refl c
  · exact call_callback_extends h c _ _
  all_goals exact (call_callback_extends h c _ _).trans (encode_and_send_ack_extends k h _ _ _)

theorem cycle_ack_extends (k : Codec) (h : Hooks W) (c : lwmqtt_client_t W)
    (reply : lwmqtt_packet_type_t) : Extends c (cycle_ack k h c reply).2.2 := by
  unfold cycle_ack
  simp only []
  split_ifs
  · exact Extends.refl c
  · exact encode_and_send_ack_extends k h c _ _

theorem cycle_extends (k : Codec) (h : Hooks W) (fuel : Nat) (c : lwmqtt_client_t W)
    (packet_type : lwmqtt_packet_type_t) :
    Extends c (lwmqtt_cycle k h fuel c packet_type).2.2 := by
  have hr := read_packet_extends k h fuel c packet_type
  unfold lwmqtt_cycle
  simp only []
  split_ifs
  · exact hr
  · exact hr
  · split
    · exact hr.trans (cycle_publish_extends k h _)
    · exact hr.trans (cycle_ack_extends k h _ _)
    · exact hr.trans (cycle_ack_extends k h _ _)
    · exact hr.trans
        ⟨rfl, rfl, [Event.ping_outstanding false], rfl, by simp [Event.is_engine]⟩
    · exact hr

theorem cycle_until_extends (k : Codec) (h : Hooks W) (fuel : Nat) :
    ∀ (c : lwmqtt_client_t W) (packet_type needle : lwmqtt_packet_type_t),
      Extends c (lwmqtt_cycle_until k h fuel c packet_type needle).2.2 := by
  induction fuel with
  | zero => intro c packet_type needle; exact Extends.refl c
  | succ n ih =>
    intro c packet_type needle
    have hc := cycle_extends k h (n + 1) c packet_type
    unfold lwmqtt_cycle_until
    simp only []
    split_ifs
    · exact hc
    · exact hc
    · exact (hc.trans (call_timer_get_extends h _ _)).trans (ih _ _ _)
    · exact hc.trans (call_timer_get_extends h _ _)

theorem publish_packet_ids_append (a b : List Event) :
    publish_packet_ids (a ++ b) = publish_packet_ids a ++ publish_packet_ids b := by
  induction a with
  | nil => rfl
  | cons e t ih => cases e <;> simp [publish_packet_ids, ih]

theorem subscribe_packet_ids_append (a b : List Event) :
    subscribe_packet_ids (a ++ b) = subscribe_packet_ids a ++ subscribe_packet_ids b := by
  induction a with
  | nil => rfl
  | cons e t ih => cases e <;> simp [subscribe_packet_ids, ih]

theorem publish_packet_ids_engine (evs : List Event)
    (h : ∀ e ∈ evs, Event.is_engine e = true) : publish_packet_ids evs = [] := by
  induction evs with
  | nil => rfl
  | cons e t ih =>
    have he := h e (List.mem_cons_self e t)
    have ht := ih (fun x hx => h x (List.mem_cons_of_mem e hx))
    cases e <;> simp_all [publish_packet_ids, Event.is_engine]

theorem subscribe_packet_ids_engine (evs : List Event)
    (h : ∀ e ∈ evs, Event.is_engine e = true) : subscribe_packet_ids evs = [] := by
  induction evs with
  | nil => rfl
  | cons e t ih =>
    have he := h e (List.mem_cons_self e t)
    have ht := ih (fun x hx => h x (List.mem_cons_of_mem e hx))
    cases e <;> simp_all [subscribe_packet_ids, Event.is_engine]

theorem Extends.same_publish_packet_ids {c c' : lwmqtt_client_t W} (h : Extends c c') :
    Lwmqtt.publish_packet_ids c'.trace = Lwmqtt.publish_packet_ids c.trace := by
  obtain ⟨_, _, evs, ht, hp⟩ := h
  rw [ht, publish_packet_ids_append, publish_packet_ids_engine evs hp, List.append_nil]

theorem Extends.same_subscribe_packet_ids {c c' : lwmqtt_client_t W} (h : Extends c c') :
    Lwmqtt.subscribe_packet_ids c'.trace = Lwmqtt.subscribe_packet_ids c.trace := by
  obtain ⟨_, _, evs, ht, hp⟩ := h
  rw [ht, subscribe_packet_ids_append, subscribe_packet_ids_engine evs hp, List.append_nil]



theorem connect_send_and_wait_extends (k : Codec) (h : Hooks W) (fuel : Nat)
    (c : lwmqtt_client_t W) (len : Int) (return_code : lwmqtt_return_code_t) :
    Extends c (connect_send_and_wait k h fuel c len return_code).2.2 := by
  have hs := send_packet_extends h c len
  have hr := hs.trans (cycle_until_extends k h fuel _ LWMQTT_NO_PACKET LWMQTT_CONNACK_PACKET)
  unfold connect_send_and_wait
  simp only []
  split_ifs
  · exact hs
  all_goals exact hr

theorem subscribe_send_and_wait_extends (k : Codec) (h : Hooks W) (fuel : Nat)
    (c : lwmqtt_client_t W) (len : Int) :
    Extends c (subscribe_send_and_wait k h fuel c len).2 := by
  have hs := send_packet_extends h c len
  have hr := hs.trans (cycle_until_extends k h fuel _ LWMQTT_NO_PACKET LWMQTT_SUBACK_PACKET)
  unfold subscribe_send_and_wait
  simp only []
  split_ifs
  · exact hs
  all_goals exact hr

theorem unsubscribe_send_and_wait_extends (k : Codec) (h : Hooks W) (fuel : Nat)
    (c : lwmqtt_client_t W) (len : Int) :
    Extends c (unsubscribe_send_and_wait k h fuel c len).2 := by
  have hs := send_packet_extends h c len
  have hr := hs.trans (cycle_until_extends k h fuel _ LWMQTT_NO_PACKET LWMQTT_UNSUBACK_PACKET)
  unfold unsubscribe_send_and_wait
  simp only []
  split_ifs
  · exact hs
  all_goals exact hr

theorem publish_send_and_wait_extends (k : Codec) (h : Hooks W) (fuel : Nat)
    (c : lwmqtt_client_t W) (len : Int) (qos : lwmqtt_qos_t) :
    Extends c (publish_send_and_wait k h fuel c len qos).2 := by
  have hs := send_packet_extends h c len
  unfold publish_send_and_wait
  simp only []
  split_ifs
  · exact hs
  · exact hs
  all_goals exact hs.trans (cycle_until_extends k h fuel _ _ _)

theorem yield_extends (k : Codec) (h : Hooks W) (fuel : Nat) (c : lwmqtt_client_t W)
    (timeout : Nat) : Extends c (lwmqtt_yield k h fuel c timeout).2 := by
  simp only [lwmqtt_yield]
  split_ifs
  all_goals exact (call_timer_set_extends h c _ _).trans (cycle_until_extends k h fuel _ _ _)

theorem disconnect_extends (k : Codec) (h : Hooks W) (c : lwmqtt_client_t W) (timeout : Nat) :
    Extends c (lwmqtt_disconnect k h c timeout).2 := by
  have h1 := (call_timer_set_extends h c Timer.command_timer timeout).trans
    (call_encode_zero_extends k _ LWMQTT_DISCONNECT_PACKET)
  simp only [lwmqtt_disconnect]
  split_ifs
  · exact h1
  · exact h1.trans (send_packet_extends h _ _)
  · exact h1.trans (send_packet_extends h _ _)

theorem keep_alive_extends (k : Codec) (h : Hooks W) (c : lwmqtt_client_t W) (timeout : Nat) :
    Extends c (lwmqtt_keep_alive k h c timeout).2 := by
  have h1 := call_timer_set_extends h c Timer.command_timer timeout
  have h2 := h1.trans (call_timer_get_extends h _ Timer.keep_alive_timer)
  have h3 := h2.trans (call_encode_zero_extends k _ LWMQTT_PINGREQ_PACKET)
  have h4 := h3.trans (send_packet_extends h _ (call_encode_zero k
    (call_timer_get h (call_timer_set h c Timer.command_timer timeout)
      Timer.keep_alive_timer).2 LWMQTT_PINGREQ_PACKET).2.1)
  simp only [lwmqtt_keep_alive]
  split_ifs
  · exact h1
  · exact h2
  · exact h2
  · exact h3
  · exact h4
  · exact h4.trans ⟨rfl, rfl, [Event.ping_outstanding true], rfl, by simp [Event.is_engine]⟩

/-! ## C2, C3: packet ids -/

theorem packet_id_ok_of_engine (e : Event) (h : Event.is_engine e = true) :
    Event.packet_id_ok e := by
  cases e <;> simp_all [Event.is_engine, Event.packet_id_ok]

theorem Extends.preserves_packet_id_invariant {c c' : lwmqtt_client_t W} (h : Extends c c')
    (hc : Lwmqtt.packet_id_invariant c) : Lwmqtt.packet_id_invariant c' := by
  obtain ⟨hn, _, evs, ht, hp⟩ := h
  obtain ⟨h1, h2, h3⟩ := hc
  refine ⟨by omega, by omega, ?_⟩
  intro e he
  rw [ht] at he
  rcases List.mem_append.mp he with h | h
  · exact h3 e h
  · exact packet_id_ok_of_engine e (hp e h)

theorem get_next_packet_id_invariant (c : lwmqtt_client_t W) (hc : packet_id_invariant c) :
    packet_id_invariant (lwmqtt_get_next_packet_id c).2
      ∧ (lwmqtt_get_next_packet_id c).1 ≠ 0 := by
  obtain ⟨h1, h2, h3⟩ := hc
  have hid : (lwmqtt_get_next_packet_id c).1
      = (if c.next_packet_id = 65535 then 1 else c.next_packet_id + 1) := by
    simp only [lwmqtt_get_next_packet_id]
    split <;> omega
  have hn : (lwmqtt_get_next_packet_id c).2.next_packet_id = (lwmqtt_get_next_packet_id c).1 :=
    rfl
  have ht : (lwmqtt_get_next_packet_id c).2.trace = c.trace := rfl
  refine ⟨⟨?_, ?_, ?_⟩, ?_⟩
  · rw [hn, hid]; split <;> omega
  · rw [hn, hid]; split <;> omega
  · rw [ht]; exact h3
  · rw [hid]; split <;> omega

theorem log_packet_id_invariant (c c' : lwmqtt_client_t W) (e : Event)
    (hc : packet_id_invariant c) (hn : c'.next_packet_id = c.next_packet_id)
    (ht : c'.trace = c.trace ++ [e]) (he : Event.packet_id_ok e) : packet_id_invariant c' := by
  obtain ⟨h1, h2, h3⟩ := hc
  refine ⟨by omega, by omega, ?_⟩
  intro x hx
  rw [ht] at hx
  rcases List.mem_append.mp hx with h | h
  · exact h3 x h
  · rw [List.mem_singleton.mp h]; exact he

theorem publish_packet_id_invariant (k : Codec) (h : Hooks W) (fuel : Nat)
    (c : lwmqtt_client_t W) (topicName : lwmqtt_string_t) (message : lwmqtt_message_t)
    (timeout : Nat) (hc : packet_id_invariant c) :
    packet_id_invariant (lwmqtt_publish k h fuel c topicName message timeout).2 := by
  have h1 := (call_timer_set_extends h c Timer.command_timer timeout).preserves_packet_id_invariant hc
  have hg := get_next_packet_id_invariant _ h1
  unfold lwmqtt_publish
  simp only []
  by_cases hq : message.qos = LWMQTT_QOS1 ∨ message.qos = LWMQTT_QOS2
  · simp only [if_pos hq]
    have h2 := log_packet_id_invariant _
      (call_encode_publish k
        (lwmqtt_get_next_packet_id (call_timer_set h c Timer.command_timer timeout)).2 false
        message.qos message.retained
        (lwmqtt_get_next_packet_id (call_timer_set h c Timer.command_timer timeout)).1 topicName
        message.payload message.payload_len).2.2 _ hg.1 rfl rfl (fun _ => hg.2)
    split_ifs
    · exact h2
    · exact (publish_send_and_wait_extends k h fuel _ _ _).preserves_packet_id_invariant h2
  · simp only [if_neg hq]
    have h2 := log_packet_id_invariant _
      (call_encode_publish k (call_timer_set h c Timer.command_timer timeout) false
        message.qos message.retained 0 topicName message.payload message.payload_len).2.2 _
      h1 rfl rfl (fun hq' => absurd hq' hq)
    split_ifs
    · exact h2
    · exact (publish_send_and_wait_extends k h fuel _ _ _).preserves_packet_id_invariant h2

theorem subscribe_packet_id_invariant (k : Codec) (h : Hooks W) (fuel : Nat)
    (c : lwmqtt_client_t W) (topic_filter : lwmqtt_string_t) (qos : lwmqtt_qos_t)
    (timeout : Nat) (hc : packet_id_invariant c) :
    packet_id_invariant (lwmqtt_subscribe k h fuel c topic_filter qos timeout).2 := by
  have h1 := (call_timer_set_extends h c Timer.command_timer timeout).preserves_packet_id_invariant hc
  have hg := get_next_packet_id_invariant _ h1
  have h2 := log_packet_id_invariant _
    (call_encode_subscribe k
      (lwmqtt_get_next_packet_id (call_timer_set h c Timer.command_timer timeout)).2
      (lwmqtt_get_next_packet_id (call_timer_set h c Timer.command_timer timeout)).1
      topic_filter qos).2.2 _ hg.1 rfl rfl hg.2
  unfold lwmqtt_subscribe
  simp only []
  split_ifs
  · exact h2
  · exact (subscribe_send_and_wait_extends k h fuel _ _).preserves_packet_id_invariant h2

theorem unsubscribe_packet_id_invariant (k : Codec) (h : Hooks W) (fuel : Nat)
    (c : lwmqtt_client_t W) (topic_filter : lwmqtt_string_t) (timeout : Nat)
    (hc : packet_id_invariant c) :
    packet_id_invariant (lwmqtt_unsubscribe k h fuel c topic_filter timeout).2 := by
  have h1 := (call_timer_set_extends h c Timer.command_timer timeout).preserves_packet_id_invariant hc
  have hg := get_next_packet_id_invariant _ h1
  have h2 := log_packet_id_invariant _
    (call_encode_unsubscribe k
      (lwmqtt_get_next_packet_id (call_timer_set h c Timer.command_timer timeout)).2
      (lwmqtt_get_next_packet_id (call_timer_set h c Timer.command_timer timeout)).1
      topic_filter).2.2 _ hg.1 rfl rfl hg.2
  unfold lwmqtt_unsubscribe
  simp only []
  split_ifs
  · exact h2
  · exact (unsubscribe_send_and_wait_extends k h fuel _ _).preserves_packet_id_invariant h2

theorem connect_packet_id_invariant (k : Codec) (h : Hooks W) (fuel : Nat)
    (c : lwmqtt_client_t W) (options : lwmqtt_options_t) (will : Option lwmqtt_will_t)
    (return_code : lwmqtt_return_code_t) (timeout : Nat) (hc : packet_id_invariant c) :
    packet_id_invariant (lwmqtt_connect k h fuel c options will return_code timeout).2.2 := by
  have h1 := (call_timer_set_extends h c Timer.command_timer timeout).preserves_packet_id_invariant hc
  have h2 : packet_id_invariant
      ({ call_timer_set h c Timer.command_timer timeout with
          keep_alive_interval := options.keep_alive } : lwmqtt_client_t W) := h1
  unfold lwmqtt_connect
  simp only []
  by_cases hk : options.keep_alive > 0
  · simp only [if_pos hk]
    have h3 := log_packet_id_invariant _
      (call_timer_set h
        ({ call_timer_set h c Timer.command_timer timeout with
            keep_alive_interval := options.keep_alive } : lwmqtt_client_t W)
        Timer.keep_alive_timer (options.keep_alive * 1000)) _ h2 rfl rfl trivial
    have h4 := log_packet_id_invariant _
      (call_encode_connect k
        (call_timer_set h
          ({ call_timer_set h c Timer.command_timer timeout with
              keep_alive_interval := options.keep_alive } : lwmqtt_client_t W)
          Timer.keep_alive_timer (options.keep_alive * 1000)) options will).2.2 _ h3 rfl rfl
      trivial
    split_ifs
    · exact h4
    · exact (connect_send_and_wait_extends k h fuel _ _ _).preserves_packet_id_invariant h4
  · simp only [if_neg hk]
    have h4 := log_packet_id_invariant _
      (call_encode_connect k
        ({ call_timer_set h c Timer.command_timer timeout with
            keep_alive_interval := options.keep_alive } : lwmqtt_client_t W)
        options will).2.2 _ h2 rfl rfl trivial
    split_ifs
    · exact h4
    · exact (connect_send_and_wait_extends k h fuel _ _ _).preserves_packet_id_invariant h4

theorem run_command_packet_id_invariant (k : Codec) (h : Hooks W) (fuel : Nat)
    (c : lwmqtt_client_t W) (cmd : Command) (hc : packet_id_invariant c) :
    packet_id_invariant (run_command k h fuel c cmd).2 := by
  cases cmd with
  | connect options will return_code timeout =>
    exact connect_packet_id_invariant k h fuel c options will return_code timeout hc
  | subscribe topic_filter qos timeout =>
    exact subscribe_packet_id_invariant k h fuel c topic_filter qos timeout hc
  | unsubscribe topic_filter timeout =>
    exact unsubscribe_packet_id_invariant k h fuel c topic_filter timeout hc
  | publish topicName message timeout =>
    exact publish_packet_id_invariant k h fuel c topicName message timeout hc
  | disconnect timeout => exact (disconnect_extends k h c timeout).preserves_packet_id_invariant hc
  | yield timeout => exact (yield_extends k h fuel c timeout).preserves_packet_id_invariant hc
  | keep_alive timeout => exact (keep_alive_extends k h c timeout).preserves_packet_id_invariant hc

/-- C3: in every client state reachable from `lwmqtt_init` by connect,
subscribe, unsubscribe, publish, disconnect, yield and keep_alive calls, for
hooks and a codec of any behaviour, `next_packet_id` lies in `1..65535`, and
every packet id that was handed to the subscribe encoder, to the unsubscribe
encoder, or to the publish encoder at QoS 1 or 2 is non-zero. -/
theorem reachable_packet_id_invariant (k : Codec) (h : Hooks W) (c : lwmqtt_client_t W)
    (hr : Reachable k h c) :
    1 ≤ c.next_packet_id ∧ c.next_packet_id ≤ 65535
      ∧ (∀ id, Event.encode_subscribe id ∈ c.trace → id ≠ 0)
      ∧ (∀ id, Event.encode_unsubscribe id ∈ c.trace → id ≠ 0)
      ∧ (∀ qos id, Event.encode_publish qos id ∈ c.trace →
          qos = LWMQTT_QOS1 ∨ qos = LWMQTT_QOS2 → id ≠ 0) := by
  have hinv : packet_id_invariant c := by
    induction hr with
    | init write_buf write_buf_size read_buf read_buf_size w =>
      exact ⟨by simp [lwmqtt_init], by simp [lwmqtt_init], by simp [lwmqtt_init]⟩
    | step c cmd fuel e _ _ ih => exact run_command_packet_id_invariant k h fuel c cmd ih
  obtain ⟨h1, h2, h3⟩ := hinv
  exact ⟨h1, h2, fun id hm => h3 _ hm, fun id hm => h3 _ hm, fun qos id hm => h3 _ hm⟩

/-- C3 on the examples: the state after the first QoS-1 publish of a fresh
client is reachable; its counter is 2 and the id handed to the encoder was
non-zero. -/
theorem reachable_packet_id_invariant_witness :
    Reachable exampleCodec exampleHooks firstPublish.2
      ∧ (1 ≤ firstPublish.2.next_packet_id ∧ firstPublish.2.next_packet_id ≤ 65535
        ∧ (∀ id, Event.encode_subscribe id ∈ firstPublish.2.trace → id ≠ 0)
        ∧ (∀ id, Event.encode_unsubscribe id ∈ firstPublish.2.trace → id ≠ 0)
        ∧ (∀ qos id, Event.encode_publish qos id ∈ firstPublish.2.trace →
            qos = LWMQTT_QOS1 ∨ qos = LWMQTT_QOS2 → id ≠ 0)) :=
  ⟨Reachable.step (freshClient [0x40, 2, 0, 1])
      (Command.publish [0x61]
        { qos := LWMQTT_QOS1, retained := false, payload := [0x78], payload_len := 1 } 100)
      10 LWMQTT_SUCCESS (Reachable.init _ _ _ _ _) rfl,
    reachable_packet_id_invariant exampleCodec exampleHooks firstPublish.2
      (Reachable.step (freshClient [0x40, 2, 0, 1])
        (Command.publish [0x61]
          { qos := LWMQTT_QOS1, retained := false, payload := [0x78], payload_len := 1 } 100)
        10 LWMQTT_SUCCESS (Reachable.init _ _ _ _ _) rfl)⟩

/-- C2 fails on the code: on a fresh client the first QoS-1 publish (topic
`"a"`, payload `"x"`, answered by the PUBACK `40 02 00 01`) returns
`LWMQTT_SUCCESS`, but the packet id handed to the encoder is 2, not 1, and the
PUBLISH on the wire carries `00 02`; the first subscribe is handed 2 as
well. -/
theorem first_packet_id_is_not_one :
    firstPublish.1 = some LWMQTT_SUCCESS
      ∧ publish_packet_ids firstPublish.2.trace = [2]
      ∧ publish_packet_ids firstPublish.2.trace ≠ [1]
      ∧ firstPublish.2.world.outbound = [0x32, 6, 0, 1, 0x61, 0, 2, 0x78]
      ∧ firstSubscribe.1 = some LWMQTT_SUCCESS
      ∧ subscribe_packet_ids firstSubscribe.2.trace = [2]
      ∧ subscribe_packet_ids firstSubscribe.2.trace ≠ [1] :=
  ⟨rfl, rfl, by decide, rfl, rfl, rfl, by decide⟩

/-- C2 as amended: on a client fresh from `lwmqtt_init` (`next_packet_id`
initially 1) the first QoS-1 `lwmqtt_publish` hands packet id 2 to the
encoder, and nothing else is ever handed to it during the call; likewise the
first `lwmqtt_subscribe` is assigned id 2.  The allocator increments the
counter before it hands the id out. -/
theorem first_packet_id_is_two (k : Codec) (h : Hooks W) (fuel : Nat)
    (write_buf : List Nat) (write_buf_size : Int) (read_buf : List Nat) (read_buf_size : Int)
    (w : W) (topic : lwmqtt_string_t) (message : lwmqtt_message_t) (timeout : Nat)
    (hqos : message.qos = LWMQTT_QOS1) :
    publish_packet_ids (lwmqtt_publish k h fuel
        (lwmqtt_init write_buf write_buf_size read_buf read_buf_size w) topic message
        timeout).2.trace = [2]
      ∧ ∀ qos, subscribe_packet_ids (lwmqtt_subscribe k h fuel
          (lwmqtt_init write_buf write_buf_size read_buf read_buf_size w) topic qos
          timeout).2.trace = [2] := by
  constructor
  · have hq : message.qos = LWMQTT_QOS1 ∨ message.qos = LWMQTT_QOS2 := Or.inl hqos
    unfold lwmqtt_publish
    simp only [if_pos hq]
    have h2 : publish_packet_ids (call_encode_publish k
        (lwmqtt_get_next_packet_id (call_timer_set h
          (lwmqtt_init write_buf write_buf_size read_buf read_buf_size w)
          Timer.command_timer timeout)).2 false message.qos message.retained
        (lwmqtt_get_next_packet_id (call_timer_set h
          (lwmqtt_init write_buf write_buf_size read_buf read_buf_size w)
          Timer.command_timer timeout)).1 topic message.payload
        message.payload_len).2.2.trace = [2] := by
      simp [call_encode_publish, lwmqtt_get_next_packet_id, call_timer_set, lwmqtt_init,
        publish_packet_ids]
    split_ifs
    · exact h2
    · rw [(publish_send_and_wait_extends k h fuel _ _ _).same_publish_packet_ids]
      exact h2
  · intro qos
    unfold lwmqtt_subscribe
    simp only []
    have h2 : subscribe_packet_ids (call_encode_subscribe k
        (lwmqtt_get_next_packet_id (call_timer_set h
          (lwmqtt_init write_buf write_buf_size read_buf read_buf_size w)
          Timer.command_timer timeout)).2
        (lwmqtt_get_next_packet_id (call_timer_set h
          (lwmqtt_init write_buf write_buf_size read_buf read_buf_size w)
          Timer.command_timer timeout)).1 topic qos).2.2.trace = [2] := by
      simp [call_encode_subscribe, lwmqtt_get_next_packet_id, call_timer_set, lwmqtt_init,
        subscribe_packet_ids]
    split_ifs
    · exact h2
    · rw [(subscribe_send_and_wait_extends k h fuel _ _).same_subscribe_packet_ids]
      exact h2

/-- C2 as amended, on the two scenarios of the specification. -/
theorem first_packet_id_is_two_witness :
    LWMQTT_QOS1 = LWMQTT_QOS1
      ∧ publish_packet_ids firstPublish.2.trace = [2]
      ∧ subscribe_packet_ids firstSubscribe.2.trace = [2] :=
  ⟨rfl,
    (first_packet_id_is_two exampleCodec exampleHooks 10 (List.replicate 32 0) 32
      (List.replicate 32 0) 32
      { inbound := [0x40, 2, 0, 1], outbound := [], keep_alive_ms := 0, command_ms := 0 } [0x61]
      { qos := LWMQTT_QOS1, retained := false, payload := [0x78], payload_len := 1 } 100 rfl).1,
    (first_packet_id_is_two exampleCodec exampleHooks 10 (List.replicate 32 0) 32
      (List.replicate 32 0) 32
      { inbound := [0x90, 3, 0, 1, 1], outbound := [], keep_alive_ms := 0, command_ms := 0 }
      [0x73, 0x65, 0x6E, 0x73, 0x6F, 0x72, 0x73, 0x2F, 0x23]
      { qos := LWMQTT_QOS1, retained := false, payload := [], payload_len := 0 } 100 rfl).2
      LWMQTT_QOS1⟩

/-! ## C4, C5, C6: the varint helpers -/

theorem store_bytes_length (data : List Nat) :
    ∀ (buf : List Nat) (off : Nat), (store_bytes buf off data).length = buf.length := by
  induction data with
  | nil => intro buf off; rfl
  | cons d ds ih => intro buf off; simp [store_bytes, ih]

theorem store_bytes_outside (data : List Nat) :
    ∀ (buf : List Nat) (off i : Nat), i < off ∨ off + data.length ≤ i →
      (store_bytes buf off data)[i]? = buf[i]? := by
  induction data with
  | nil => intro buf off i _; rfl
  | cons d ds ih =>
    intro buf off i hi
    simp only [store_bytes, List.length_cons] at *
    rw [ih (buf.set off d) (off + 1) i (by omega)]
    rw [List.getElem?_set_ne (by omega)]

theorem store_bytes_inside (data : List Nat) :
    ∀ (buf : List Nat) (off i : Nat), off + data.length ≤ buf.length → i < data.length →
      (store_bytes buf off data)[off + i]? = data[i]? := by
  induction data with
  | nil => intro buf off i _ hi; simp at hi
  | cons d ds ih =>
    intro buf off i hroom hi
    simp only [store_bytes, List.length_cons] at *
    cases i with
    | zero =>
      have h1 := store_bytes_outside ds (buf.set off d) (off + 1) off (Or.inl (by omega))
      change (store_bytes (buf.set off d) (off + 1) ds)[off]? = _
      rw [h1]
      simp [show off < buf.length by omega]
    | succ j =>
      have := ih (buf.set off d) (off + 1) j (by simp; omega) (by omega)
      rw [show off + (j + 1) = off + 1 + j by omega, this]
      simp

theorem store_bytes_window (data buf : List Nat) (off : Nat)
    (hroom : off + data.length ≤ buf.length) :
    ((store_bytes buf off data).drop off).take data.length = data := by
  apply List.ext_getElem?
  intro i
  by_cases hi : i < data.length
  · rw [List.getElem?_take_of_lt hi, List.getElem?_drop, store_bytes_inside data buf off i hroom hi]
  · rw [List.getElem?_eq_none (by simp; omega), List.getElem?_eq_none (by omega)]

theorem varnum_bits : ∀ d < 128,
    (d ||| 128) &&& 127 = d ∧ (d ||| 128) &&& 128 = 128 ∧ d &&& 127 = d ∧ d &&& 128 = 0 := by
  decide

theorem read_varnum_loop_digits (fuel : Nat) :
    ∀ (n multiplier num len : Nat), 0 < fuel → n < 128 ^ fuel →
      read_varnum_loop fuel (varnum_digits fuel n) multiplier num len
        = some (num + n * multiplier, len + (varnum_digits fuel n).length) := by
  induction fuel with
  | zero => intro n multiplier num len h0; omega
  | succ f ih =>
    intro n multiplier num len _ hn
    have hb := varnum_bits (n % 128) (Nat.mod_lt n (by decide))
    have hdm := Nat.div_add_mod n 128
    by_cases hq : n / 128 > 0
    · have hf : 0 < f := by
        rcases Nat.eq_zero_or_pos f with h0 | h0
        · subst h0; simp at hn; omega
        · exact h0
      have hlt : n / 128 < 128 ^ f := by
        rw [Nat.div_lt_iff_lt_mul (by decide)]
        rw [Nat.pow_succ] at hn
        exact hn
      simp only [varnum_digits, if_pos hq, read_varnum_loop, hb.1, hb.2.1]
      simp only [ne_eq, OfNat.ofNat_ne_zero, not_false_eq_true, if_true]
      rw [ih (n / 128) (multiplier * 128) (num + n % 128 * multiplier) (len + 1) hf hlt]
      simp only [List.length_cons]
      congr 2
      · have : n * multiplier = (128 * (n / 128) + n % 128) * multiplier := by rw [hdm]
        rw [this]; ring
      · omega
    · have hq0 : n / 128 = 0 := by omega
      have hmod : n % 128 = n := by omega
      simp only [varnum_digits, if_neg hq, read_varnum_loop, hb.2.2.1, hb.2.2.2]
      simp [hmod]

theorem encoded_varint_length_eq (n : Nat) :
    encoded_varint_length n = (varnum_digits 4 n).length := by
  simp [encoded_varint_length, lwmqtt_write_varnum]

theorem varnum_digits_length (n : Nat) (hn : n ≤ 268435455) :
    (varnum_digits 4 n).length
      = (if n ≤ 127 then 1 else if n ≤ 16383 then 2 else if n ≤ 2097151 then 3 else 4) := by
  simp only [varnum_digits]
  split_ifs <;> simp <;> omega

/-- C4: for every `n` in `0..268435455` and every buffer that has room for
the encoding at the cursor, writing `n` with `lwmqtt_write_varnum` and then
reading from the same start with `lwmqtt_read_varnum`, the window being the
encoded length, returns `n`; both cursors end at the same offset, the start
plus the encoded length; the buffer keeps its length and no byte before the
start or after the encoding is modified. -/
theorem varnum_round_trip (buf : List Nat) (pos n : Nat) (hn : n ≤ 268435455)
    (hroom : pos + encoded_varint_length n ≤ buf.length) :
    (lwmqtt_read_varnum (lwmqtt_write_varnum buf pos n).1 pos
        ((lwmqtt_write_varnum buf pos n).2 - pos)).1 = (n : Int)
      ∧ (lwmqtt_read_varnum (lwmqtt_write_varnum buf pos n).1 pos
          ((lwmqtt_write_varnum buf pos n).2 - pos)).2 = (lwmqtt_write_varnum buf pos n).2
      ∧ (lwmqtt_write_varnum buf pos n).2 = pos + encoded_varint_length n
      ∧ (lwmqtt_write_varnum buf pos n).1.length = buf.length
      ∧ ∀ i, i < pos ∨ (lwmqtt_write_varnum buf pos n).2 ≤ i →
          (lwmqtt_write_varnum buf pos n).1[i]? = buf[i]? := by
  rw [encoded_varint_length_eq] at hroom
  have hwin := store_bytes_window (varnum_digits 4 n) buf pos hroom
  have hloop := read_varnum_loop_digits 4 n 1 0 0 (by decide) (by norm_num; omega)
  have hread : lwmqtt_read_varnum (lwmqtt_write_varnum buf pos n).1 pos
      ((lwmqtt_write_varnum buf pos n).2 - pos)
      = ((n : Int), pos + (varnum_digits 4 n).length) := by
    simp only [lwmqtt_read_varnum, lwmqtt_write_varnum, Nat.add_sub_cancel_left, hwin, hloop]
    simp
  refine ⟨by rw [hread], by rw [hread]; rfl, ?_, ?_, ?_⟩
  · rw [encoded_varint_length_eq]; rfl
  · exact store_bytes_length _ _ _
  · intro i hi
    exact store_bytes_outside _ _ _ _ hi

/-- C4 on the last value of the fourth test loop, `128·128·128 + 127·127`, in
a five-byte buffer of zeros. -/
theorem varnum_round_trip_witness :
    2113281 ≤ 268435455 ∧ 0 + encoded_varint_length 2113281 ≤ [0, 0, 0, 0, 0].length
      ∧ (lwmqtt_read_varnum (lwmqtt_write_varnum [0, 0, 0, 0, 0] 0 2113281).1 0
          ((lwmqtt_write_varnum [0, 0, 0, 0, 0] 0 2113281).2 - 0)).1 = 2113281
      ∧ (lwmqtt_write_varnum [0, 0, 0, 0, 0] 0 2113281).2 = 4 :=
  ⟨by decide, by decide,
    (varnum_round_trip [0, 0, 0, 0, 0] 0 2113281 (by decide) (by decide)).1,
    (varnum_round_trip [0, 0, 0, 0, 0] 0 2113281 (by decide) (by decide)).2.2.1⟩

/-- C5: for every `n` in `0..268435455`, `lwmqtt_write_varnum` advances the
cursor by 1 byte for `n ≤ 127` (and the byte written is `n`), by 2 for
`128 ≤ n ≤ 16383`, by 3 for `16384 ≤ n ≤ 2097151` and by 4 for
`2097152 ≤ n`; hence `lwmqtt_fixed_header_len n`, one more than the encoded
length, lies between 2 and 5. -/
theorem varnum_length_law (buf : List Nat) (pos n : Nat) (hn : n ≤ 268435455) :
    (lwmqtt_write_varnum buf pos n).2
        = pos + (if n ≤ 127 then 1 else if n ≤ 16383 then 2 else if n ≤ 2097151 then 3 else 4)
      ∧ (n ≤ 127 → (lwmqtt_write_varnum buf pos n).1 = buf.set pos n)
      ∧ encoded_varint_length n
          = (if n ≤ 127 then 1 else if n ≤ 16383 then 2 else if n ≤ 2097151 then 3 else 4)
      ∧ lwmqtt_fixed_header_len n = 1 + encoded_varint_length n
      ∧ 2 ≤ lwmqtt_fixed_header_len n ∧ lwmqtt_fixed_header_len n ≤ 5 := by
  have hlen := varnum_digits_length n hn
  have henc : encoded_varint_length n
      = (if n ≤ 127 then 1 else if n ≤ 16383 then 2 else if n ≤ 2097151 then 3 else 4) := by
    rw [encoded_varint_length_eq, hlen]
  refine ⟨?_, ?_, henc, rfl, ?_, ?_⟩
  · simp only [lwmqtt_write_varnum, hlen]
  · intro h127
    have hq : ¬ n / 128 > 0 := by omega
    have hmod : n % 128 = n := by omega
    simp [lwmqtt_write_varnum, varnum_digits, hq, hmod, store_bytes]
  · simp only [lwmqtt_fixed_header_len, henc]
    split_ifs <;> omega
  · simp only [lwmqtt_fixed_header_len, henc]
    split_ifs <;> omega

/-- C5 at the first three-byte value, 16384, and at the one-byte value 100. -/
theorem varnum_length_law_witness :
    16384 ≤ 268435455 ∧ (lwmqtt_write_varnum [0, 0, 0, 0] 0 16384).2 = 3
      ∧ lwmqtt_fixed_header_len 16384 = 4
      ∧ (lwmqtt_write_varnum [0, 0, 0, 0] 0 100).1 = [100, 0, 0, 0] :=
  ⟨by decide, (varnum_length_law [0, 0, 0, 0] 0 16384 (by decide)).1,
    (varnum_length_law [0, 0, 0, 0] 0 16384 (by decide)).2.2.2.1,
    (varnum_length_law [0, 0, 0, 0] 0 100 (by decide)).2.1 (by decide)⟩

theorem read_varnum_loop_overflow (window : List Nat) (multiplier num len : Nat)
    (h : window.take 4 = [128, 128, 128, 128]) :
    read_varnum_loop 4 window multiplier num len = none := by
  match window, h with
  | a :: b :: c :: d :: rest, h =>
    simp only [List.take, List.cons.injEq, and_true] at h
    obtain ⟨ha, hb, hc, hd⟩ := h
    subst ha hb hc hd
    simp [read_varnum_loop]

/-- C6: for `n = 128·128·128·128 = 268435456` and a buffer with five bytes
of room at the cursor, `lwmqtt_write_varnum` advances the write cursor by
exactly 4 bytes and leaves the fifth byte as it was, and a following
`lwmqtt_read_varnum` with a 5-byte window returns −2
(`LWMQTT_BUFFER_TOO_SHORT`) and does not advance the read cursor. -/
theorem varnum_overflow (buf : List Nat) (pos : Nat) (hroom : pos + 5 ≤ buf.length) :
    (lwmqtt_write_varnum buf pos (128 * 128 * 128 * 128)).2 = pos + 4
      ∧ (lwmqtt_write_varnum buf pos (128 * 128 * 128 * 128)).1[pos + 4]? = buf[pos + 4]?
      ∧ lwmqtt_read_varnum (lwmqtt_write_varnum buf pos (128 * 128 * 128 * 128)).1 pos 5
          = (-2, pos)
      ∧ LWMQTT_BUFFER_TOO_SHORT_CODE = -2 := by
  have hd : varnum_digits 4 (128 * 128 * 128 * 128) = [128, 128, 128, 128] := by decide
  have hwin := store_bytes_window [128, 128, 128, 128] buf pos (by simp; omega)
  refine ⟨?_, ?_, ?_, rfl⟩
  · simp [lwmqtt_write_varnum, hd]
  · simp only [lwmqtt_write_varnum, hd]
    exact store_bytes_outside _ _ _ _ (Or.inr (by simp))
  · simp only [lwmqtt_write_varnum, hd, lwmqtt_read_varnum]
    rw [read_varnum_loop_overflow _ 1 0 0 (by rw [List.take_take]; exact hwin)]
    rfl

/-- C6 on the buffer of the test: five zero bytes, cursor at the start. -/
theorem varnum_overflow_witness :
    0 + 5 ≤ [0, 0, 0, 0, 0].length
      ∧ (lwmqtt_write_varnum [0, 0, 0, 0, 0] 0 (128 * 128 * 128 * 128))
          = ([128, 128, 128, 128, 0], 4)
      ∧ lwmqtt_read_varnum [128, 128, 128, 128, 0] 0 5 = (-2, 0) :=
  ⟨by decide, rfl, (varnum_overflow [0, 0, 0, 0, 0] 0 (by decide)).2.2.1⟩

/-! ## C11: the ping flag -/

theorem flag_after_append (b : Bool) (a evs : List Event) :
    flag_after b (a ++ evs) = flag_after (flag_after b a) evs := by
  induction a generalizing b with
  | nil => rfl
  | cons e t ih => cases e <;> simp [flag_after, ih]

theorem flag_after_cons_neutral (b : Bool) (e : Event) (t : List Event)
    (h : Event.ping_neutral e = true) : flag_after b (e :: t) = flag_after b t := by
  cases e <;> simp [Event.ping_neutral] at h <;> rfl

theorem flag_after_neutral (b : Bool) (evs : List Event)
    (h : ∀ e ∈ evs, Event.ping_neutral e = true) : flag_after b evs = b := by
  induction evs generalizing b with
  | nil => rfl
  | cons e t ih =>
    rw [flag_after_cons_neutral b e t (h e (List.mem_cons_self e t))]
    exact ih b (fun x hx => h x (List.mem_cons_of_mem e hx))

theorem no_ping_of_neutral (e : Event) (h : Event.ping_neutral e = true) :
    Event.no_ping e = true := by
  cases e <;> simp_all [Event.ping_neutral, Event.no_ping]

theorem neutral_or_clear_of_no_ping (e : Event) (h : Event.no_ping e = true) :
    Event.ping_neutral e = true ∨ e = Event.ping_outstanding false := by
  cases e <;> simp_all [Event.ping_neutral, Event.no_ping]

theorem flag_after_false_no_ping (evs : List Event)
    (h : ∀ e ∈ evs, Event.no_ping e = true) : flag_after false evs = false := by
  induction evs with
  | nil => rfl
  | cons e t ih =>
    have ht := fun x hx => h x (List.mem_cons_of_mem e hx)
    rcases neutral_or_clear_of_no_ping e (h e (List.mem_cons_self e t)) with he | he
    · rw [flag_after_cons_neutral false e t he]; exact ih ht
    · subst he; exact ih ht

theorem neutral_of_no_ping_flag (b : Bool) (evs : List Event)
    (h : ∀ e ∈ evs, Event.no_ping e = true) (hf : flag_after b evs = true) :
    b = true ∧ ∀ e ∈ evs, Event.ping_neutral e = true := by
  induction evs generalizing b with
  | nil => exact ⟨hf, by simp⟩
  | cons e t ih =>
    have ht := fun x hx => h x (List.mem_cons_of_mem e hx)
    rcases neutral_or_clear_of_no_ping e (h e (List.mem_cons_self e t)) with he | he
    · rw [flag_after_cons_neutral b e t he] at hf
      have h2 := ih b ht hf
      refine ⟨h2.1, ?_⟩
      intro x hx
      rcases List.mem_cons.mp hx with hx | hx
      · rw [hx]; exact he
      · exact h2.2 x hx
    · subst he
      have hfalse := flag_after_false_no_ping t ht
      have : flag_after b (Event.ping_outstanding false :: t) = flag_after false t := rfl
      rw [this, hfalse] at hf
      exact absurd hf (by decide)

theorem PingQuiet.refl_quiet (c : lwmqtt_client_t W) : PingQuiet c c :=
  ⟨rfl, [], by simp, by simp⟩

theorem PingQuiet.trans_quiet {a b c : lwmqtt_client_t W} (h1 : PingQuiet a b) (h2 : PingQuiet b c) :
    PingQuiet a c := by
  obtain ⟨f1, e1, t1, p1⟩ := h1
  obtain ⟨f2, e2, t2, p2⟩ := h2
  refine ⟨f2.trans f1, e1 ++ e2, ?_, ?_⟩
  · rw [t2, t1, List.append_assoc]
  · intro e he
    rcases List.mem_append.mp he with h | h
    · exact p1 e h
    · exact p2 e h

theorem PingQuiet.log (c c' : lwmqtt_client_t W) (e : Event)
    (hf : c'.ping_outstanding = c.ping_outstanding) (ht : c'.trace = c.trace ++ [e])
    (he : Event.ping_neutral e = true) : PingQuiet c c' :=
  ⟨hf, [e], ht, by simpa using he⟩

theorem PingStep.refl_step (c : lwmqtt_client_t W) : PingStep c c :=
  ⟨[], by simp, by simp, rfl⟩

theorem PingStep.trans_step {a b c : lwmqtt_client_t W} (h1 : PingStep a b) (h2 : PingStep b c) :
    PingStep a c := by
  obtain ⟨e1, t1, p1, f1⟩ := h1
  obtain ⟨e2, t2, p2, f2⟩ := h2
  refine ⟨e1 ++ e2, ?_, ?_, ?_⟩
  · rw [t2, t1, List.append_assoc]
  · intro e he
    rcases List.mem_append.mp he with h | h
    · exact p1 e h
    · exact p2 e h
  · rw [f2, f1, flag_after_append]

theorem PingQuiet.step {c c' : lwmqtt_client_t W} (h : PingQuiet c c') : PingStep c c' := by
  obtain ⟨hf, evs, ht, hp⟩ := h
  exact ⟨evs, ht, fun e he => no_ping_of_neutral e (hp e he),
    by rw [hf, flag_after_neutral _ _ hp]⟩

theorem call_timer_set_quiet (h : Hooks W) (c : lwmqtt_client_t W) (t : Timer) (ms : Nat) :
    PingQuiet c (call_timer_set h c t ms) :=
  PingQuiet.log _ _ (Event.timer_set t ms) rfl rfl rfl

theorem call_timer_get_quiet (h : Hooks W) (c : lwmqtt_client_t W) (t : Timer) :
    PingQuiet c (call_timer_get h c t).2 :=
  PingQuiet.log _ _ (Event.timer_get t) rfl rfl rfl

theorem call_network_read_quiet (h : Hooks W) (c : lwmqtt_client_t W) (offset len : Int) :
    PingQuiet c (call_network_read h c offset len).2.2 :=
  (call_timer_get_quiet h c Timer.command_timer).trans_quiet
    (PingQuiet.log _ _ (Event.network_read offset len) rfl rfl rfl)

theorem call_encode_ack_quiet (k : Codec) (c : lwmqtt_client_t W)
    (type : lwmqtt_packet_type_t) (dup : Bool) (packet_id : Nat) :
    PingQuiet c (call_encode_ack k c type dup packet_id).2.2 :=
  PingQuiet.log _ _ (Event.encode_ack type packet_id) rfl rfl rfl

theorem call_callback_quiet (h : Hooks W) (c : lwmqtt_client_t W) (topic : lwmqtt_string_t)
    (msg : lwmqtt_message_t) : PingQuiet c (call_callback h c topic msg) := by
  unfold call_callback
  split
  · exact PingQuiet.log _ _ (Event.callback topic msg) rfl rfl rfl
  · exact PingQuiet.refl_quiet c

theorem send_packet_quiet (h : Hooks W) (c : lwmqtt_client_t W) (len : Int) :
    PingQuiet c (lwmqtt_send_packet h c len).2 := by
  have hg := call_timer_get_quiet h c Timer.command_timer
  unfold lwmqtt_send_packet
  simp only []
  split_ifs
  · exact hg.trans_quiet (PingQuiet.log _ _ (Event.network_write _ len) rfl rfl rfl)
  · exact hg.trans_quiet (PingQuiet.log _ _ (Event.network_write _ len) rfl rfl rfl)
  · refine PingQuiet.trans_quiet ?_ (call_timer_set_quiet h _ _ _)
    exact hg.trans_quiet (PingQuiet.log _ _ (Event.network_write _ len) rfl rfl rfl)

theorem read_remaining_length_quiet (k : Codec) (h : Hooks W) (fuel : Nat) :
    ∀ (c : lwmqtt_client_t W) (len : Int),
      PingQuiet c (read_remaining_length k h fuel c len).client := by
  induction fuel with
  | zero => intro c len; exact PingQuiet.refl_quiet c
  | succ n ih =>
    intro c len
    unfold read_remaining_length
    simp only []
    split_ifs
    · exact call_network_read_quiet h c _ _
    · exact call_network_read_quiet h c _ _
    · exact (call_network_read_quiet h c _ _).trans_quiet (ih _ _)
    · exact call_network_read_quiet h c _ _

theorem read_packet_body_quiet (k : Codec) (h : Hooks W) (fuel : Nat)
    (c : lwmqtt_client_t W) (packet_type : lwmqtt_packet_type_t) :
    PingQuiet c (read_packet_body k h fuel c packet_type).2.2 := by
  have h0 := call_network_read_quiet h c 0 1
  have h1 := h0.trans_quiet (read_remaining_length_quiet k h fuel _ 0)
  unfold read_packet_body
  simp only []
  split_ifs
  · exact h0
  · exact h0
  · exact h0
  · exact h1
  · exact h1.trans_quiet (call_network_read_quiet h _ _ _)
  · exact h1.trans_quiet (call_network_read_quiet h _ _ _)
  · exact h1.trans_quiet (call_network_read_quiet h _ _ _)
  · exact h1

theorem read_packet_quiet (k : Codec) (h : Hooks W) (fuel : Nat)
    (c : lwmqtt_client_t W) (packet_type : lwmqtt_packet_type_t) :
    PingQuiet c (lwmqtt_read_packet k h fuel c packet_type).2.2 := by
  unfold lwmqtt_read_packet
  split
  · simp only []
    split_ifs
    · exact PingQuiet.log _ _ Event.network_peek rfl rfl rfl
    · exact PingQuiet.log _ _ Event.network_peek rfl rfl rfl
    · refine PingQuiet.trans_quiet ?_ (read_packet_body_quiet k h fuel _ _)
      exact PingQuiet.log _ _ Event.network_peek rfl rfl rfl
  · exact read_packet_body_quiet k h fuel c packet_type

theorem encode_and_send_ack_quiet (k : Codec) (h : Hooks W) (c : lwmqtt_client_t W)
    (type : lwmqtt_packet_type_t) (packet_id : Nat) :
    PingQuiet c (encode_and_send_ack k h c type packet_id).2 := by
  unfold encode_and_send_ack
  simp only []
  split_ifs
  · exact call_encode_ack_quiet k c _ _ _
  · exact (call_encode_ack_quiet k c _ _ _).trans_quiet (send_packet_quiet h _ _)

theorem cycle_publish_quiet (k : Codec) (h : Hooks W) (c : lwmqtt_client_t W) :
    PingQuiet c (cycle_publish k h c).2 := by
  unfold cycle_publish
  simp only []
  split_ifs
  · exact PingQuiet.refl_quiet c
  · exact call_callback_quiet h c _ _
  all_goals exact (call_callback_quiet h c _ _).trans_quiet (encode_and_send_ack_quiet k h _ _ _)

theorem cycle_ack_quiet (k : Codec) (h : Hooks W) (c : lwmqtt_client_t W)
    (reply : lwmqtt_packet_type_t) : PingQuiet c (cycle_ack k h c reply).2.2 := by
  unfold cycle_ack
  simp only []
  split_ifs
  · exact PingQuiet.refl_quiet c
  · exact encode_and_send_ack_quiet k h c _ _

theorem cycle_ping_step (k : Codec) (h : Hooks W) (fuel : Nat) (c : lwmqtt_client_t W)
    (packet_type : lwmqtt_packet_type_t) :
    PingStep c (lwmqtt_cycle k h fuel c packet_type).2.2 := by
  have hr := (read_packet_quiet k h fuel c packet_type).step
  unfold lwmqtt_cycle
  simp only []
  split_ifs
  · exact hr
  · exact hr
  · split
    · exact hr.trans_step (cycle_publish_quiet k h _).step
    · exact hr.trans_step (cycle_ack_quiet k h _ _).step
    · exact hr.trans_step (cycle_ack_quiet k h _ _).step
    · exact hr.trans_step ⟨[Event.ping_outstanding false], rfl, by simp [Event.no_ping], rfl⟩
    · exact hr

theorem cycle_until_ping_step (k : Codec) (h : Hooks W) (fuel : Nat) :
    ∀ (c : lwmqtt_client_t W) (packet_type needle : lwmqtt_packet_type_t),
      PingStep c (lwmqtt_cycle_until k h fuel c packet_type needle).2.2 := by
  induction fuel with
  | zero => intro c packet_type needle; exact PingStep.refl_step c
  | succ n ih =>
    intro c packet_type needle
    have hc := cycle_ping_step k h (n + 1) c packet_type
    unfold lwmqtt_cycle_until
    simp only []
    split_ifs
    · exact hc
    · exact hc
    · exact (hc.trans_step (call_timer_get_quiet h _ _).step).trans_step (ih _ _ _)
    · exact hc.trans_step (call_timer_get_quiet h _ _).step

theorem get_next_packet_id_quiet (c : lwmqtt_client_t W) :
    PingQuiet c (lwmqtt_get_next_packet_id c).2 :=
  ⟨rfl, [], by simp [lwmqtt_get_next_packet_id], by simp⟩

theorem call_encode_zero_quiet (k : Codec) (c : lwmqtt_client_t W)
    (type : lwmqtt_packet_type_t) (ht : type ≠ LWMQTT_PINGREQ_PACKET) :
    PingQuiet c (call_encode_zero k c type).2.2 :=
  PingQuiet.log _ _ (Event.encode_zero type) rfl rfl (by simp [Event.ping_neutral, ht])

theorem connect_send_and_wait_ping_step (k : Codec) (h : Hooks W) (fuel : Nat)
    (c : lwmqtt_client_t W) (len : Int) (return_code : lwmqtt_return_code_t) :
    PingStep c (connect_send_and_wait k h fuel c len return_code).2.2 := by
  have hs := (send_packet_quiet h c len).step
  have hr := hs.trans_step (cycle_until_ping_step k h fuel _ LWMQTT_NO_PACKET LWMQTT_CONNACK_PACKET)
  unfold connect_send_and_wait
  simp only []
  split_ifs
  · exact hs
  all_goals exact hr

theorem subscribe_send_and_wait_ping_step (k : Codec) (h : Hooks W) (fuel : Nat)
    (c : lwmqtt_client_t W) (len : Int) :
    PingStep c (subscribe_send_and_wait k h fuel c len).2 := by
  have hs := (send_packet_quiet h c len).step
  have hr := hs.trans_step (cycle_until_ping_step k h fuel _ LWMQTT_NO_PACKET LWMQTT_SUBACK_PACKET)
  unfold subscribe_send_and_wait
  simp only []
  split_ifs
  · exact hs
  all_goals exact hr

theorem unsubscribe_send_and_wait_ping_step (k : Codec) (h : Hooks W) (fuel : Nat)
    (c : lwmqtt_client_t W) (len : Int) :
    PingStep c (unsubscribe_send_and_wait k h fuel c len).2 := by
  have hs := (send_packet_quiet h c len).step
  have hr := hs.trans_step (cycle_until_ping_step k h fuel _ LWMQTT_NO_PACKET LWMQTT_UNSUBACK_PACKET)
  unfold unsubscribe_send_and_wait
  simp only []
  split_ifs
  · exact hs
  all_goals exact hr

theorem publish_send_and_wait_ping_step (k : Codec) (h : Hooks W) (fuel : Nat)
    (c : lwmqtt_client_t W) (len : Int) (qos : lwmqtt_qos_t) :
    PingStep c (publish_send_and_wait k h fuel c len qos).2 := by
  have hs := (send_packet_quiet h c len).step
  unfold publish_send_and_wait
  simp only []
  split_ifs
  · exact hs
  · exact hs
  all_goals exact hs.trans_step (cycle_until_ping_step k h fuel _ _ _)

theorem yield_ping_step (k : Codec) (h : Hooks W) (fuel : Nat) (c : lwmqtt_client_t W)
    (timeout : Nat) : PingStep c (lwmqtt_yield k h fuel c timeout).2 := by
  simp only [lwmqtt_yield]
  split_ifs
  all_goals exact (call_timer_set_quiet h c _ _).step.trans_step (cycle_until_ping_step k h fuel _ _ _)

theorem disconnect_quiet (k : Codec) (h : Hooks W) (c : lwmqtt_client_t W) (timeout : Nat) :
    PingQuiet c (lwmqtt_disconnect k h c timeout).2 := by
  have h1 := (call_timer_set_quiet h c Timer.command_timer timeout).trans_quiet
    (call_encode_zero_quiet k _ LWMQTT_DISCONNECT_PACKET (by decide))
  simp only [lwmqtt_disconnect]
  split_ifs
  · exact h1
  · exact h1.trans_quiet (send_packet_quiet h _ _)
  · exact h1.trans_quiet (send_packet_quiet h _ _)

theorem connect_ping_step (k : Codec) (h : Hooks W) (fuel : Nat) (c : lwmqtt_client_t W)
    (options : lwmqtt_options_t) (will : Option lwmqtt_will_t)
    (return_code : lwmqtt_return_code_t) (timeout : Nat) :
    PingStep c (lwmqtt_connect k h fuel c options will return_code timeout).2.2 := by
  have h1 := call_timer_set_quiet h c Timer.command_timer timeout
  have h2 : PingQuiet c
      ({ call_timer_set h c Timer.command_timer timeout with
          keep_alive_interval := options.keep_alive } : lwmqtt_client_t W) := h1
  unfold lwmqtt_connect
  simp only []
  by_cases hk : options.keep_alive > 0
  · simp only [if_pos hk]
    have h3 := h2.trans_quiet (call_timer_set_quiet h _ Timer.keep_alive_timer
      (options.keep_alive * 1000))
    have h4 : PingQuiet c (call_encode_connect k
        (call_timer_set h
          ({ call_timer_set h c Timer.command_timer timeout with
              keep_alive_interval := options.keep_alive } : lwmqtt_client_t W)
          Timer.keep_alive_timer (options.keep_alive * 1000)) options will).2.2 :=
      h3.trans_quiet (PingQuiet.log _ _ Event.encode_connect rfl rfl rfl)
    split_ifs
    · exact h4.step
    · exact h4.step.trans_step (connect_send_and_wait_ping_step k h fuel _ _ _)
  · simp only [if_neg hk]
    have h4 : PingQuiet c (call_encode_connect k
        ({ call_timer_set h c Timer.command_timer timeout with
            keep_alive_interval := options.keep_alive } : lwmqtt_client_t W)
        options will).2.2 :=
      h2.trans_quiet (PingQuiet.log _ _ Event.encode_connect rfl rfl rfl)
    split_ifs
    · exact h4.step
    · exact h4.step.trans_step (connect_send_and_wait_ping_step k h fuel _ _ _)

theorem subscribe_ping_step (k : Codec) (h : Hooks W) (fuel : Nat) (c : lwmqtt_client_t W)
    (topic_filter : lwmqtt_string_t) (qos : lwmqtt_qos_t) (timeout : Nat) :
    PingStep c (lwmqtt_subscribe k h fuel c topic_filter qos timeout).2 := by
  have h1 := (call_timer_set_quiet h c Timer.command_timer timeout).trans_quiet
    (get_next_packet_id_quiet _)
  have h2 : PingQuiet c (call_encode_subscribe k
      (lwmqtt_get_next_packet_id (call_timer_set h c Timer.command_timer timeout)).2
      (lwmqtt_get_next_packet_id (call_timer_set h c Timer.command_timer timeout)).1
      topic_filter qos).2.2 :=
    h1.trans_quiet (PingQuiet.log _ _ (Event.encode_subscribe _) rfl rfl rfl)
  unfold lwmqtt_subscribe
  simp only []
  split_ifs
  · exact h2.step
  · exact h2.step.trans_step (subscribe_send_and_wait_ping_step k h fuel _ _)

theorem unsubscribe_ping_step (k : Codec) (h : Hooks W) (fuel : Nat) (c : lwmqtt_client_t W)
    (topic_filter : lwmqtt_string_t) (timeout : Nat) :
    PingStep c (lwmqtt_unsubscribe k h fuel c topic_filter timeout).2 := by
  have h1 := (call_timer_set_quiet h c Timer.command_timer timeout).trans_quiet
    (get_next_packet_id_quiet _)
  have h2 : PingQuiet c (call_encode_unsubscribe k
      (lwmqtt_get_next_packet_id (call_timer_set h c Timer.command_timer timeout)).2
      (lwmqtt_get_next_packet_id (call_timer_set h c Timer.command_timer timeout)).1
      topic_filter).2.2 :=
    h1.trans_quiet (PingQuiet.log _ _ (Event.encode_unsubscribe _) rfl rfl rfl)
  unfold lwmqtt_unsubscribe
  simp only []
  split_ifs
  · exact h2.step
  · exact h2.step.trans_step (unsubscribe_send_and_wait_ping_step k h fuel _ _)

theorem publish_ping_step (k : Codec) (h : Hooks W) (fuel : Nat) (c : lwmqtt_client_t W)
    (topicName : lwmqtt_string_t) (message : lwmqtt_message_t) (timeout : Nat) :
    PingStep c (lwmqtt_publish k h fuel c topicName message timeout).2 := by
  have h1 := call_timer_set_quiet h c Timer.command_timer timeout
  unfold lwmqtt_publish
  simp only []
  by_cases hq : message.qos = LWMQTT_QOS1 ∨ message.qos = LWMQTT_QOS2
  · simp only [if_pos hq]
    have h2 : PingQuiet c (call_encode_publish k
        (lwmqtt_get_next_packet_id (call_timer_set h c Timer.command_timer timeout)).2 false
        message.qos message.retained
        (lwmqtt_get_next_packet_id (call_timer_set h c Timer.command_timer timeout)).1 topicName
        message.payload message.payload_len).2.2 :=
      (h1.trans_quiet (get_next_packet_id_quiet _)).trans_quiet
        (PingQuiet.log _ _ (Event.encode_publish _ _) rfl rfl rfl)
    split_ifs
    · exact h2.step
    · exact h2.step.trans_step (publish_send_and_wait_ping_step k h fuel _ _ _)
  · simp only [if_neg hq]
    have h2 : PingQuiet c (call_encode_publish k
        (call_timer_set h c Timer.command_timer timeout) false message.qos message.retained 0
        topicName message.payload message.payload_len).2.2 :=
      h1.trans_quiet (PingQuiet.log _ _ (Event.encode_publish _ _) rfl rfl rfl)
    split_ifs
    · exact h2.step
    · exact h2.step.trans_step (publish_send_and_wait_ping_step k h fuel _ _ _)

/-- What `lwmqtt_keep_alive` does to the ping exchange: it leaves it alone,
in particular whenever the flag is set at the call; or the flag is clear
before and after; or the flag was clear and the call did nothing to the ping
exchange but append one PINGREQ written in full and the setting of the
flag. -/
theorem keep_alive_ping_shape (k : Codec) (h : Hooks W) (c : lwmqtt_client_t W)
    (timeout : Nat) :
    PingQuiet c (lwmqtt_keep_alive k h c timeout).2
      ∨ (c.ping_outstanding = false
          ∧ (lwmqtt_keep_alive k h c timeout).2.ping_outstanding = false
          ∧ ∃ evs, (lwmqtt_keep_alive k h c timeout).2.trace = c.trace ++ evs
              ∧ flag_after false evs = false)
      ∨ (c.ping_outstanding = false
          ∧ (lwmqtt_keep_alive k h c timeout).2.ping_outstanding = true
          ∧ ∃ bytes len ms, (lwmqtt_keep_alive k h c timeout).2.trace
              = c.trace ++ [Event.timer_set Timer.command_timer timeout,
                  Event.timer_get Timer.keep_alive_timer] ++ pingreq_block bytes len ms) := by
  have h1 := call_timer_set_quiet h c Timer.command_timer timeout
  have h2 := h1.trans_quiet (call_timer_get_quiet h _ Timer.keep_alive_timer)
  by_cases h0 : c.keep_alive_interval = 0
  · left
    simp only [lwmqtt_keep_alive, call_timer_set, h0, if_true]
    exact h1
  by_cases hdue : (h.timer_get (h.timer_set c.world Timer.command_timer timeout)
      Timer.keep_alive_timer).1 > 0
  · left
    simp only [lwmqtt_keep_alive, call_timer_set, call_timer_get, h0, hdue, if_true, if_false]
    exact h2
  by_cases hp : c.ping_outstanding = true
  · left
    simp only [lwmqtt_keep_alive, call_timer_set, call_timer_get, h0, hdue, hp, if_true,
      if_false]
    exact ⟨by simp [hp], [Event.timer_set Timer.command_timer timeout,
      Event.timer_get Timer.keep_alive_timer], by simp, by simp [Event.ping_neutral]⟩
  have hpf : c.ping_outstanding = false := by simpa using hp
  right
  by_cases he : (k.lwmqtt_encode_zero c.write_buf c.write_buf_size
      LWMQTT_PINGREQ_PACKET).1 = LWMQTT_SUCCESS
  · by_cases hw : (h.network_write
        (h.timer_get (h.timer_get (h.timer_set c.world Timer.command_timer timeout)
          Timer.keep_alive_timer).2 Timer.command_timer).2
        (k.lwmqtt_encode_zero c.write_buf c.write_buf_size LWMQTT_PINGREQ_PACKET).2.2
        (k.lwmqtt_encode_zero c.write_buf c.write_buf_size LWMQTT_PINGREQ_PACKET).2.1
        (h.timer_get (h.timer_get (h.timer_set c.world Timer.command_timer timeout)
          Timer.keep_alive_timer).2 Timer.command_timer).1).1 = LWMQTT_SUCCESS
    · by_cases hl : (h.network_write
          (h.timer_get (h.timer_get (h.timer_set c.world Timer.command_timer timeout)
            Timer.keep_alive_timer).2 Timer.command_timer).2
          (k.lwmqtt_encode_zero c.write_buf c.write_buf_size LWMQTT_PINGREQ_PACKET).2.2
          (k.lwmqtt_encode_zero c.write_buf c.write_buf_size LWMQTT_PINGREQ_PACKET).2.1
          (h.timer_get (h.timer_get (h.timer_set c.world Timer.command_timer timeout)
            Timer.keep_alive_timer).2 Timer.command_timer).1).2.1
          = (k.lwmqtt_encode_zero c.write_buf c.write_buf_size LWMQTT_PINGREQ_PACKET).2.1
      · right
        refine ⟨hpf, ?_,
          (k.lwmqtt_encode_zero c.write_buf c.write_buf_size LWMQTT_PINGREQ_PACKET).2.2.take
            (k.lwmqtt_encode_zero c.write_buf c.write_buf_size LWMQTT_PINGREQ_PACKET).2.1.toNat,
          (k.lwmqtt_encode_zero c.write_buf c.write_buf_size LWMQTT_PINGREQ_PACKET).2.1,
          c.keep_alive_interval * 1000, ?_⟩
        · simp [lwmqtt_keep_alive, call_timer_set, call_timer_get, call_encode_zero,
            lwmqtt_send_packet, h0, hdue, hpf, he, hw, hl]
        · simp [lwmqtt_keep_alive, call_timer_set, call_timer_get, call_encode_zero,
            lwmqtt_send_packet, h0, hdue, hpf, he, hw, hl, pingreq_block]
      · left
        refine ⟨hpf, ?_,
          [Event.timer_set Timer.command_timer timeout, Event.timer_get Timer.keep_alive_timer,
            Event.encode_zero LWMQTT_PINGREQ_PACKET, Event.timer_get Timer.command_timer,
            Event.network_write
              ((k.lwmqtt_encode_zero c.write_buf c.write_buf_size LWMQTT_PINGREQ_PACKET).2.2.take
                (k.lwmqtt_encode_zero c.write_buf c.write_buf_size
                  LWMQTT_PINGREQ_PACKET).2.1.toNat)
              (k.lwmqtt_encode_zero c.write_buf c.write_buf_size LWMQTT_PINGREQ_PACKET).2.1],
          ?_, rfl⟩
        · simp [lwmqtt_keep_alive, call_timer_set, call_timer_get, call_encode_zero,
            lwmqtt_send_packet, h0, hdue, hpf, he, hw, hl]
        · simp [lwmqtt_keep_alive, call_timer_set, call_timer_get, call_encode_zero,
            lwmqtt_send_packet, h0, hdue, hpf, he, hw, hl]
    · left
      refine ⟨hpf, ?_,
        [Event.timer_set Timer.command_timer timeout, Event.timer_get Timer.keep_alive_timer,
          Event.encode_zero LWMQTT_PINGREQ_PACKET, Event.timer_get Timer.command_timer,
          Event.network_write
            ((k.lwmqtt_encode_zero c.write_buf c.write_buf_size LWMQTT_PINGREQ_PACKET).2.2.take
              (k.lwmqtt_encode_zero c.write_buf c.write_buf_size
                LWMQTT_PINGREQ_PACKET).2.1.toNat)
            (k.lwmqtt_encode_zero c.write_buf c.write_buf_size LWMQTT_PINGREQ_PACKET).2.1],
        ?_, rfl⟩
      · simp [lwmqtt_keep_alive, call_timer_set, call_timer_get, call_encode_zero,
          lwmqtt_send_packet, h0, hdue, hpf, he, hw]
      · simp [lwmqtt_keep_alive, call_timer_set, call_timer_get, call_encode_zero,
          lwmqtt_send_packet, h0, hdue, hpf, he, hw]
  · left
    refine ⟨hpf, ?_,
      [Event.timer_set Timer.command_timer timeout, Event.timer_get Timer.keep_alive_timer,
        Event.encode_zero LWMQTT_PINGREQ_PACKET], ?_, rfl⟩
    · simp [lwmqtt_keep_alive, call_timer_set, call_timer_get, call_encode_zero, h0, hdue, hpf,
        he]
    · simp [lwmqtt_keep_alive, call_timer_set, call_timer_get, call_encode_zero, h0, hdue, hpf,
        he]

theorem PingStep.preserves {c c' : lwmqtt_client_t W} (h : PingStep c c')
    (hc : ping_invariant c) : ping_invariant c' := by
  obtain ⟨evs, ht, hp, hf⟩ := h
  obtain ⟨h1, h2⟩ := hc
  refine ⟨?_, ?_⟩
  · rw [ht, flag_after_append, ← h1, hf]
  · intro htrue
    rw [hf] at htrue
    obtain ⟨hb, hn⟩ := neutral_of_no_ping_flag _ _ hp htrue
    obtain ⟨pre, bytes, len, ms, post, hpre, hfp, hpost⟩ := h2 hb
    refine ⟨pre, bytes, len, ms, post ++ evs, ?_, hfp, ?_⟩
    · rw [ht, hpre, List.append_assoc]
    · intro e he
      rcases List.mem_append.mp he with h | h
      · exact hpost e h
      · exact hn e h

theorem keep_alive_ping_invariant (k : Codec) (h : Hooks W) (c : lwmqtt_client_t W)
    (timeout : Nat) (hc : ping_invariant c) :
    ping_invariant (lwmqtt_keep_alive k h c timeout).2 := by
  rcases keep_alive_ping_shape k h c timeout with hq | ⟨hf, hf', evs, ht, he⟩
      | ⟨hf, hf', bytes, len, ms, ht⟩
  · exact hq.step.preserves hc
  · refine ⟨?_, ?_⟩
    · rw [ht, flag_after_append, ← hc.1, hf, he, hf']
    · intro htrue
      rw [hf'] at htrue
      exact absurd htrue (by decide)
  · refine ⟨?_, ?_⟩
    · rw [ht, flag_after_append, hf']
      simp [pingreq_block, flag_after]
    · intro _
      refine ⟨c.trace ++ [Event.timer_set Timer.command_timer timeout,
        Event.timer_get Timer.keep_alive_timer], bytes, len, ms, [], ?_, ?_, by simp⟩
      · rw [ht, List.append_nil]
      · rw [flag_after_append, ← hc.1, hf]
        rfl

theorem run_command_ping_invariant (k : Codec) (h : Hooks W) (fuel : Nat)
    (c : lwmqtt_client_t W) (cmd : Command) (hc : ping_invariant c) :
    ping_invariant (run_command k h fuel c cmd).2 := by
  cases cmd with
  | connect options will return_code timeout =>
    exact (connect_ping_step k h fuel c options will return_code timeout).preserves hc
  | subscribe topic_filter qos timeout =>
    exact (subscribe_ping_step k h fuel c topic_filter qos timeout).preserves hc
  | unsubscribe topic_filter timeout =>
    exact (unsubscribe_ping_step k h fuel c topic_filter timeout).preserves hc
  | publish topicName message timeout =>
    exact (publish_ping_step k h fuel c topicName message timeout).preserves hc
  | disconnect timeout => exact (disconnect_quiet k h c timeout).step.preserves hc
  | yield timeout => exact (yield_ping_step k h fuel c timeout).preserves hc
  | keep_alive timeout => exact keep_alive_ping_invariant k h c timeout hc

theorem pingreq_encodes_append (a b : List Event) :
    pingreq_encodes (a ++ b) = pingreq_encodes a + pingreq_encodes b := by
  induction a with
  | nil => simp [pingreq_encodes]
  | cons e t ih => cases e <;> simp [pingreq_encodes, ih, Nat.add_assoc]

theorem pingreq_encodes_no_ping (evs : List Event)
    (h : ∀ e ∈ evs, Event.no_ping e = true) : pingreq_encodes evs = 0 := by
  induction evs with
  | nil => rfl
  | cons e t ih =>
    have he := h e (List.mem_cons_self e t)
    have ht := ih (fun x hx => h x (List.mem_cons_of_mem e hx))
    cases e <;> simp_all [pingreq_encodes, Event.no_ping]

theorem PingStep.same_pingreq_encodes {c c' : lwmqtt_client_t W} (h : PingStep c c') :
    pingreq_encodes c'.trace = pingreq_encodes c.trace := by
  obtain ⟨evs, ht, hp, _⟩ := h
  rw [ht, pingreq_encodes_append, pingreq_encodes_no_ping evs hp, Nat.add_zero]

theorem run_command_no_second_pingreq (k : Codec) (h : Hooks W) (fuel : Nat)
    (c : lwmqtt_client_t W) (cmd : Command) (hp : c.ping_outstanding = true) :
    pingreq_encodes (run_command k h fuel c cmd).2.trace = pingreq_encodes c.trace := by
  cases cmd with
  | connect options will return_code timeout =>
    exact (connect_ping_step k h fuel c options will return_code timeout).same_pingreq_encodes
  | subscribe topic_filter qos timeout =>
    exact (subscribe_ping_step k h fuel c topic_filter qos timeout).same_pingreq_encodes
  | unsubscribe topic_filter timeout =>
    exact (unsubscribe_ping_step k h fuel c topic_filter timeout).same_pingreq_encodes
  | publish topicName message timeout =>
    exact (publish_ping_step k h fuel c topicName message timeout).same_pingreq_encodes
  | disconnect timeout => exact (disconnect_quiet k h c timeout).step.same_pingreq_encodes
  | yield timeout => exact (yield_ping_step k h fuel c timeout).same_pingreq_encodes
  | keep_alive timeout =>
    rcases keep_alive_ping_shape k h c timeout with hq | ⟨hf, _⟩ | ⟨hf, _⟩
    · exact hq.step.same_pingreq_encodes
    · rw [hf] at hp; exact absurd hp (by decide)
    · rw [hf] at hp; exact absurd hp (by decide)

/-- C11: in every client state reachable from `lwmqtt_init` by command calls,
`ping_outstanding` is the last value written to it (clear when none was
written), the only write that clears it being the PINGRESP case of
`lwmqtt_cycle`.  If the flag is set, the trace is `pre ++ block ++ post`: the
flag was clear after `pre`, `block` is one PINGREQ encoded, written in full
(the keep-alive timer is re-armed after the write) and followed by the
setting of the flag, and `post` contains no PINGREQ encoding and no write to
the flag; so exactly one PINGREQ has been written since the flag was last
clear.  While the flag is set no command encodes another PINGREQ. -/
theorem reachable_ping_invariant (k : Codec) (h : Hooks W) (c : lwmqtt_client_t W)
    (hr : Reachable k h c) :
    c.ping_outstanding = flag_after false c.trace
      ∧ (c.ping_outstanding = true →
          ∃ pre bytes len ms post,
            c.trace = pre ++ pingreq_block bytes len ms ++ post
              ∧ flag_after false pre = false
              ∧ pingreq_encodes post = 0
              ∧ ∀ e ∈ post, Event.ping_neutral e = true)
      ∧ (c.ping_outstanding = true → ∀ cmd fuel,
          pingreq_encodes (run_command k h fuel c cmd).2.trace = pingreq_encodes c.trace) := by
  have hinv : ping_invariant c := by
    induction hr with
    | init write_buf write_buf_size read_buf read_buf_size w =>
      exact ⟨rfl, by simp [lwmqtt_init]⟩
    | step c cmd fuel e _ _ ih => exact run_command_ping_invariant k h fuel c cmd ih
  refine ⟨hinv.1, ?_, fun hp cmd fuel => run_command_no_second_pingreq k h fuel c cmd hp⟩
  intro hp
  obtain ⟨pre, bytes, len, ms, post, h1, h2, h3⟩ := hinv.2 hp
  exact ⟨pre, bytes, len, ms, post, h1, h2,
    pingreq_encodes_no_ping post (fun e he => no_ping_of_neutral e (h3 e he)), h3⟩

theorem idleSession_reachable : Reachable exampleCodec exampleHooks idleSession :=
  Reachable.step _ (Command.yield 5000) 10 LWMQTT_SUCCESS
    (Reachable.step _ _ 10 LWMQTT_SUCCESS (Reachable.init _ _ _ _ _) rfl) rfl

/-- C11 on the examples: after connect, an idle yield and a
`lwmqtt_keep_alive` that sent a PINGREQ the flag is set, one PINGREQ has been
encoded, and a second `lwmqtt_keep_alive` encodes none. -/
theorem reachable_ping_invariant_witness :
    Reachable exampleCodec exampleHooks pingedSession
      ∧ pingedSession.ping_outstanding = true
      ∧ pingreq_encodes pingedSession.trace = 1
      ∧ pingreq_encodes (run_command exampleCodec exampleHooks 10 pingedSession
          (Command.keep_alive 100)).2.trace = pingreq_encodes pingedSession.trace :=
  ⟨Reachable.step _ (Command.keep_alive 100) 10 LWMQTT_SUCCESS idleSession_reachable rfl,
    rfl, rfl,
    (reachable_ping_invariant exampleCodec exampleHooks pingedSession
      (Reachable.step _ (Command.keep_alive 100) 10 LWMQTT_SUCCESS idleSession_reachable
        rfl)).2.2 rfl (Command.keep_alive 100) 10⟩

/-! ## C12, C13: the handshake steps of `lwmqtt_cycle` -/

theorem encode_acks_append (a b : List Event) :
    encode_acks (a ++ b) = encode_acks a ++ encode_acks b := by
  induction a with
  | nil => rfl
  | cons e t ih => cases e <;> simp [encode_acks, ih]

theorem callbacks_append (a b : List Event) :
    callbacks (a ++ b) = callbacks a ++ callbacks b := by
  induction a with
  | nil => rfl
  | cons e t ih => cases e <;> simp [callbacks, ih]

/-- The events of `lwmqtt_send_packet`: one network write of the first `len`
bytes of the write buffer, no encoder call and no callback. -/
theorem send_packet_events (h : Hooks W) (c : lwmqtt_client_t W) (len : Int) :
    ∃ post, (lwmqtt_send_packet h c len).2.trace = c.trace ++ post
      ∧ network_writes post = [(c.write_buf.take len.toNat, len)]
      ∧ encode_acks post = [] ∧ callbacks post = [] := by
  unfold lwmqtt_send_packet
  simp only []
  split_ifs
  · exact ⟨[Event.timer_get Timer.command_timer,
      Event.network_write (c.write_buf.take len.toNat) len],
      by simp [call_timer_get], rfl, rfl, rfl⟩
  · exact ⟨[Event.timer_get Timer.command_timer,
      Event.network_write (c.write_buf.take len.toNat) len],
      by simp [call_timer_get], rfl, rfl, rfl⟩
  · exact ⟨[Event.timer_get Timer.command_timer,
      Event.network_write (c.write_buf.take len.toNat) len,
      Event.timer_set Timer.keep_alive_timer (c.keep_alive_interval * 1000)],
      by simp [call_timer_get, call_timer_set], rfl, rfl, rfl⟩

/-- The events of encoding and sending an acknowledgement: one call of the
ack encoder with the given type and packet id, then, when the encoder
succeeded, one network write of the encoded bytes. -/
theorem encode_and_send_ack_events (k : Codec) (h : Hooks W) (c : lwmqtt_client_t W)
    (type : lwmqtt_packet_type_t) (packet_id : Nat) :
    ∃ post, (encode_and_send_ack k h c type packet_id).2.trace
        = c.trace ++ Event.encode_ack type packet_id :: post
      ∧ encode_acks post = [] ∧ callbacks post = []
      ∧ network_writes post
          = (if (k.lwmqtt_encode_ack c.write_buf c.write_buf_size type false packet_id).1
                = LWMQTT_SUCCESS then
              [((k.lwmqtt_encode_ack c.write_buf c.write_buf_size type false
                    packet_id).2.2.take
                  (k.lwmqtt_encode_ack c.write_buf c.write_buf_size type false
                    packet_id).2.1.toNat,
                (k.lwmqtt_encode_ack c.write_buf c.write_buf_size type false packet_id).2.1)]
            else []) := by
  unfold encode_and_send_ack
  simp only []
  by_cases he : (k.lwmqtt_encode_ack c.write_buf c.write_buf_size type false packet_id).1
      = LWMQTT_SUCCESS
  · have he' : ¬ (call_encode_ack k c type false packet_id).1 ≠ LWMQTT_SUCCESS := by
      simpa [call_encode_ack] using he
    rw [if_neg he', if_pos he]
    obtain ⟨post, ht, hw, ha, hc⟩ := send_packet_events h (call_encode_ack k c type false
      packet_id).2.2 (call_encode_ack k c type false packet_id).2.1
    refine ⟨post, ?_, ha, hc, ?_⟩
    · rw [ht]; simp [call_encode_ack]
    · rw [hw]; rfl
  · have he' : (call_encode_ack k c type false packet_id).1 ≠ LWMQTT_SUCCESS := by
      simpa [call_encode_ack] using he
    rw [if_pos he', if_neg he]
    exact ⟨[], by simp [call_encode_ack], rfl, rfl, rfl⟩

theorem call_callback_trace (h : Hooks W) (c : lwmqtt_client_t W) (topic : lwmqtt_string_t)
    (msg : lwmqtt_message_t) :
    (call_callback h c topic msg).trace
        = c.trace ++ (if h.callback.isSome then [Event.callback topic msg] else [])
      ∧ (call_callback h c topic msg).write_buf = c.write_buf
      ∧ (call_callback h c topic msg).write_buf_size = c.write_buf_size := by
  unfold call_callback
  split <;> simp_all

theorem cycle_of_publish (k : Codec) (h : Hooks W) (fuel : Nat) (c : lwmqtt_client_t W)
    (packet_type : lwmqtt_packet_type_t)
    (hres : (lwmqtt_read_packet k h fuel c packet_type).1 = some LWMQTT_SUCCESS)
    (htype : (lwmqtt_read_packet k h fuel c packet_type).2.1 = LWMQTT_PUBLISH_PACKET) :
    lwmqtt_cycle k h fuel c packet_type
      = (some (cycle_publish k h (lwmqtt_read_packet k h fuel c packet_type).2.2).1,
          LWMQTT_PUBLISH_PACKET,
          (cycle_publish k h (lwmqtt_read_packet k h fuel c packet_type).2.2).2) := by
  unfold lwmqtt_cycle
  simp only [hres, htype]
  simp

/-- C12: when `lwmqtt_cycle` has read a PUBLISH and `lwmqtt_decode_publish`
succeeds, the events that follow the read are: the callback, if set, called
once with the decoded topic and message; then nothing for QoS 0; for QoS 1 one
call of the ack encoder for a PUBREC with the decoded packet id and, when the
encoder succeeded, one network write of the encoded bytes; for QoS 2 the same
with a PUBREL.  No callback follows the acknowledgement. -/
theorem cycle_inbound_publish (k : Codec) (h : Hooks W) (fuel : Nat) (c : lwmqtt_client_t W)
    (packet_type : lwmqtt_packet_type_t)
    (hres : (lwmqtt_read_packet k h fuel c packet_type).1 = some LWMQTT_SUCCESS)
    (htype : (lwmqtt_read_packet k h fuel c packet_type).2.1 = LWMQTT_PUBLISH_PACKET)
    (hdec : (k.lwmqtt_decode_publish (lwmqtt_read_packet k h fuel c packet_type).2.2.read_buf
      (lwmqtt_read_packet k h fuel c packet_type).2.2.read_buf_size).1 = LWMQTT_SUCCESS) :
    let c1 := (lwmqtt_read_packet k h fuel c packet_type).2.2
    let f := (k.lwmqtt_decode_publish c1.read_buf c1.read_buf_size).2
    let msg : lwmqtt_message_t :=
      { qos := f.qos, retained := f.retained, payload := f.payload,
        payload_len := f.payload_len }
    let ack := fun type =>
      k.lwmqtt_encode_ack c1.write_buf c1.write_buf_size type false f.packet_id
    let sent := fun type =>
      if (ack type).1 = LWMQTT_SUCCESS then
        [((ack type).2.2.take (ack type).2.1.toNat, (ack type).2.1)]
      else []
    ∃ post, (lwmqtt_cycle k h fuel c packet_type).2.2.trace
        = c1.trace ++ (if h.callback.isSome then [Event.callback f.topic msg] else []) ++ post
      ∧ callbacks post = []
      ∧ (f.qos = LWMQTT_QOS0 → post = [])
      ∧ (f.qos = LWMQTT_QOS1 →
          encode_acks post = [(LWMQTT_PUBREC_PACKET, f.packet_id)]
            ∧ network_writes post = sent LWMQTT_PUBREC_PACKET)
      ∧ (f.qos = LWMQTT_QOS2 →
          encode_acks post = [(LWMQTT_PUBREL_PACKET, f.packet_id)]
            ∧ network_writes post = sent LWMQTT_PUBREL_PACKET) := by
  intro c1 f msg ack sent
  rw [cycle_of_publish k h fuel c packet_type hres htype]
  have hdec' : ¬ (k.lwmqtt_decode_publish c1.read_buf c1.read_buf_size).1 ≠ LWMQTT_SUCCESS := by
    simpa using hdec
  obtain ⟨hcb, hwb, hws⟩ := call_callback_trace h c1 f.topic msg
  show ∃ post, (cycle_publish k h c1).2.trace = _ ∧ _
  unfold cycle_publish
  simp only [if_neg hdec']
  by_cases h0 : f.qos = LWMQTT_QOS0
  · rw [if_pos h0]
    refine ⟨[], by rw [hcb]; simp, rfl, fun _ => rfl, ?_, ?_⟩
    · intro h1; rw [h0] at h1; exact absurd h1 (by decide)
    · intro h2; rw [h0] at h2; exact absurd h2 (by decide)
  · rw [if_neg h0]
    by_cases h1 : f.qos = LWMQTT_QOS1
    · rw [if_pos h1]
      obtain ⟨post, ht, ha, hc, hw⟩ := encode_and_send_ack_events k h
        (call_callback h c1 f.topic msg) LWMQTT_PUBREC_PACKET f.packet_id
      refine ⟨Event.encode_ack LWMQTT_PUBREC_PACKET f.packet_id :: post, ?_, ?_,
        fun h0' => absurd h0' h0, fun _ => ⟨?_, ?_⟩, ?_⟩
      · rw [ht, hcb]
      · simpa [callbacks] using hc
      · simpa [encode_acks] using ha
      · rw [hwb, hws] at hw
        simpa [network_writes] using hw
      · intro h2; rw [h1] at h2; exact absurd h2 (by decide)
    · rw [if_neg h1]
      by_cases h2 : f.qos = LWMQTT_QOS2
      · rw [if_pos h2]
        obtain ⟨post, ht, ha, hc, hw⟩ := encode_and_send_ack_events k h
          (call_callback h c1 f.topic msg) LWMQTT_PUBREL_PACKET f.packet_id
        refine ⟨Event.encode_ack LWMQTT_PUBREL_PACKET f.packet_id :: post, ?_, ?_,
          fun h0' => absurd h0' h0, fun h1' => absurd h1' h1, fun _ => ⟨?_, ?_⟩⟩
        · rw [ht, hcb]
        · simpa [callbacks] using hc
        · simpa [encode_acks] using ha
        · rw [hwb, hws] at hw
          simpa [network_writes] using hw
      · rw [if_neg h2]
        obtain ⟨post, ht, ha, hc, hw⟩ := encode_and_send_ack_events k h
          (call_callback h c1 f.topic msg) LWMQTT_NO_PACKET f.packet_id
        refine ⟨Event.encode_ack LWMQTT_NO_PACKET f.packet_id :: post, ?_, ?_,
          fun h0' => absurd h0' h0, fun h1' => absurd h1' h1, fun h2' => absurd h2' h2⟩
        · rw [ht, hcb]
        · simpa [callbacks] using hc

/-- C12 on the examples: the QoS-1 PUBLISH `32 06 00 01 74 00 07 70` arrives
at a client with a callback; the callback is called once with topic `"t"` and
payload `"p"`, then one PUBREC for packet id 7 is encoded and the bytes
`50 02 00 07` are written. -/
theorem cycle_inbound_publish_witness :
    ((lwmqtt_read_packet exampleCodec callbackHooks 10 publishInbound LWMQTT_NO_PACKET).1
        = some LWMQTT_SUCCESS
      ∧ (lwmqtt_read_packet exampleCodec callbackHooks 10 publishInbound LWMQTT_NO_PACKET).2.1
        = LWMQTT_PUBLISH_PACKET
      ∧ (exampleCodec.lwmqtt_decode_publish
          (lwmqtt_read_packet exampleCodec callbackHooks 10 publishInbound
            LWMQTT_NO_PACKET).2.2.read_buf
          (lwmqtt_read_packet exampleCodec callbackHooks 10 publishInbound
            LWMQTT_NO_PACKET).2.2.read_buf_size).1 = LWMQTT_SUCCESS)
    ∧ ∃ post, (lwmqtt_cycle exampleCodec callbackHooks 10 publishInbound
          LWMQTT_NO_PACKET).2.2.trace
        = (lwmqtt_read_packet exampleCodec callbackHooks 10 publishInbound
            LWMQTT_NO_PACKET).2.2.trace
          ++ [Event.callback [0x74]
              { qos := 1, retained := false, payload := [0x70], payload_len := 1 }]
          ++ post
      ∧ callbacks post = []
      ∧ encode_acks post = [(LWMQTT_PUBREC_PACKET, 7)]
      ∧ network_writes post = [([0x50, 2, 0, 7], 4)] :=
  ⟨⟨rfl, rfl, rfl⟩,
    (cycle_inbound_publish exampleCodec callbackHooks 10 publishInbound LWMQTT_NO_PACKET
      rfl rfl rfl).elim
      (fun post hp => ⟨post, hp.1, hp.2.1, (hp.2.2.2.1 rfl).1, (hp.2.2.2.1 rfl).2⟩)⟩

theorem cycle_of_ack (k : Codec) (h : Hooks W) (fuel : Nat) (c : lwmqtt_client_t W)
    (packet_type inbound reply : lwmqtt_packet_type_t)
    (hpair : (inbound = LWMQTT_PUBREC_PACKET ∧ reply = LWMQTT_PUBREL_PACKET)
      ∨ (inbound = LWMQTT_PUBREL_PACKET ∧ reply = LWMQTT_PUBCOMP_PACKET))
    (hres : (lwmqtt_read_packet k h fuel c packet_type).1 = some LWMQTT_SUCCESS)
    (htype : (lwmqtt_read_packet k h fuel c packet_type).2.1 = inbound) :
    lwmqtt_cycle k h fuel c packet_type
      = (some (cycle_ack k h (lwmqtt_read_packet k h fuel c packet_type).2.2 reply).1,
          (cycle_ack k h (lwmqtt_read_packet k h fuel c packet_type).2.2 reply).2.1,
          (cycle_ack k h (lwmqtt_read_packet k h fuel c packet_type).2.2 reply).2.2) := by
  unfold lwmqtt_cycle
  rcases hpair with ⟨hi, hr⟩ | ⟨hi, hr⟩
  · subst hi hr
    simp only [hres, htype]
    simp
  · subst hi hr
    simp only [hres, htype]
    simp

/-- C13: when `lwmqtt_cycle` has read a PUBREC (a PUBREL) and
`lwmqtt_decode_ack` succeeds with packet id `k`, the events that follow the
read are one call of the ack encoder for a PUBREL (a PUBCOMP) with packet id
`k` and, when the encoder succeeded, one network write of the encoded bytes;
no other acknowledgement is encoded, and `next_packet_id` and
`ping_outstanding` are as before the call. -/
theorem cycle_inbound_ack (k : Codec) (h : Hooks W) (fuel : Nat) (c : lwmqtt_client_t W)
    (packet_type inbound reply : lwmqtt_packet_type_t)
    (hpair : (inbound = LWMQTT_PUBREC_PACKET ∧ reply = LWMQTT_PUBREL_PACKET)
      ∨ (inbound = LWMQTT_PUBREL_PACKET ∧ reply = LWMQTT_PUBCOMP_PACKET))
    (hres : (lwmqtt_read_packet k h fuel c packet_type).1 = some LWMQTT_SUCCESS)
    (htype : (lwmqtt_read_packet k h fuel c packet_type).2.1 = inbound)
    (hdec : (k.lwmqtt_decode_ack (lwmqtt_read_packet k h fuel c packet_type).2.2.read_buf
      (lwmqtt_read_packet k h fuel c packet_type).2.2.read_buf_size).1 = LWMQTT_SUCCESS) :
    let c1 := (lwmqtt_read_packet k h fuel c packet_type).2.2
    let id := (k.lwmqtt_decode_ack c1.read_buf c1.read_buf_size).2.2.2
    let ack := k.lwmqtt_encode_ack c1.write_buf c1.write_buf_size reply false id
    (∃ post, (lwmqtt_cycle k h fuel c packet_type).2.2.trace
        = c1.trace ++ Event.encode_ack reply id :: post
      ∧ encode_acks post = []
      ∧ network_writes post
          = (if ack.1 = LWMQTT_SUCCESS then [(ack.2.2.take ack.2.1.toNat, ack.2.1)] else []))
    ∧ (lwmqtt_cycle k h fuel c packet_type).2.2.next_packet_id = c.next_packet_id
    ∧ (lwmqtt_cycle k h fuel c packet_type).2.2.ping_outstanding = c.ping_outstanding := by
  intro c1 id ack
  have hn := (cycle_extends k h fuel c packet_type).next_packet_id
  rw [cycle_of_ack k h fuel c packet_type inbound reply hpair hres htype] at hn ⊢
  have hq := (read_packet_quiet k h fuel c packet_type).trans_quiet (cycle_ack_quiet k h c1 reply)
  refine ⟨?_, hn, hq.1⟩
  have hdec' : ¬ (k.lwmqtt_decode_ack c1.read_buf c1.read_buf_size).1 ≠ LWMQTT_SUCCESS := by
    simpa using hdec
  show ∃ post, (cycle_ack k h c1 reply).2.2.trace = _ ∧ _
  unfold cycle_ack
  simp only [if_neg hdec']
  obtain ⟨post, ht, ha, _, hw⟩ := encode_and_send_ack_events k h c1 reply id
  exact ⟨post, ht, ha, hw⟩

/-- C13 on the examples: the PUBREC `50 02 00 09` arrives; one PUBREL for
packet id 9 is encoded and the bytes `62 02 00 09` are written. -/
theorem cycle_inbound_ack_witness :
    (((LWMQTT_PUBREC_PACKET = LWMQTT_PUBREC_PACKET ∧ LWMQTT_PUBREL_PACKET = LWMQTT_PUBREL_PACKET)
        ∨ (LWMQTT_PUBREC_PACKET = LWMQTT_PUBREL_PACKET
          ∧ LWMQTT_PUBREL_PACKET = LWMQTT_PUBCOMP_PACKET))
      ∧ (lwmqtt_read_packet exampleCodec exampleHooks 10 pubrecInbound LWMQTT_NO_PACKET).1
        = some LWMQTT_SUCCESS
      ∧ (lwmqtt_read_packet exampleCodec exampleHooks 10 pubrecInbound LWMQTT_NO_PACKET).2.1
        = LWMQTT_PUBREC_PACKET
      ∧ (exampleCodec.lwmqtt_decode_ack
          (lwmqtt_read_packet exampleCodec exampleHooks 10 pubrecInbound
            LWMQTT_NO_PACKET).2.2.read_buf
          (lwmqtt_read_packet exampleCodec exampleHooks 10 pubrecInbound
            LWMQTT_NO_PACKET).2.2.read_buf_size).1 = LWMQTT_SUCCESS)
    ∧ (∃ post, (lwmqtt_cycle exampleCodec exampleHooks 10 pubrecInbound
          LWMQTT_NO_PACKET).2.2.trace
        = (lwmqtt_read_packet exampleCodec exampleHooks 10 pubrecInbound
            LWMQTT_NO_PACKET).2.2.trace ++ Event.encode_ack LWMQTT_PUBREL_PACKET 9 :: post
      ∧ encode_acks post = []
      ∧ network_writes post = [([0x62, 2, 0, 9], 4)])
    ∧ (lwmqtt_cycle exampleCodec exampleHooks 10 pubrecInbound
        LWMQTT_NO_PACKET).2.2.next_packet_id = 1 :=
  ⟨⟨Or.inl ⟨rfl, rfl⟩, rfl, rfl, rfl⟩,
    (cycle_inbound_ack exampleCodec exampleHooks 10 pubrecInbound LWMQTT_NO_PACKET
      LWMQTT_PUBREC_PACKET LWMQTT_PUBREL_PACKET (Or.inl ⟨rfl, rfl⟩) rfl rfl rfl).1,
    (cycle_inbound_ack exampleCodec exampleHooks 10 pubrecInbound LWMQTT_NO_PACKET
      LWMQTT_PUBREC_PACKET LWMQTT_PUBREL_PACKET (Or.inl ⟨rfl, rfl⟩) rfl rfl rfl).2.1⟩

/-! ## C14: errors of the codec -/

/-- C14 fails on the code.  `lwmqtt_connect` with a two-byte write buffer:
`lwmqtt_encode_connect` returns `LWMQTT_BUFFER_TOO_SHORT`, the command returns
`LWMQTT_FAILURE`.  `lwmqtt_disconnect` with a failing `lwmqtt_encode_zero`:
the encoder returns `LWMQTT_BUFFER_TOO_SHORT`, the command `LWMQTT_FAILURE`.
`lwmqtt_subscribe` answered by the SUBACK `90 02 00 01`, which
`lwmqtt_decode_suback` rejects with `other (-7)`: the command returns
`LWMQTT_SUCCESS`. -/
theorem codec_error_not_verbatim :
    ((exampleCodec.lwmqtt_encode_connect (smallBufferClient []).write_buf
          (smallBufferClient []).write_buf_size exampleOptions none).1 = LWMQTT_BUFFER_TOO_SHORT
      ∧ (lwmqtt_connect exampleCodec exampleHooks 10 (smallBufferClient []) exampleOptions none
          0 100).1 = some LWMQTT_FAILURE)
    ∧ ((failingEncodeCodec.lwmqtt_encode_zero (freshClient []).write_buf
          (freshClient []).write_buf_size LWMQTT_DISCONNECT_PACKET).1 = LWMQTT_BUFFER_TOO_SHORT
      ∧ (lwmqtt_disconnect failingEncodeCodec exampleHooks (freshClient []) 100).1
          = LWMQTT_FAILURE)
    ∧ ((checkedSubackCodec.lwmqtt_decode_suback
          (lwmqtt_subscribe checkedSubackCodec exampleHooks 10 (freshClient [0x90, 2, 0, 1])
            [0x61] LWMQTT_QOS1 100).2.read_buf 32).1 = other (-7)
      ∧ (lwmqtt_subscribe checkedSubackCodec exampleHooks 10 (freshClient [0x90, 2, 0, 1])
          [0x61] LWMQTT_QOS1 100).1 = some LWMQTT_SUCCESS) :=
  ⟨⟨rfl, rfl⟩, ⟨rfl, rfl⟩, ⟨rfl, rfl⟩⟩

theorem encode_and_send_ack_error (k : Codec) (h : Hooks W) (c : lwmqtt_client_t W)
    (type : lwmqtt_packet_type_t) (packet_id : Nat)
    (he : (k.lwmqtt_encode_ack c.write_buf c.write_buf_size type false packet_id).1
      ≠ LWMQTT_SUCCESS) :
    (encode_and_send_ack k h c type packet_id).1
      = (k.lwmqtt_encode_ack c.write_buf c.write_buf_size type false packet_id).1 := by
  simp [encode_and_send_ack, call_encode_ack, he]

theorem cycle_publish_decode_error (k : Codec) (h : Hooks W) (c : lwmqtt_client_t W)
    (he : (k.lwmqtt_decode_publish c.read_buf c.read_buf_size).1 ≠ LWMQTT_SUCCESS) :
    (cycle_publish k h c).1 = (k.lwmqtt_decode_publish c.read_buf c.read_buf_size).1 := by
  simp [cycle_publish, he]

theorem cycle_publish_encode_error (k : Codec) (h : Hooks W) (c : lwmqtt_client_t W)
    (type : lwmqtt_packet_type_t)
    (hd : (k.lwmqtt_decode_publish c.read_buf c.read_buf_size).1 = LWMQTT_SUCCESS)
    (hq : ((k.lwmqtt_decode_publish c.read_buf c.read_buf_size).2.qos = LWMQTT_QOS1
        ∧ type = LWMQTT_PUBREC_PACKET)
      ∨ ((k.lwmqtt_decode_publish c.read_buf c.read_buf_size).2.qos = LWMQTT_QOS2
        ∧ type = LWMQTT_PUBREL_PACKET))
    (he : (k.lwmqtt_encode_ack c.write_buf c.write_buf_size type false
      (k.lwmqtt_decode_publish c.read_buf c.read_buf_size).2.packet_id).1 ≠ LWMQTT_SUCCESS) :
    (cycle_publish k h c).1
      = (k.lwmqtt_encode_ack c.write_buf c.write_buf_size type false
          (k.lwmqtt_decode_publish c.read_buf c.read_buf_size).2.packet_id).1 := by
  obtain ⟨_, hwb, hws⟩ := call_callback_trace h c
    (k.lwmqtt_decode_publish c.read_buf c.read_buf_size).2.topic
    { qos := (k.lwmqtt_decode_publish c.read_buf c.read_buf_size).2.qos
      retained := (k.lwmqtt_decode_publish c.read_buf c.read_buf_size).2.retained
      payload := (k.lwmqtt_decode_publish c.read_buf c.read_buf_size).2.payload
      payload_len := (k.lwmqtt_decode_publish c.read_buf c.read_buf_size).2.payload_len }
  have hd' : ¬ (k.lwmqtt_decode_publish c.read_buf c.read_buf_size).1 ≠ LWMQTT_SUCCESS := by
    simpa using hd
  rcases hq with ⟨hq, ht⟩ | ⟨hq, ht⟩
  · subst ht
    have h0 : (k.lwmqtt_decode_publish c.read_buf c.read_buf_size).2.qos ≠ LWMQTT_QOS0 := by
      rw [hq]; decide
    unfold cycle_publish
    simp only [if_neg hd']
    rw [if_neg h0, if_pos hq, encode_and_send_ack_error]
    · rw [hwb, hws]
    · rw [hwb, hws]; exact he
  · subst ht
    have h0 : (k.lwmqtt_decode_publish c.read_buf c.read_buf_size).2.qos ≠ LWMQTT_QOS0 := by
      rw [hq]; decide
    have h1 : (k.lwmqtt_decode_publish c.read_buf c.read_buf_size).2.qos ≠ LWMQTT_QOS1 := by
      rw [hq]; decide
    unfold cycle_publish
    simp only [if_neg hd']
    rw [if_neg h0, if_neg h1, if_pos hq, encode_and_send_ack_error]
    · rw [hwb, hws]
    · rw [hwb, hws]; exact he

theorem cycle_ack_decode_error (k : Codec) (h : Hooks W) (c : lwmqtt_client_t W)
    (reply : lwmqtt_packet_type_t)
    (he : (k.lwmqtt_decode_ack c.read_buf c.read_buf_size).1 ≠ LWMQTT_SUCCESS) :
    (cycle_ack k h c reply).1 = (k.lwmqtt_decode_ack c.read_buf c.read_buf_size).1 := by
  simp [cycle_ack, he]

theorem cycle_ack_encode_error (k : Codec) (h : Hooks W) (c : lwmqtt_client_t W)
    (reply : lwmqtt_packet_type_t)
    (hd : (k.lwmqtt_decode_ack c.read_buf c.read_buf_size).1 = LWMQTT_SUCCESS)
    (he : (k.lwmqtt_encode_ack c.write_buf c.write_buf_size reply false
      (k.lwmqtt_decode_ack c.read_buf c.read_buf_size).2.2.2).1 ≠ LWMQTT_SUCCESS) :
    (cycle_ack k h c reply).1
      = (k.lwmqtt_encode_ack c.write_buf c.write_buf_size reply false
          (k.lwmqtt_decode_ack c.read_buf c.read_buf_size).2.2.2).1 := by
  simp only [cycle_ack, hd, ne_eq, not_true_eq_false, if_false]
  exact encode_and_send_ack_error k h c reply _ he

/-- A pass of the loop of `lwmqtt_cycle_until` whose cycle does not return
`LWMQTT_SUCCESS` ends the loop with the result of that cycle. -/
theorem cycle_until_stops (k : Codec) (h : Hooks W) (n : Nat) (c : lwmqtt_client_t W)
    (packet_type needle : lwmqtt_packet_type_t)
    (h1 : (lwmqtt_cycle k h (n + 1) c packet_type).1 ≠ some LWMQTT_SUCCESS) :
    lwmqtt_cycle_until k h (n + 1) c packet_type needle
      = lwmqtt_cycle k h (n + 1) c packet_type := by
  rw [lwmqtt_cycle_until]
  simp only []
  rw [if_pos h1]

/-- A pass of the loop of `lwmqtt_cycle_until` that goes on to another: the
loop gives what it gives from the state the next pass starts in. -/
theorem cycle_until_again (k : Codec) (h : Hooks W) (n : Nat) (c : lwmqtt_client_t W)
    (packet_type needle : lwmqtt_packet_type_t)
    (h1 : (lwmqtt_cycle k h (n + 1) c packet_type).1 = some LWMQTT_SUCCESS)
    (h2 : ¬ (needle ≠ LWMQTT_NO_PACKET ∧ (lwmqtt_cycle k h (n + 1) c packet_type).2.1 = needle))
    (h3 : (call_timer_get h (lwmqtt_cycle k h (n + 1) c packet_type).2.2
      Timer.command_timer).1 > 0) :
    lwmqtt_cycle_until k h (n + 1) c packet_type needle
      = lwmqtt_cycle_until k h n
          (call_timer_get h (lwmqtt_cycle k h (n + 1) c packet_type).2.2 Timer.command_timer).2
          (lwmqtt_cycle k h (n + 1) c packet_type).2.1 needle := by
  have h1' : ¬ (lwmqtt_cycle k h (n + 1) c packet_type).1 ≠ some LWMQTT_SUCCESS := by
    simpa using h1
  rw [lwmqtt_cycle_until]
  simp only []
  rw [if_neg h1', if_neg h2, if_pos h3]

/-- The loop of `lwmqtt_cycle_until` gives from its first state what it gives
from any state one of its passes starts in. -/
theorem cycle_until_of_reaches (k : Codec) (h : Hooks W) (needle : lwmqtt_packet_type_t)
    (s t : Nat × lwmqtt_client_t W × lwmqtt_packet_type_t) (hr : LoopReaches k h needle s t) :
    lwmqtt_cycle_until k h s.1 s.2.1 s.2.2 needle
      = lwmqtt_cycle_until k h t.1 t.2.1 t.2.2 needle := by
  induction hr with
  | start => rfl
  | again n c packet_type _ h1 h2 h3 ih =>
    rw [ih]
    exact cycle_until_again k h n c packet_type needle h1 h2 h3

/-- An error of `lwmqtt_cycle` in any pass of the loop is the result of
`lwmqtt_cycle_until`. -/
theorem cycle_until_cycle_error (k : Codec) (h : Hooks W) (needle : lwmqtt_packet_type_t)
    (fuel : Nat) (c : lwmqtt_client_t W) (packet_type : lwmqtt_packet_type_t)
    (n : Nat) (c' : lwmqtt_client_t W) (pt' : lwmqtt_packet_type_t)
    (hr : LoopReaches k h needle (fuel, c, packet_type) (n + 1, c', pt'))
    (h1 : (lwmqtt_cycle k h (n + 1) c' pt').1 ≠ some LWMQTT_SUCCESS) :
    lwmqtt_cycle_until k h fuel c packet_type needle = lwmqtt_cycle k h (n + 1) c' pt' :=
  (cycle_until_of_reaches k h needle _ _ hr).trans (cycle_until_stops k h n c' pt' needle h1)

/-- C14 as amended.  An error `e` of a codec step is the result of the
command in these cases: the request encoder of `lwmqtt_subscribe`,
`lwmqtt_unsubscribe`, `lwmqtt_publish` and `lwmqtt_keep_alive`; the decoder of
the awaited acknowledgement in `lwmqtt_unsubscribe` and `lwmqtt_publish`; the
decode and encode steps of `lwmqtt_cycle`, whose error `lwmqtt_cycle_until`
returns in whatever pass of its loop the cycle fails, and every waiting
command (connect, subscribe, unsubscribe, publish, yield) passes on as it
is.  `lwmqtt_connect` returns `LWMQTT_FAILURE` when `lwmqtt_encode_connect` or
`lwmqtt_decode_connack` fails, `lwmqtt_disconnect` returns `LWMQTT_FAILURE`
when `lwmqtt_encode_zero` fails.  Nothing is said about `lwmqtt_subscribe`
after a failing `lwmqtt_decode_suback`. -/
theorem codec_errors_by_step (k : Codec) (h : Hooks W) (fuel : Nat) (c : lwmqtt_client_t W)
    (timeout : Nat) :
    (∀ topic_filter qos,
      let g := lwmqtt_get_next_packet_id (call_timer_set h c Timer.command_timer timeout)
      let e := call_encode_subscribe k g.2 g.1 topic_filter qos
      let s := lwmqtt_send_packet h e.2.2 e.2.1
      let r := lwmqtt_cycle_until k h fuel s.2 LWMQTT_NO_PACKET LWMQTT_SUBACK_PACKET
      (e.1 ≠ LWMQTT_SUCCESS →
        (lwmqtt_subscribe k h fuel c topic_filter qos timeout).1 = some e.1)
      ∧ (e.1 = LWMQTT_SUCCESS → s.1 = LWMQTT_SUCCESS → r.1 ≠ some LWMQTT_SUCCESS →
        (lwmqtt_subscribe k h fuel c topic_filter qos timeout).1 = r.1))
    ∧ (∀ topic_filter,
      let g := lwmqtt_get_next_packet_id (call_timer_set h c Timer.command_timer timeout)
      let e := call_encode_unsubscribe k g.2 g.1 topic_filter
      let s := lwmqtt_send_packet h e.2.2 e.2.1
      let r := lwmqtt_cycle_until k h fuel s.2 LWMQTT_NO_PACKET LWMQTT_UNSUBACK_PACKET
      let d := k.lwmqtt_decode_ack r.2.2.read_buf r.2.2.read_buf_size
      (e.1 ≠ LWMQTT_SUCCESS →
        (lwmqtt_unsubscribe k h fuel c topic_filter timeout).1 = some e.1)
      ∧ (e.1 = LWMQTT_SUCCESS → s.1 = LWMQTT_SUCCESS → r.1 ≠ some LWMQTT_SUCCESS →
        (lwmqtt_unsubscribe k h fuel c topic_filter timeout).1 = r.1)
      ∧ (e.1 = LWMQTT_SUCCESS → s.1 = LWMQTT_SUCCESS → r.1 = some LWMQTT_SUCCESS →
        r.2.1 = LWMQTT_UNSUBACK_PACKET → d.1 ≠ LWMQTT_SUCCESS →
        (lwmqtt_unsubscribe k h fuel c topic_filter timeout).1 = some d.1))
    ∧ (∀ topicName (message : lwmqtt_message_t),
      let g : Nat × lwmqtt_client_t W :=
        if message.qos = LWMQTT_QOS1 ∨ message.qos = LWMQTT_QOS2 then
          lwmqtt_get_next_packet_id (call_timer_set h c Timer.command_timer timeout)
        else (0, call_timer_set h c Timer.command_timer timeout)
      let e := call_encode_publish k g.2 false message.qos message.retained g.1 topicName
        message.payload message.payload_len
      let s := lwmqtt_send_packet h e.2.2 e.2.1
      let ack_type :=
        if message.qos = LWMQTT_QOS1 then LWMQTT_PUBACK_PACKET
        else if message.qos = LWMQTT_QOS2 then LWMQTT_PUBCOMP_PACKET
        else LWMQTT_NO_PACKET
      let r := lwmqtt_cycle_until k h fuel s.2 LWMQTT_NO_PACKET ack_type
      let d := k.lwmqtt_decode_ack r.2.2.read_buf r.2.2.read_buf_size
      (e.1 ≠ LWMQTT_SUCCESS →
        (lwmqtt_publish k h fuel c topicName message timeout).1 = some e.1)
      ∧ (e.1 = LWMQTT_SUCCESS → s.1 = LWMQTT_SUCCESS → message.qos ≠ LWMQTT_QOS0 →
        r.1 ≠ some LWMQTT_SUCCESS →
        (lwmqtt_publish k h fuel c topicName message timeout).1 = r.1)
      ∧ (e.1 = LWMQTT_SUCCESS → s.1 = LWMQTT_SUCCESS → message.qos ≠ LWMQTT_QOS0 →
        r.1 = some LWMQTT_SUCCESS → r.2.1 = ack_type → d.1 ≠ LWMQTT_SUCCESS →
        (lwmqtt_publish k h fuel c topicName message timeout).1 = some d.1))
    ∧ (∀ options will return_code,
      let c1 := call_timer_set h c Timer.command_timer timeout
      let c2 : lwmqtt_client_t W := { c1 with keep_alive_interval := options.keep_alive }
      let c3 :=
        if c2.keep_alive_interval > 0 then
          call_timer_set h c2 Timer.keep_alive_timer (c2.keep_alive_interval * 1000)
        else c2
      let e := call_encode_connect k c3 options will
      let s := lwmqtt_send_packet h e.2.2 e.2.1
      let r := lwmqtt_cycle_until k h fuel s.2 LWMQTT_NO_PACKET LWMQTT_CONNACK_PACKET
      let d := k.lwmqtt_decode_connack r.2.2.read_buf r.2.2.read_buf_size
      (e.1 ≠ LWMQTT_SUCCESS →
        (lwmqtt_connect k h fuel c options will return_code timeout).1 = some LWMQTT_FAILURE)
      ∧ (e.1 = LWMQTT_SUCCESS → s.1 = LWMQTT_SUCCESS → r.1 ≠ some LWMQTT_SUCCESS →
        (lwmqtt_connect k h fuel c options will return_code timeout).1 = r.1)
      ∧ (e.1 = LWMQTT_SUCCESS → s.1 = LWMQTT_SUCCESS → r.1 = some LWMQTT_SUCCESS →
        r.2.1 = LWMQTT_CONNACK_PACKET → d.1 ≠ LWMQTT_SUCCESS →
        (lwmqtt_connect k h fuel c options will return_code timeout).1
          = some LWMQTT_FAILURE))
    ∧ ((call_encode_zero k (call_timer_set h c Timer.command_timer timeout)
          LWMQTT_DISCONNECT_PACKET).1 ≠ LWMQTT_SUCCESS →
        (lwmqtt_disconnect k h c timeout).1 = LWMQTT_FAILURE)
    ∧ (c.keep_alive_interval ≠ 0 →
        ¬ (h.timer_get (h.timer_set c.world Timer.command_timer timeout)
          Timer.keep_alive_timer).1 > 0 →
        c.ping_outstanding = false →
        (k.lwmqtt_encode_zero c.write_buf c.write_buf_size LWMQTT_PINGREQ_PACKET).1
          ≠ LWMQTT_SUCCESS →
        (lwmqtt_keep_alive k h c timeout).1
          = (k.lwmqtt_encode_zero c.write_buf c.write_buf_size LWMQTT_PINGREQ_PACKET).1)
    ∧ ((lwmqtt_cycle_until k h fuel (call_timer_set h c Timer.command_timer timeout)
          LWMQTT_NO_PACKET LWMQTT_NO_PACKET).1 ≠ some LWMQTT_SUCCESS →
        (lwmqtt_yield k h fuel c timeout).1
          = (lwmqtt_cycle_until k h fuel (call_timer_set h c Timer.command_timer timeout)
              LWMQTT_NO_PACKET LWMQTT_NO_PACKET).1)
    ∧ (∀ packet_type needle,
        (lwmqtt_cycle k h (fuel + 1) c packet_type).1 ≠ some LWMQTT_SUCCESS →
        lwmqtt_cycle_until k h (fuel + 1) c packet_type needle
          = lwmqtt_cycle k h (fuel + 1) c packet_type)
    ∧ (∀ packet_type,
      let p := lwmqtt_read_packet k h fuel c packet_type
      let dp := k.lwmqtt_decode_publish p.2.2.read_buf p.2.2.read_buf_size
      let da := k.lwmqtt_decode_ack p.2.2.read_buf p.2.2.read_buf_size
      p.1 = some LWMQTT_SUCCESS →
        (p.2.1 = LWMQTT_PUBLISH_PACKET → dp.1 ≠ LWMQTT_SUCCESS →
          (lwmqtt_cycle k h fuel c packet_type).1 = some dp.1)
        ∧ (∀ type, p.2.1 = LWMQTT_PUBLISH_PACKET → dp.1 = LWMQTT_SUCCESS →
          (dp.2.qos = LWMQTT_QOS1 ∧ type = LWMQTT_PUBREC_PACKET)
            ∨ (dp.2.qos = LWMQTT_QOS2 ∧ type = LWMQTT_PUBREL_PACKET) →
          (k.lwmqtt_encode_ack p.2.2.write_buf p.2.2.write_buf_size type false
            dp.2.packet_id).1 ≠ LWMQTT_SUCCESS →
          (lwmqtt_cycle k h fuel c packet_type).1
            = some (k.lwmqtt_encode_ack p.2.2.write_buf p.2.2.write_buf_size type false
                dp.2.packet_id).1)
        ∧ (∀ inbound reply,
          (inbound = LWMQTT_PUBREC_PACKET ∧ reply = LWMQTT_PUBREL_PACKET)
            ∨ (inbound = LWMQTT_PUBREL_PACKET ∧ reply = LWMQTT_PUBCOMP_PACKET) →
          p.2.1 = inbound →
          (da.1 ≠ LWMQTT_SUCCESS → (lwmqtt_cycle k h fuel c packet_type).1 = some da.1)
          ∧ (da.1 = LWMQTT_SUCCESS →
            (k.lwmqtt_encode_ack p.2.2.write_buf p.2.2.write_buf_size reply false
              da.2.2.2).1 ≠ LWMQTT_SUCCESS →
            (lwmqtt_cycle k h fuel c packet_type).1
              = some (k.lwmqtt_encode_ack p.2.2.write_buf p.2.2.write_buf_size reply false
                  da.2.2.2).1)))
    ∧ (∀ packet_type needle n c' pt',
        LoopReaches k h needle (fuel, c, packet_type) (n + 1, c', pt') →
        (lwmqtt_cycle k h (n + 1) c' pt').1 ≠ some LWMQTT_SUCCESS →
        lwmqtt_cycle_until k h fuel c packet_type needle = lwmqtt_cycle k h (n + 1) c' pt')
    ∧ (∀ n c' pt',
        LoopReaches k h LWMQTT_NO_PACKET
          (fuel, call_timer_set h c Timer.command_timer timeout, LWMQTT_NO_PACKET)
          (n + 1, c', pt') →
        (lwmqtt_cycle k h (n + 1) c' pt').1 ≠ some LWMQTT_SUCCESS →
        (lwmqtt_yield k h fuel c timeout).1 = (lwmqtt_cycle k h (n + 1) c' pt').1)
    ∧ (∀ topic_filter qos n c' pt',
      let g := lwmqtt_get_next_packet_id (call_timer_set h c Timer.command_timer timeout)
      let e := call_encode_subscribe k g.2 g.1 topic_filter qos
      let s := lwmqtt_send_packet h e.2.2 e.2.1
      e.1 = LWMQTT_SUCCESS → s.1 = LWMQTT_SUCCESS →
        LoopReaches k h LWMQTT_SUBACK_PACKET (fuel, s.2, LWMQTT_NO_PACKET) (n + 1, c', pt') →
        (lwmqtt_cycle k h (n + 1) c' pt').1 ≠ some LWMQTT_SUCCESS →
        (lwmqtt_subscribe k h fuel c topic_filter qos timeout).1
          = (lwmqtt_cycle k h (n + 1) c' pt').1)
    ∧ (∀ topic_filter n c' pt',
      let g := lwmqtt_get_next_packet_id (call_timer_set h c Timer.command_timer timeout)
      let e := call_encode_unsubscribe k g.2 g.1 topic_filter
      let s := lwmqtt_send_packet h e.2.2 e.2.1
      e.1 = LWMQTT_SUCCESS → s.1 = LWMQTT_SUCCESS →
        LoopReaches k h LWMQTT_UNSUBACK_PACKET (fuel, s.2, LWMQTT_NO_PACKET) (n + 1, c', pt') →
        (lwmqtt_cycle k h (n + 1) c' pt').1 ≠ some LWMQTT_SUCCESS →
        (lwmqtt_unsubscribe k h fuel c topic_filter timeout).1
          = (lwmqtt_cycle k h (n + 1) c' pt').1)
    ∧ (∀ topicName (message : lwmqtt_message_t) n c' pt',
      let g : Nat × lwmqtt_client_t W :=
        if message.qos = LWMQTT_QOS1 ∨ message.qos = LWMQTT_QOS2 then
          lwmqtt_get_next_packet_id (call_timer_set h c Timer.command_timer timeout)
        else (0, call_timer_set h c Timer.command_timer timeout)
      let e := call_encode_publish k g.2 false message.qos message.retained g.1 topicName
        message.payload message.payload_len
      let s := lwmqtt_send_packet h e.2.2 e.2.1
      let ack_type :=
        if message.qos = LWMQTT_QOS1 then LWMQTT_PUBACK_PACKET
        else if message.qos = LWMQTT_QOS2 then LWMQTT_PUBCOMP_PACKET
        else LWMQTT_NO_PACKET
      e.1 = LWMQTT_SUCCESS → s.1 = LWMQTT_SUCCESS → message.qos ≠ LWMQTT_QOS0 →
        LoopReaches k h ack_type (fuel, s.2, LWMQTT_NO_PACKET) (n + 1, c', pt') →
        (lwmqtt_cycle k h (n + 1) c' pt').1 ≠ some LWMQTT_SUCCESS →
        (lwmqtt_publish k h fuel c topicName message timeout).1
          = (lwmqtt_cycle k h (n + 1) c' pt').1)
    ∧ (∀ options will return_code n c' pt',
      let c1 := call_timer_set h c Timer.command_timer timeout
      let c2 : lwmqtt_client_t W := { c1 with keep_alive_interval := options.keep_alive }
      let c3 :=
        if c2.keep_alive_interval > 0 then
          call_timer_set h c2 Timer.keep_alive_timer (c2.keep_alive_interval * 1000)
        else c2
      let e := call_encode_connect k c3 options will
      let s := lwmqtt_send_packet h e.2.2 e.2.1
      e.1 = LWMQTT_SUCCESS → s.1 = LWMQTT_SUCCESS →
        LoopReaches k h LWMQTT_CONNACK_PACKET (fuel, s.2, LWMQTT_NO_PACKET) (n + 1, c', pt') →
        (lwmqtt_cycle k h (n + 1) c' pt').1 ≠ some LWMQTT_SUCCESS →
        (lwmqtt_connect k h fuel c options will return_code timeout).1
          = (lwmqtt_cycle k h (n + 1) c' pt').1) := by
  refine ⟨?_, ?_, ?_, ?_, ?_, ?_, ?_, ?_, ?_, ?_, ?_, ?_, ?_, ?_, ?_⟩
  · intro topic_filter qos g e s r
    refine ⟨fun h1 => ?_, fun h1 h2 h3 => ?_⟩
    · simp only [lwmqtt_subscribe]
      rw [if_pos h1]
    · have h1' : ¬ e.1 ≠ LWMQTT_SUCCESS := by simpa using h1
      have h2' : ¬ s.1 ≠ LWMQTT_SUCCESS := by simpa using h2
      simp only [lwmqtt_subscribe, subscribe_send_and_wait]
      rw [if_neg h1', if_neg h2', if_pos h3]
  · intro topic_filter g e s r d
    refine ⟨fun h1 => ?_, fun h1 h2 h3 => ?_, fun h1 h2 h3 h4 h5 => ?_⟩
    · simp only [lwmqtt_unsubscribe]
      rw [if_pos h1]
    · have h1' : ¬ e.1 ≠ LWMQTT_SUCCESS := by simpa using h1
      have h2' : ¬ s.1 ≠ LWMQTT_SUCCESS := by simpa using h2
      simp only [lwmqtt_unsubscribe, unsubscribe_send_and_wait]
      rw [if_neg h1', if_neg h2', if_pos h3]
    · have h1' : ¬ e.1 ≠ LWMQTT_SUCCESS := by simpa using h1
      have h2' : ¬ s.1 ≠ LWMQTT_SUCCESS := by simpa using h2
      have h3' : ¬ r.1 ≠ some LWMQTT_SUCCESS := by simpa using h3
      have h4' : ¬ r.2.1 ≠ LWMQTT_UNSUBACK_PACKET := by simpa using h4
      simp only [lwmqtt_unsubscribe, unsubscribe_send_and_wait]
      rw [if_neg h1', if_neg h2', if_neg h3', if_neg h4', if_pos h5]
  · intro topicName message g e s ack_type r d
    refine ⟨fun h1 => ?_, fun h1 h2 h0 h3 => ?_, fun h1 h2 h0 h3 h4 h5 => ?_⟩
    · simp only [lwmqtt_publish]
      rw [if_pos h1]
    · have h1' : ¬ e.1 ≠ LWMQTT_SUCCESS := by simpa using h1
      have h2' : ¬ s.1 ≠ LWMQTT_SUCCESS := by simpa using h2
      simp only [lwmqtt_publish, publish_send_and_wait]
      rw [if_neg h1', if_neg h2', if_neg h0, if_pos h3]
    · have h1' : ¬ e.1 ≠ LWMQTT_SUCCESS := by simpa using h1
      have h2' : ¬ s.1 ≠ LWMQTT_SUCCESS := by simpa using h2
      have h3' : ¬ r.1 ≠ some LWMQTT_SUCCESS := by simpa using h3
      have h4' : ¬ r.2.1 ≠ ack_type := by simpa using h4
      simp only [lwmqtt_publish, publish_send_and_wait]
      rw [if_neg h1', if_neg h2', if_neg h0, if_neg h3', if_neg h4', if_pos h5]
  · intro options will return_code c1 c2 c3 e s r d
    refine ⟨fun h1 => ?_, fun h1 h2 h3 => ?_, fun h1 h2 h3 h4 h5 => ?_⟩
    · simp only [lwmqtt_connect]
      rw [if_pos h1]
    · have h1' : ¬ e.1 ≠ LWMQTT_SUCCESS := by simpa using h1
      have h2' : ¬ s.1 ≠ LWMQTT_SUCCESS := by simpa using h2
      simp only [lwmqtt_connect, connect_send_and_wait]
      rw [if_neg h1', if_neg h2', if_pos h3]
    · have h1' : ¬ e.1 ≠ LWMQTT_SUCCESS := by simpa using h1
      have h2' : ¬ s.1 ≠ LWMQTT_SUCCESS := by simpa using h2
      have h3' : ¬ r.1 ≠ some LWMQTT_SUCCESS := by simpa using h3
      have h4' : ¬ r.2.1 ≠ LWMQTT_CONNACK_PACKET := by simpa using h4
      simp only [lwmqtt_connect, connect_send_and_wait]
      rw [if_neg h1', if_neg h2', if_neg h3', if_neg h4', if_pos h5]
  · intro h1
    simp only [lwmqtt_disconnect]
    rw [if_pos h1]
  · intro h0 hdue hp he
    simp [lwmqtt_keep_alive, call_timer_set, call_timer_get, call_encode_zero, h0, hdue, hp, he]
  · intro h1
    simp only [lwmqtt_yield]
    rw [if_pos h1]
  · intro packet_type needle h1
    rw [lwmqtt_cycle_until]
    simp only []
    rw [if_pos h1]
  · intro packet_type p dp da hres
    refine ⟨fun ht hd => ?_, fun type ht hd hq he => ?_, fun inbound reply hpair ht => ⟨fun hd => ?_, fun hd he => ?_⟩⟩
    · rw [cycle_of_publish k h fuel c packet_type hres ht]
      exact congrArg some (cycle_publish_decode_error k h _ hd)
    · rw [cycle_of_publish k h fuel c packet_type hres ht]
      exact congrArg some (cycle_publish_encode_error k h _ type hd hq he)
    · rw [cycle_of_ack k h fuel c packet_type inbound reply hpair hres ht]
      exact congrArg some (cycle_ack_decode_error k h _ reply hd)
    · rw [cycle_of_ack k h fuel c packet_type inbound reply hpair hres ht]
      exact congrArg some (cycle_ack_encode_error k h _ reply hd he)
  · intro packet_type needle n c' pt' hr hne
    exact cycle_until_cycle_error k h needle fuel c packet_type n c' pt' hr hne
  · intro n c' pt' hr hne
    have hcu := cycle_until_cycle_error k h _ fuel _ _ n c' pt' hr hne
    have h1 : (lwmqtt_cycle_until k h fuel (call_timer_set h c Timer.command_timer timeout)
        LWMQTT_NO_PACKET LWMQTT_NO_PACKET).1 ≠ some LWMQTT_SUCCESS := by
      rw [hcu]
      exact hne
    simp only [lwmqtt_yield]
    rw [if_pos h1, hcu]
  · intro topic_filter qos n c' pt' g e s h1 h2 hr hne
    have hcu := cycle_until_cycle_error k h _ fuel _ _ n c' pt' hr hne
    have h3 : (lwmqtt_cycle_until k h fuel s.2 LWMQTT_NO_PACKET LWMQTT_SUBACK_PACKET).1
        ≠ some LWMQTT_SUCCESS := by
      rw [hcu]
      exact hne
    have h1' : ¬ e.1 ≠ LWMQTT_SUCCESS := by simpa using h1
    have h2' : ¬ s.1 ≠ LWMQTT_SUCCESS := by simpa using h2
    simp only [lwmqtt_subscribe, subscribe_send_and_wait]
    rw [if_neg h1', if_neg h2', if_pos h3]
    exact congrArg Prod.fst hcu
  · intro topic_filter n c' pt' g e s h1 h2 hr hne
    have hcu := cycle_until_cycle_error k h _ fuel _ _ n c' pt' hr hne
    have h3 : (lwmqtt_cycle_until k h fuel s.2 LWMQTT_NO_PACKET LWMQTT_UNSUBACK_PACKET).1
        ≠ some LWMQTT_SUCCESS := by
      rw [hcu]
      exact hne
    have h1' : ¬ e.1 ≠ LWMQTT_SUCCESS := by simpa using h1
    have h2' : ¬ s.1 ≠ LWMQTT_SUCCESS := by simpa using h2
    simp only [lwmqtt_unsubscribe, unsubscribe_send_and_wait]
    rw [if_neg h1', if_neg h2', if_pos h3]
    exact congrArg Prod.fst hcu
  · intro topicName message n c' pt' g e s ack_type h1 h2 h0 hr hne
    have hcu := cycle_until_cycle_error k h _ fuel _ _ n c' pt' hr hne
    have h3 : (lwmqtt_cycle_until k h fuel s.2 LWMQTT_NO_PACKET ack_type).1
        ≠ some LWMQTT_SUCCESS := by
      rw [hcu]
      exact hne
    have h1' : ¬ e.1 ≠ LWMQTT_SUCCESS := by simpa using h1
    have h2' : ¬ s.1 ≠ LWMQTT_SUCCESS := by simpa using h2
    simp only [lwmqtt_publish, publish_send_and_wait]
    rw [if_neg h1', if_neg h2', if_neg h0, if_pos h3]
    exact congrArg Prod.fst hcu
  · intro options will return_code n c' pt' c1 c2 c3 e s h1 h2 hr hne
    have hcu := cycle_until_cycle_error k h _ fuel _ _ n c' pt' hr hne
    have h3 : (lwmqtt_cycle_until k h fuel s.2 LWMQTT_NO_PACKET LWMQTT_CONNACK_PACKET).1
        ≠ some LWMQTT_SUCCESS := by
      rw [hcu]
      exact hne
    have h1' : ¬ e.1 ≠ LWMQTT_SUCCESS := by simpa using h1
    have h2' : ¬ s.1 ≠ LWMQTT_SUCCESS := by simpa using h2
    simp only [lwmqtt_connect, connect_send_and_wait]
    rw [if_neg h1', if_neg h2', if_pos h3]
    exact congrArg Prod.fst hcu

/-- The state in which the second pass of the loop of the example starts. -/
theorem second_pass_reached :
    LoopReaches failingDecodeCodec exampleHooks LWMQTT_NO_PACKET
      (10, call_timer_set exampleHooks (freshClient [0xD0, 0, 0x30, 3, 0, 1, 0x74])
        Timer.command_timer 100, LWMQTT_NO_PACKET)
      (9, (call_timer_get exampleHooks
            (lwmqtt_cycle failingDecodeCodec exampleHooks 10
              (call_timer_set exampleHooks (freshClient [0xD0, 0, 0x30, 3, 0, 1, 0x74])
                Timer.command_timer 100) LWMQTT_NO_PACKET).2.2 Timer.command_timer).2,
        LWMQTT_PINGRESP_PACKET) :=
  LoopReaches.again 9 _ _ LoopReaches.start (by decide) (by decide) (by decide)

/-- C14 as amended, on the examples: with a two-byte write buffer the
UNSUBSCRIBE encoder fails with `LWMQTT_BUFFER_TOO_SHORT` and
`lwmqtt_unsubscribe` returns that error; `lwmqtt_connect` returns
`LWMQTT_FAILURE` for the same encoder error; and a `lwmqtt_yield` that reads a
PINGRESP in the first pass of its loop and in the second a PUBLISH which
`lwmqtt_decode_publish` rejects with `other (-5)` returns `other (-5)`. -/
theorem codec_errors_by_step_witness :
    ((call_encode_unsubscribe exampleCodec
          (lwmqtt_get_next_packet_id
            (call_timer_set exampleHooks (smallBufferClient []) Timer.command_timer 100)).2
          (lwmqtt_get_next_packet_id
            (call_timer_set exampleHooks (smallBufferClient []) Timer.command_timer 100)).1
          [0x61]).1 ≠ LWMQTT_SUCCESS
      ∧ (lwmqtt_unsubscribe exampleCodec exampleHooks 10 (smallBufferClient []) [0x61] 100).1
          = some LWMQTT_BUFFER_TOO_SHORT)
    ∧ (lwmqtt_connect exampleCodec exampleHooks 10 (smallBufferClient []) exampleOptions none
        0 100).1 = some LWMQTT_FAILURE
    ∧ (lwmqtt_cycle failingDecodeCodec exampleHooks 10
        (call_timer_set exampleHooks (freshClient [0xD0, 0, 0x30, 3, 0, 1, 0x74])
          Timer.command_timer 100) LWMQTT_NO_PACKET).1 = some LWMQTT_SUCCESS
    ∧ (lwmqtt_cycle failingDecodeCodec exampleHooks 9
        (call_timer_get exampleHooks
          (lwmqtt_cycle failingDecodeCodec exampleHooks 10
            (call_timer_set exampleHooks (freshClient [0xD0, 0, 0x30, 3, 0, 1, 0x74])
              Timer.command_timer 100) LWMQTT_NO_PACKET).2.2 Timer.command_timer).2
        LWMQTT_PINGRESP_PACKET).1 = some (other (-5))
    ∧ (lwmqtt_yield failingDecodeCodec exampleHooks 10
        (freshClient [0xD0, 0, 0x30, 3, 0, 1, 0x74]) 100).1 = some (other (-5)) :=
  ⟨⟨by decide,
      ((codec_errors_by_step exampleCodec exampleHooks 10 (smallBufferClient []) 100).2.1
        [0x61]).1 (by decide)⟩,
    ((codec_errors_by_step exampleCodec exampleHooks 10 (smallBufferClient []) 100).2.2.2.1
      exampleOptions none 0).1 (by decide),
    by decide, by decide,
    ((codec_errors_by_step failingDecodeCodec exampleHooks 10
        (freshClient [0xD0, 0, 0x30, 3, 0, 1, 0x74]) 100).2.2.2.2.2.2.2.2.2.2.1
      8 _ _ second_pass_reached (by decide)).trans (by decide)⟩

/-! ## C15: a missing acknowledgement -/

/-- C15: for `lwmqtt_connect`, `lwmqtt_subscribe`, `lwmqtt_unsubscribe` and
`lwmqtt_publish` at QoS 1 or 2: when the request was encoded and sent and
`lwmqtt_cycle_until` returns `LWMQTT_SUCCESS` with a last observed packet type
other than the awaited one (CONNACK, SUBACK, UNSUBACK, PUBACK for QoS 1,
PUBCOMP for QoS 2), the command returns `LWMQTT_FAILURE`. -/
theorem missing_ack_is_failure (k : Codec) (h : Hooks W) (fuel : Nat) (c : lwmqtt_client_t W)
    (timeout : Nat) :
    (∀ options will return_code,
      let c1 := call_timer_set h c Timer.command_timer timeout
      let c2 : lwmqtt_client_t W := { c1 with keep_alive_interval := options.keep_alive }
      let c3 :=
        if c2.keep_alive_interval > 0 then
          call_timer_set h c2 Timer.keep_alive_timer (c2.keep_alive_interval * 1000)
        else c2
      let e := call_encode_connect k c3 options will
      let s := lwmqtt_send_packet h e.2.2 e.2.1
      let r := lwmqtt_cycle_until k h fuel s.2 LWMQTT_NO_PACKET LWMQTT_CONNACK_PACKET
      e.1 = LWMQTT_SUCCESS → s.1 = LWMQTT_SUCCESS → r.1 = some LWMQTT_SUCCESS →
        r.2.1 ≠ LWMQTT_CONNACK_PACKET →
        (lwmqtt_connect k h fuel c options will return_code timeout).1 = some LWMQTT_FAILURE)
    ∧ (∀ topic_filter qos,
      let g := lwmqtt_get_next_packet_id (call_timer_set h c Timer.command_timer timeout)
      let e := call_encode_subscribe k g.2 g.1 topic_filter qos
      let s := lwmqtt_send_packet h e.2.2 e.2.1
      let r := lwmqtt_cycle_until k h fuel s.2 LWMQTT_NO_PACKET LWMQTT_SUBACK_PACKET
      e.1 = LWMQTT_SUCCESS → s.1 = LWMQTT_SUCCESS → r.1 = some LWMQTT_SUCCESS →
        r.2.1 ≠ LWMQTT_SUBACK_PACKET →
        (lwmqtt_subscribe k h fuel c topic_filter qos timeout).1 = some LWMQTT_FAILURE)
    ∧ (∀ topic_filter,
      let g := lwmqtt_get_next_packet_id (call_timer_set h c Timer.command_timer timeout)
      let e := call_encode_unsubscribe k g.2 g.1 topic_filter
      let s := lwmqtt_send_packet h e.2.2 e.2.1
      let r := lwmqtt_cycle_until k h fuel s.2 LWMQTT_NO_PACKET LWMQTT_UNSUBACK_PACKET
      e.1 = LWMQTT_SUCCESS → s.1 = LWMQTT_SUCCESS → r.1 = some LWMQTT_SUCCESS →
        r.2.1 ≠ LWMQTT_UNSUBACK_PACKET →
        (lwmqtt_unsubscribe k h fuel c topic_filter timeout).1 = some LWMQTT_FAILURE)
    ∧ (∀ topicName (message : lwmqtt_message_t) ack_type,
      let g := lwmqtt_get_next_packet_id (call_timer_set h c Timer.command_timer timeout)
      let e := call_encode_publish k g.2 false message.qos message.retained g.1 topicName
        message.payload message.payload_len
      let s := lwmqtt_send_packet h e.2.2 e.2.1
      let r := lwmqtt_cycle_until k h fuel s.2 LWMQTT_NO_PACKET ack_type
      (message.qos = LWMQTT_QOS1 ∧ ack_type = LWMQTT_PUBACK_PACKET)
          ∨ (message.qos = LWMQTT_QOS2 ∧ ack_type = LWMQTT_PUBCOMP_PACKET) →
        e.1 = LWMQTT_SUCCESS → s.1 = LWMQTT_SUCCESS → r.1 = some LWMQTT_SUCCESS →
        r.2.1 ≠ ack_type →
        (lwmqtt_publish k h fuel c topicName message timeout).1 = some LWMQTT_FAILURE) := by
  refine ⟨?_, ?_, ?_, ?_⟩
  · intro options will return_code c1 c2 c3 e s r h1 h2 h3 h4
    have h1' : ¬ e.1 ≠ LWMQTT_SUCCESS := by simpa using h1
    have h2' : ¬ s.1 ≠ LWMQTT_SUCCESS := by simpa using h2
    have h3' : ¬ r.1 ≠ some LWMQTT_SUCCESS := by simpa using h3
    simp only [lwmqtt_connect, connect_send_and_wait]
    rw [if_neg h1', if_neg h2', if_neg h3', if_pos h4]
  · intro topic_filter qos g e s r h1 h2 h3 h4
    have h1' : ¬ e.1 ≠ LWMQTT_SUCCESS := by simpa using h1
    have h2' : ¬ s.1 ≠ LWMQTT_SUCCESS := by simpa using h2
    have h3' : ¬ r.1 ≠ some LWMQTT_SUCCESS := by simpa using h3
    simp only [lwmqtt_subscribe, subscribe_send_and_wait]
    rw [if_neg h1', if_neg h2', if_neg h3', if_pos h4]
  · intro topic_filter g e s r h1 h2 h3 h4
    have h1' : ¬ e.1 ≠ LWMQTT_SUCCESS := by simpa using h1
    have h2' : ¬ s.1 ≠ LWMQTT_SUCCESS := by simpa using h2
    have h3' : ¬ r.1 ≠ some LWMQTT_SUCCESS := by simpa using h3
    simp only [lwmqtt_unsubscribe, unsubscribe_send_and_wait]
    rw [if_neg h1', if_neg h2', if_neg h3', if_pos h4]
  · intro topicName message ack_type g e s r hq h1 h2 h3 h4
    have h1' : ¬ e.1 ≠ LWMQTT_SUCCESS := by simpa using h1
    have h2' : ¬ s.1 ≠ LWMQTT_SUCCESS := by simpa using h2
    have h3' : ¬ r.1 ≠ some LWMQTT_SUCCESS := by simpa using h3
    have hor : message.qos = LWMQTT_QOS1 ∨ message.qos = LWMQTT_QOS2 := by
      rcases hq with ⟨hq, _⟩ | ⟨hq, _⟩
      · exact Or.inl hq
      · exact Or.inr hq
    have h0 : ¬ message.qos = LWMQTT_QOS0 := by
      rcases hor with hq | hq <;> rw [hq] <;> decide
    have hack : (if message.qos = LWMQTT_QOS1 then LWMQTT_PUBACK_PACKET
        else if message.qos = LWMQTT_QOS2 then LWMQTT_PUBCOMP_PACKET
        else LWMQTT_NO_PACKET) = ack_type := by
      rcases hq with ⟨hq, ha⟩ | ⟨hq, ha⟩
      · rw [if_pos hq, ha]
      · rw [if_neg (by rw [hq]; decide), if_pos hq, ha]
    simp only [lwmqtt_publish, publish_send_and_wait, if_pos hor, hack]
    rw [if_neg h1', if_neg h2', if_neg h0, if_neg h3', if_pos h4]

/-- C15 on the examples: a QoS-1 publish to a broker that never answers; the
command timer runs down and the command returns `LWMQTT_FAILURE`. -/
theorem missing_ack_is_failure_witness :
    (lwmqtt_cycle_until exampleCodec exampleHooks 10
        (lwmqtt_send_packet exampleHooks
          (call_encode_publish exampleCodec
            (lwmqtt_get_next_packet_id
              (call_timer_set exampleHooks (freshClient []) Timer.command_timer 100)).2
            false LWMQTT_QOS1 false 2 [0x61] [0x78] 1).2.2 8).2
        LWMQTT_NO_PACKET LWMQTT_PUBACK_PACKET).1 = some LWMQTT_SUCCESS
    ∧ (lwmqtt_cycle_until exampleCodec exampleHooks 10
        (lwmqtt_send_packet exampleHooks
          (call_encode_publish exampleCodec
            (lwmqtt_get_next_packet_id
              (call_timer_set exampleHooks (freshClient []) Timer.command_timer 100)).2
            false LWMQTT_QOS1 false 2 [0x61] [0x78] 1).2.2 8).2
        LWMQTT_NO_PACKET LWMQTT_PUBACK_PACKET).2.1 ≠ LWMQTT_PUBACK_PACKET
    ∧ (lwmqtt_publish exampleCodec exampleHooks 10 (freshClient []) [0x61]
        { qos := LWMQTT_QOS1, retained := false, payload := [0x78], payload_len := 1 } 100).1
      = some LWMQTT_FAILURE :=
  ⟨rfl, by decide,
    (missing_ack_is_failure exampleCodec exampleHooks 10 (freshClient []) 100).2.2.2 [0x61]
      { qos := LWMQTT_QOS1, retained := false, payload := [0x78], payload_len := 1 }
      LWMQTT_PUBACK_PACKET (Or.inl ⟨rfl, rfl⟩) rfl rfl rfl (by decide)⟩

/-! ## C17, C18, C19: connect, failing encoders, QoS-0 publish -/

/-- The events of `lwmqtt_send_packet`, in full. -/
theorem send_packet_trace (h : Hooks W) (c : lwmqtt_client_t W) (len : Int) :
    (lwmqtt_send_packet h c len).2.trace
      = c.trace ++ Event.timer_get Timer.command_timer ::
          Event.network_write (c.write_buf.take len.toNat) len ::
          (if (lwmqtt_send_packet h c len).1 = LWMQTT_SUCCESS then
            [Event.timer_set Timer.keep_alive_timer (c.keep_alive_interval * 1000)]
          else []) := by
  unfold lwmqtt_send_packet
  simp only []
  by_cases h1 : (h.network_write (call_timer_get h c Timer.command_timer).2.world
      (call_timer_get h c Timer.command_timer).2.write_buf len
      (call_timer_get h c Timer.command_timer).1).1 ≠ LWMQTT_SUCCESS
  · rw [if_pos h1, if_neg h1]
    simp [call_timer_get]
  · rw [if_neg h1]
    by_cases h2 : (h.network_write (call_timer_get h c Timer.command_timer).2.world
        (call_timer_get h c Timer.command_timer).2.write_buf len
        (call_timer_get h c Timer.command_timer).1).2.1 ≠ len
    · rw [if_pos h2]
      simp [call_timer_get]
    · rw [if_neg h2, if_pos rfl]
      simp [call_timer_get, call_timer_set]

theorem send_packet_no_reads (h : Hooks W) (c : lwmqtt_client_t W) (len : Int) :
    network_reads (lwmqtt_send_packet h c len).2.trace = network_reads c.trace := by
  rw [send_packet_trace, network_reads_append]
  split_ifs <;> simp [network_reads]

/-- C17: `lwmqtt_connect` stores `options.keep_alive` as the keep-alive
interval and, before the CONNECT is encoded, sets the keep-alive timer to
`keep_alive * 1000` exactly when `keep_alive > 0`; when the CONNECT was
encoded and sent, a CONNACK was received and `lwmqtt_decode_connack` succeeds
with return code `r`, the call leaves `r` in `*return_code` and returns
`LWMQTT_SUCCESS` when `r` is `LWMQTT_CONNACK_CONNECTION_ACCEPTED` and
`LWMQTT_FAILURE` otherwise. -/
theorem connect_spec (k : Codec) (h : Hooks W) (fuel : Nat) (c : lwmqtt_client_t W)
    (options : lwmqtt_options_t) (will : Option lwmqtt_will_t)
    (return_code : lwmqtt_return_code_t) (timeout : Nat) :
    let c1 := call_timer_set h c Timer.command_timer timeout
    let c2 : lwmqtt_client_t W := { c1 with keep_alive_interval := options.keep_alive }
    let c3 :=
      if c2.keep_alive_interval > 0 then
        call_timer_set h c2 Timer.keep_alive_timer (c2.keep_alive_interval * 1000)
      else c2
    let e := call_encode_connect k c3 options will
    let s := lwmqtt_send_packet h e.2.2 e.2.1
    let r := lwmqtt_cycle_until k h fuel s.2 LWMQTT_NO_PACKET LWMQTT_CONNACK_PACKET
    let d := k.lwmqtt_decode_connack r.2.2.read_buf r.2.2.read_buf_size
    let res := lwmqtt_connect k h fuel c options will return_code timeout
    res.2.2.keep_alive_interval = options.keep_alive
    ∧ (∃ rest, res.2.2.trace
          = c.trace ++ Event.timer_set Timer.command_timer timeout ::
              ((if options.keep_alive > 0 then
                  [Event.timer_set Timer.keep_alive_timer (options.keep_alive * 1000)]
                else []) ++ Event.encode_connect :: rest)
        ∧ ∀ x ∈ rest, Event.is_engine x = true)
    ∧ (e.1 = LWMQTT_SUCCESS → s.1 = LWMQTT_SUCCESS → r.1 = some LWMQTT_SUCCESS →
        r.2.1 = LWMQTT_CONNACK_PACKET → d.1 = LWMQTT_SUCCESS →
        res.2.1 = d.2.2
        ∧ res.1 = (if d.2.2 = LWMQTT_CONNACK_CONNECTION_ACCEPTED then some LWMQTT_SUCCESS
            else some LWMQTT_FAILURE)) := by
  intro c1 c2 c3 e s r d res
  have hext : Extends e.2.2 res.2.2 := by
    by_cases he : e.1 ≠ LWMQTT_SUCCESS
    · have hr : res = (some LWMQTT_FAILURE, return_code, e.2.2) := if_pos he
      rw [hr]
      exact Extends.refl _
    · have hr : res = connect_send_and_wait k h fuel e.2.2 e.2.1 return_code := if_neg he
      rw [hr]
      exact connect_send_and_wait_extends k h fuel _ _ _
  have hk : e.2.2.keep_alive_interval = options.keep_alive := by
    show (call_encode_connect k c3 options will).2.2.keep_alive_interval = _
    simp only [call_encode_connect, c3, c2, c1]
    split_ifs <;> rfl
  have ht : e.2.2.trace = c.trace ++ Event.timer_set Timer.command_timer timeout ::
      ((if options.keep_alive > 0 then
          [Event.timer_set Timer.keep_alive_timer (options.keep_alive * 1000)]
        else []) ++ [Event.encode_connect]) := by
    show (call_encode_connect k c3 options will).2.2.trace = _
    simp only [call_encode_connect, c3, c2, c1]
    split_ifs <;> simp [call_timer_set]
  refine ⟨?_, ?_, ?_⟩
  · rw [hext.keep_alive_interval, hk]
  · obtain ⟨evs, hevs, hp⟩ := hext.trace
    refine ⟨evs, ?_, hp⟩
    rw [hevs, ht]
    simp
  · intro h1 h2 h3 h4 h5
    have h1' : ¬ e.1 ≠ LWMQTT_SUCCESS := by simpa using h1
    have h2' : ¬ s.1 ≠ LWMQTT_SUCCESS := by simpa using h2
    have h3' : ¬ r.1 ≠ some LWMQTT_SUCCESS := by simpa using h3
    have h4' : ¬ r.2.1 ≠ LWMQTT_CONNACK_PACKET := by simpa using h4
    have h5' : ¬ d.1 ≠ LWMQTT_SUCCESS := by simpa using h5
    show (lwmqtt_connect k h fuel c options will return_code timeout).2.1 = _
      ∧ (lwmqtt_connect k h fuel c options will return_code timeout).1 = _
    simp only [lwmqtt_connect, connect_send_and_wait]
    rw [if_neg h1', if_neg h2', if_neg h3', if_neg h4', if_neg h5']
    by_cases ha : d.2.2 = LWMQTT_CONNACK_CONNECTION_ACCEPTED
    · rw [if_neg (by simpa using ha), if_pos ha]
      exact ⟨rfl, rfl⟩
    · rw [if_pos ha, if_neg ha]
      exact ⟨rfl, rfl⟩

/-- C17 on the examples: the broker answers the CONNECT with the CONNACK
`20 02 00 05` (not authorized); the keep-alive interval is the 60 s of the
options, `*return_code` is 5 and the call returns `LWMQTT_FAILURE`. -/
theorem connect_spec_witness :
    (lwmqtt_connect exampleCodec exampleHooks 10 (freshClient [0x20, 2, 0, 5]) exampleOptions none
        0 100).2.2.keep_alive_interval = 60
    ∧ (lwmqtt_connect exampleCodec exampleHooks 10 (freshClient [0x20, 2, 0, 5]) exampleOptions
        none 0 100).2.1 = 5
    ∧ (lwmqtt_connect exampleCodec exampleHooks 10 (freshClient [0x20, 2, 0, 5]) exampleOptions
        none 0 100).1 = some LWMQTT_FAILURE :=
  ⟨(connect_spec exampleCodec exampleHooks 10 (freshClient [0x20, 2, 0, 5]) exampleOptions none
      0 100).1,
   (connect_spec exampleCodec exampleHooks 10 (freshClient [0x20, 2, 0, 5]) exampleOptions none
      0 100).2.2 rfl rfl rfl rfl rfl⟩

/-- C18: when the request encoder of a command fails on the write buffer the
command was given, the command returns an error and its trace holds no
`network_write` call beyond those it held before: `lwmqtt_connect` and
`lwmqtt_disconnect` return `LWMQTT_FAILURE`, `lwmqtt_subscribe`,
`lwmqtt_unsubscribe` and `lwmqtt_publish` return the encoder's error for every
fuel, and `lwmqtt_keep_alive` returns the encoder's error whenever it gets as
far as encoding the PINGREQ. -/
theorem encode_failure_precedes_write (k : Codec) (h : Hooks W) (fuel : Nat)
    (c : lwmqtt_client_t W) (timeout : Nat) :
    (∀ options will return_code,
      (k.lwmqtt_encode_connect c.write_buf c.write_buf_size options will).1 ≠ LWMQTT_SUCCESS →
      (lwmqtt_connect k h fuel c options will return_code timeout).1 = some LWMQTT_FAILURE
      ∧ network_writes (lwmqtt_connect k h fuel c options will return_code timeout).2.2.trace
          = network_writes c.trace)
    ∧ (∀ topic_filter qos,
      let e := k.lwmqtt_encode_subscribe c.write_buf c.write_buf_size
        (lwmqtt_get_next_packet_id c).1 topic_filter qos
      e.1 ≠ LWMQTT_SUCCESS →
      (lwmqtt_subscribe k h fuel c topic_filter qos timeout).1 = some e.1
      ∧ network_writes (lwmqtt_subscribe k h fuel c topic_filter qos timeout).2.trace
          = network_writes c.trace)
    ∧ (∀ topic_filter,
      let e := k.lwmqtt_encode_unsubscribe c.write_buf c.write_buf_size
        (lwmqtt_get_next_packet_id c).1 topic_filter
      e.1 ≠ LWMQTT_SUCCESS →
      (lwmqtt_unsubscribe k h fuel c topic_filter timeout).1 = some e.1
      ∧ network_writes (lwmqtt_unsubscribe k h fuel c topic_filter timeout).2.trace
          = network_writes c.trace)
    ∧ (∀ topicName (message : lwmqtt_message_t),
      let packet_id :=
        if message.qos = LWMQTT_QOS1 ∨ message.qos = LWMQTT_QOS2 then
          (lwmqtt_get_next_packet_id c).1
        else 0
      let e := k.lwmqtt_encode_publish c.write_buf c.write_buf_size false message.qos
        message.retained packet_id topicName message.payload message.payload_len
      e.1 ≠ LWMQTT_SUCCESS →
      (lwmqtt_publish k h fuel c topicName message timeout).1 = some e.1
      ∧ network_writes (lwmqtt_publish k h fuel c topicName message timeout).2.trace
          = network_writes c.trace)
    ∧ ((k.lwmqtt_encode_zero c.write_buf c.write_buf_size LWMQTT_DISCONNECT_PACKET).1
          ≠ LWMQTT_SUCCESS →
      (lwmqtt_disconnect k h c timeout).1 = LWMQTT_FAILURE
      ∧ network_writes (lwmqtt_disconnect k h c timeout).2.trace = network_writes c.trace)
    ∧ ((k.lwmqtt_encode_zero c.write_buf c.write_buf_size LWMQTT_PINGREQ_PACKET).1
          ≠ LWMQTT_SUCCESS →
      network_writes (lwmqtt_keep_alive k h c timeout).2.trace = network_writes c.trace
      ∧ (Event.encode_zero LWMQTT_PINGREQ_PACKET ∈ (lwmqtt_keep_alive k h c timeout).2.trace.drop
            c.trace.length →
          (lwmqtt_keep_alive k h c timeout).1
            = (k.lwmqtt_encode_zero c.write_buf c.write_buf_size LWMQTT_PINGREQ_PACKET).1)) := by
  refine ⟨?_, ?_, ?_, ?_, ?_, ?_⟩
  · intro options will return_code he
    by_cases hk : options.keep_alive > 0
    · simp only [lwmqtt_connect, call_encode_connect, call_timer_set, if_pos hk]
      rw [if_pos he]
      simp [network_writes_append, network_writes]
    · simp only [lwmqtt_connect, call_encode_connect, call_timer_set, if_neg hk]
      rw [if_pos he]
      simp [network_writes_append, network_writes]
  · intro topic_filter qos e he
    simp only [lwmqtt_subscribe, call_encode_subscribe, call_timer_set,
      lwmqtt_get_next_packet_id]
    have he' := he
    simp only [e, lwmqtt_get_next_packet_id] at he'
    rw [if_pos he']
    simp [network_writes_append, network_writes, e, lwmqtt_get_next_packet_id]
  · intro topic_filter e he
    simp only [lwmqtt_unsubscribe, call_encode_unsubscribe, call_timer_set,
      lwmqtt_get_next_packet_id]
    have he' := he
    simp only [e, lwmqtt_get_next_packet_id] at he'
    rw [if_pos he']
    simp [network_writes_append, network_writes, e, lwmqtt_get_next_packet_id]
  · intro topicName message packet_id e he
    by_cases hq : message.qos = LWMQTT_QOS1 ∨ message.qos = LWMQTT_QOS2
    · have hp : packet_id = (lwmqtt_get_next_packet_id c).1 := if_pos hq
      simp only [lwmqtt_publish, call_encode_publish, call_timer_set,
        lwmqtt_get_next_packet_id, if_pos hq]
      simp only [e, hp, lwmqtt_get_next_packet_id] at he
      rw [if_pos he]
      simp [network_writes_append, network_writes, e, hp, lwmqtt_get_next_packet_id]
    · have hp : packet_id = 0 := if_neg hq
      simp only [lwmqtt_publish, call_encode_publish, call_timer_set, if_neg hq]
      simp only [e, hp] at he
      rw [if_pos he]
      simp [network_writes_append, network_writes, e, hp]
  · intro he
    simp only [lwmqtt_disconnect, call_encode_zero, call_timer_set]
    rw [if_pos he]
    simp [network_writes_append, network_writes]
  · intro he
    simp only [lwmqtt_keep_alive, call_encode_zero, call_timer_set, call_timer_get]
    split_ifs with h1 h2 h3 <;>
      simp [network_writes_append, network_writes]

theorem send_packet_no_publish_ids (h : Hooks W) (c : lwmqtt_client_t W) (len : Int) :
    publish_packet_ids (lwmqtt_send_packet h c len).2.trace = publish_packet_ids c.trace := by
  rw [send_packet_trace, publish_packet_ids_append]
  split_ifs <;> simp [publish_packet_ids]

theorem send_packet_next_packet_id (h : Hooks W) (c : lwmqtt_client_t W) (len : Int) :
    (lwmqtt_send_packet h c len).2.next_packet_id = c.next_packet_id :=
  (send_packet_extends h c len).next_packet_id

/-- C19: a publish with QoS 0 hands packet id 0 to `lwmqtt_encode_publish`
(its only call of that encoder), leaves `next_packet_id` as it was, calls
neither `network_peek` nor `network_read`, and returns for every fuel: the
error of the encoder or of `lwmqtt_send_packet` when one of them fails, and
`LWMQTT_SUCCESS` when both succeed. -/
theorem publish_qos0 (k : Codec) (h : Hooks W) (fuel : Nat) (c : lwmqtt_client_t W)
    (topicName : lwmqtt_string_t) (message : lwmqtt_message_t) (timeout : Nat)
    (hq : message.qos = LWMQTT_QOS0) :
    let res := lwmqtt_publish k h fuel c topicName message timeout
    let e := call_encode_publish k (call_timer_set h c Timer.command_timer timeout) false
      message.qos message.retained 0 topicName message.payload message.payload_len
    let s := lwmqtt_send_packet h e.2.2 e.2.1
    publish_packet_ids res.2.trace = publish_packet_ids c.trace ++ [0]
    ∧ res.2.next_packet_id = c.next_packet_id
    ∧ network_reads res.2.trace = network_reads c.trace
    ∧ res.1 = some (if e.1 ≠ LWMQTT_SUCCESS then e.1 else s.1)
    ∧ (e.1 = LWMQTT_SUCCESS → s.1 = LWMQTT_SUCCESS → res.1 = some LWMQTT_SUCCESS) := by
  intro res e s
  have hg : ¬ (message.qos = LWMQTT_QOS1 ∨ message.qos = LWMQTT_QOS2) := by
    rw [hq]; decide
  have hres : res = if e.1 ≠ LWMQTT_SUCCESS then (some e.1, e.2.2)
      else if s.1 ≠ LWMQTT_SUCCESS then (some s.1, s.2) else (some LWMQTT_SUCCESS, s.2) := by
    show lwmqtt_publish k h fuel c topicName message timeout = _
    simp only [lwmqtt_publish, publish_send_and_wait, if_neg hg, if_pos hq]
  have he2 : publish_packet_ids e.2.2.trace = publish_packet_ids c.trace ++ [0]
      ∧ e.2.2.next_packet_id = c.next_packet_id
      ∧ network_reads e.2.2.trace = network_reads c.trace := by
    simp [e, call_encode_publish, call_timer_set, publish_packet_ids_append,
      network_reads_append, publish_packet_ids, network_reads]
  have hs2 : publish_packet_ids s.2.trace = publish_packet_ids c.trace ++ [0]
      ∧ s.2.next_packet_id = c.next_packet_id
      ∧ network_reads s.2.trace = network_reads c.trace :=
    ⟨(send_packet_no_publish_ids h _ _).trans he2.1,
      (send_packet_next_packet_id h _ _).trans he2.2.1,
      (send_packet_no_reads h _ _).trans he2.2.2⟩
  rw [hres]
  by_cases h1 : e.1 ≠ LWMQTT_SUCCESS
  · rw [if_pos h1, if_pos h1]
    exact ⟨he2.1, he2.2.1, he2.2.2, rfl, fun h2 => absurd h2 h1⟩
  · rw [if_neg h1, if_neg h1]
    by_cases h2 : s.1 ≠ LWMQTT_SUCCESS
    · rw [if_pos h2]
      exact ⟨hs2.1, hs2.2.1, hs2.2.2, rfl, fun _ h3 => absurd h3 h2⟩
    · rw [if_neg h2]
      exact ⟨hs2.1, hs2.2.1, hs2.2.2, by simp [not_not.mp h2], fun _ _ => rfl⟩


/-- C19 on the examples: a QoS-0 publish of `"x"` to topic `"a"` on a fresh
client. -/
theorem publish_qos0_witness :
    publish_packet_ids (lwmqtt_publish exampleCodec exampleHooks 10 (freshClient []) [0x61]
        { qos := LWMQTT_QOS0, retained := false, payload := [0x78], payload_len := 1 }
        100).2.trace = [0]
    ∧ (lwmqtt_publish exampleCodec exampleHooks 10 (freshClient []) [0x61]
        { qos := LWMQTT_QOS0, retained := false, payload := [0x78], payload_len := 1 }
        100).2.next_packet_id = 1
    ∧ network_reads (lwmqtt_publish exampleCodec exampleHooks 10 (freshClient []) [0x61]
        { qos := LWMQTT_QOS0, retained := false, payload := [0x78], payload_len := 1 }
        100).2.trace = []
    ∧ (lwmqtt_publish exampleCodec exampleHooks 10 (freshClient []) [0x61]
        { qos := LWMQTT_QOS0, retained := false, payload := [0x78], payload_len := 1 }
        100).1 = some LWMQTT_SUCCESS :=
  ⟨(publish_qos0 exampleCodec exampleHooks 10 (freshClient []) [0x61]
      { qos := LWMQTT_QOS0, retained := false, payload := [0x78], payload_len := 1 } 100 rfl).1,
    (publish_qos0 exampleCodec exampleHooks 10 (freshClient []) [0x61]
      { qos := LWMQTT_QOS0, retained := false, payload := [0x78], payload_len := 1 } 100
      rfl).2.1,
    (publish_qos0 exampleCodec exampleHooks 10 (freshClient []) [0x61]
      { qos := LWMQTT_QOS0, retained := false, payload := [0x78], payload_len := 1 } 100
      rfl).2.2.1,
    (publish_qos0 exampleCodec exampleHooks 10 (freshClient []) [0x61]
      { qos := LWMQTT_QOS0, retained := false, payload := [0x78], payload_len := 1 } 100
      rfl).2.2.2.2 rfl rfl⟩

/-- C18 on the examples: a CONNECT does not fit a write buffer of two
bytes. -/
theorem encode_failure_precedes_write_witness :
    (exampleCodec.lwmqtt_encode_connect (smallBufferClient []).write_buf
        (smallBufferClient []).write_buf_size exampleOptions none).1 ≠ LWMQTT_SUCCESS
    ∧ (lwmqtt_connect exampleCodec exampleHooks 10 (smallBufferClient []) exampleOptions none 0
        100).1 = some LWMQTT_FAILURE
    ∧ network_writes (lwmqtt_connect exampleCodec exampleHooks 10 (smallBufferClient [])
        exampleOptions none 0 100).2.2.trace = [] :=
  ⟨by decide,
    (encode_failure_precedes_write exampleCodec exampleHooks 10 (smallBufferClient []) 100).1
      exampleOptions none 0 (by decide)⟩

/-! ## C16: transport errors -/

theorem forces_ne_success (r : HookReturn) : r.forces ≠ some LWMQTT_SUCCESS := by
  unfold HookReturn.forces
  split_ifs with h1
  · intro h2
    exact h1 (Option.some.inj h2)
  · split
    · split_ifs
      · simp
      · simp
    · split_ifs
      · simp
      · simp
    · simp

theorem forces_of_error (r : HookReturn) (h1 : r.err ≠ LWMQTT_SUCCESS) :
    r.forces = some r.err := by
  unfold HookReturn.forces
  rw [if_pos h1]

theorem Verbatim.of_quiet (res : Option lwmqtt_err_t) (l : List HookReturn)
    (hq : ∀ r ∈ l, r.forces = none) : Verbatim res l := by
  induction l with
  | nil => trivial
  | cons r rest ih =>
    refine ⟨?_, ih (fun x hx => hq x (List.mem_cons_of_mem _ hx))⟩
    intro e he
    rw [hq r (List.mem_cons_self _ _)] at he
    cases he

theorem Verbatim.quiet {res : Option lwmqtt_err_t} {l : List HookReturn}
    (hv : Verbatim res l) (hs : ∀ e, res = some e → e = LWMQTT_SUCCESS) :
    ∀ r ∈ l, r.forces = none := by
  induction l with
  | nil => intro r hr; cases hr
  | cons x rest ih =>
    intro r hr
    rcases List.mem_cons.mp hr with rfl | hr
    · cases hf : r.forces with
      | none => rfl
      | some e =>
        have h2 := (hv.1 e hf).2
        have h3 := hs e h2
        rw [h3] at hf
        exact absurd hf (forces_ne_success r)
    · exact ih hv.2 r hr

theorem Verbatim.append {res : Option lwmqtt_err_t} {a b : List HookReturn}
    (hq : ∀ r ∈ a, r.forces = none) (hv : Verbatim res b) : Verbatim res (a ++ b) := by
  induction a with
  | nil => exact hv
  | cons r rest ih =>
    refine ⟨?_, ih (fun x hx => hq x (List.mem_cons_of_mem _ hx))⟩
    intro e he
    rw [hq r (List.mem_cons_self _ _)] at he
    cases he

/-- In a list of transport results that is in order, a result that forces an
error is the last one and its error is the result of the run. -/
theorem Verbatim.split {res : Option lwmqtt_err_t} {l : List HookReturn} (hv : Verbatim res l)
    (pre : List HookReturn) (r : HookReturn) (post : List HookReturn)
    (hl : l = pre ++ r :: post) (e : lwmqtt_err_t) (he : r.forces = some e) :
    post = [] ∧ res = some e := by
  induction pre generalizing l with
  | nil =>
    subst hl
    exact hv.1 e he
  | cons x rest ih =>
    subst hl
    exact ih hv.2 rfl

theorem TransportStep.same {c c' : lwmqtt_client_t W} (res : Option lwmqtt_err_t)
    (hr : c'.returns = c.returns) : TransportStep c c' res :=
  ⟨[], by simp [hr], trivial⟩

theorem TransportStep.one {c c' : lwmqtt_client_t W} {res : Option lwmqtt_err_t}
    (r : HookReturn) (hr : c'.returns = c.returns ++ [r])
    (hf : ∀ e, r.forces = some e → res = some e) : TransportStep c c' res :=
  ⟨[r], hr, fun e he => ⟨rfl, hf e he⟩, trivial⟩

theorem TransportStep.seq {c c1 c2 : lwmqtt_client_t W} {res1 res : Option lwmqtt_err_t}
    (h1 : TransportStep c c1 res1) (hs : ∀ e, res1 = some e → e = LWMQTT_SUCCESS)
    (h2 : TransportStep c1 c2 res) : TransportStep c c2 res := by
  obtain ⟨n1, hn1, hv1⟩ := h1
  obtain ⟨n2, hn2, hv2⟩ := h2
  exact ⟨n1 ++ n2, by rw [hn2, hn1, List.append_assoc], Verbatim.append (hv1.quiet hs) hv2⟩

theorem TransportStep.weaken {c c' : lwmqtt_client_t W} {res1 : Option lwmqtt_err_t}
    (h1 : TransportStep c c' res1) (hs : ∀ e, res1 = some e → e = LWMQTT_SUCCESS)
    (res : Option lwmqtt_err_t) : TransportStep c c' res :=
  h1.seq hs (TransportStep.same res rfl)

theorem success_only (e : lwmqtt_err_t) (h : some LWMQTT_SUCCESS = some e) :
    e = LWMQTT_SUCCESS := (Option.some.inj h).symm

theorem of_not_ne {e : lwmqtt_err_t} (h : ¬ e ≠ LWMQTT_SUCCESS) :
    ∀ x, some e = some x → x = LWMQTT_SUCCESS := by
  intro x hx
  rw [← Option.some.inj hx]
  exact not_not.mp h

theorem of_not_ne_some {r : Option lwmqtt_err_t} (h : ¬ r ≠ some LWMQTT_SUCCESS) :
    ∀ x, r = some x → x = LWMQTT_SUCCESS := by
  intro x hx
  rw [not_not.mp h] at hx
  exact (Option.some.inj hx).symm

theorem forces_read (offset len : Int) (err : lwmqtt_err_t) (count : Int) (e : lwmqtt_err_t)
    (he : ({ call := Event.network_read offset len, err := err, count := count } :
      HookReturn).forces = some e) :
    (err ≠ LWMQTT_SUCCESS ∧ e = err)
    ∨ (err = LWMQTT_SUCCESS ∧ offset ≠ 0 ∧ count ≠ len ∧ e = LWMQTT_NOT_ENOUGH_DATA) := by
  unfold HookReturn.forces at he
  by_cases h1 : err ≠ LWMQTT_SUCCESS
  · rw [if_pos h1] at he
    exact Or.inl ⟨h1, (Option.some.inj he).symm⟩
  · rw [if_neg h1] at he
    simp only [] at he
    by_cases h2 : offset ≠ 0 ∧ count ≠ len
    · rw [if_pos h2] at he
      exact Or.inr ⟨not_not.mp h1, h2.1, h2.2, (Option.some.inj he).symm⟩
    · rw [if_neg h2] at he
      cases he

theorem forces_write (bytes : List Nat) (len : Int) (err : lwmqtt_err_t) (count : Int)
    (e : lwmqtt_err_t)
    (he : ({ call := Event.network_write bytes len, err := err, count := count } :
      HookReturn).forces = some e) :
    (err ≠ LWMQTT_SUCCESS ∧ e = err)
    ∨ (err = LWMQTT_SUCCESS ∧ count ≠ len ∧ e = LWMQTT_NOT_ENOUGH_DATA) := by
  unfold HookReturn.forces at he
  by_cases h1 : err ≠ LWMQTT_SUCCESS
  · rw [if_pos h1] at he
    exact Or.inl ⟨h1, (Option.some.inj he).symm⟩
  · rw [if_neg h1] at he
    simp only [] at he
    by_cases h2 : count ≠ len
    · rw [if_pos h2] at he
      exact Or.inr ⟨not_not.mp h1, h2, (Option.some.inj he).symm⟩
    · rw [if_neg h2] at he
      cases he

theorem forces_peek (err : lwmqtt_err_t) (count : Int) (e : lwmqtt_err_t)
    (he : ({ call := Event.network_peek, err := err, count := count } :
      HookReturn).forces = some e) :
    err ≠ LWMQTT_SUCCESS ∧ e = err := by
  unfold HookReturn.forces at he
  by_cases h1 : err ≠ LWMQTT_SUCCESS
  · rw [if_pos h1] at he
    exact ⟨h1, (Option.some.inj he).symm⟩
  · rw [if_neg h1] at he
    cases he

theorem send_packet_step (h : Hooks W) (c : lwmqtt_client_t W) (len : Int) :
    TransportStep c (lwmqtt_send_packet h c len).2 (some (lwmqtt_send_packet h c len).1) := by
  unfold lwmqtt_send_packet
  simp only []
  split_ifs with h1 h2
  · refine TransportStep.one _ rfl ?_
    intro e he
    rcases forces_write _ _ _ _ e he with ⟨_, rfl⟩ | ⟨ha, _, _, rfl⟩
    · rfl
    · exact absurd ha h1
  · refine TransportStep.one _ rfl ?_
    intro e he
    rcases forces_write _ _ _ _ e he with ⟨ha, rfl⟩ | ⟨_, _, rfl⟩
    · exact absurd ha h1
    · rfl
  · refine TransportStep.one _ rfl ?_
    intro e he
    rcases forces_write _ _ _ _ e he with ⟨ha, rfl⟩ | ⟨_, hb, rfl⟩
    · exact absurd ha h1
    · exact absurd hb h2

theorem read_remaining_length_step (k : Codec) (h : Hooks W) (fuel : Nat) :
    ∀ (c : lwmqtt_client_t W) (len : Int),
      TransportStep c (read_remaining_length k h fuel c len).client
        (read_remaining_length k h fuel c len).err := by
  induction fuel with
  | zero => intro c len; exact TransportStep.same _ rfl
  | succ n ih =>
    intro c len
    unfold read_remaining_length
    simp only []
    split_ifs with h1 h2 h3
    · refine TransportStep.one _ rfl ?_
      intro e he
      rcases forces_read _ _ _ _ e he with ⟨_, rfl⟩ | ⟨ha, _, _, rfl⟩
      · rfl
      · exact absurd ha h1
    · refine TransportStep.one _ rfl ?_
      intro e he
      rcases forces_read _ _ _ _ e he with ⟨ha, rfl⟩ | ⟨_, _, _, rfl⟩
      · exact absurd ha h1
      · rfl
    · refine TransportStep.seq (TransportStep.one _ rfl ?_) success_only (ih _ _)
      intro e he
      rcases forces_read _ _ _ _ e he with ⟨ha, rfl⟩ | ⟨_, _, hb, rfl⟩
      · exact absurd ha h1
      · exact absurd hb h2
    · refine TransportStep.one _ rfl ?_
      intro e he
      rcases forces_read _ _ _ _ e he with ⟨ha, rfl⟩ | ⟨_, _, hb, rfl⟩
      · exact absurd ha h1
      · exact absurd hb h2

theorem read_packet_body_step (k : Codec) (h : Hooks W) (fuel : Nat) (c : lwmqtt_client_t W)
    (packet_type : lwmqtt_packet_type_t) :
    TransportStep c (read_packet_body k h fuel c packet_type).2.2
      (read_packet_body k h fuel c packet_type).1 := by
  have hh : ∀ res, ¬ (call_network_read h c 0 1).1 ≠ LWMQTT_SUCCESS →
      TransportStep c (call_network_read h c 0 1).2.2 res := by
    intro res h1
    refine TransportStep.one _ rfl ?_
    intro e he
    rcases forces_read _ _ _ _ e he with ⟨ha, rfl⟩ | ⟨_, hb, _, rfl⟩
    · exact absurd ha h1
    · exact absurd rfl hb
  unfold read_packet_body
  simp only []
  split_ifs with h1 h2 h3 h4 h5 h6 h7
  · refine TransportStep.one _ rfl ?_
    intro e he
    rcases forces_read _ _ _ _ e he with ⟨_, rfl⟩ | ⟨ha, _, _, rfl⟩
    · rfl
    · exact absurd ha h1
  · exact hh _ h1
  · exact hh _ h1
  · exact (hh (some LWMQTT_SUCCESS) h1).seq success_only (read_remaining_length_step k h fuel _ _)
  · refine ((hh (some LWMQTT_SUCCESS) h1).seq success_only
      (read_remaining_length_step k h fuel _ _)).seq (of_not_ne_some h4) ?_
    refine TransportStep.one _ rfl ?_
    intro e he
    rcases forces_read _ _ _ _ e he with ⟨_, rfl⟩ | ⟨ha, _, _, rfl⟩
    · rfl
    · exact absurd ha h6
  · refine ((hh (some LWMQTT_SUCCESS) h1).seq success_only
      (read_remaining_length_step k h fuel _ _)).seq (of_not_ne_some h4) ?_
    refine TransportStep.one _ rfl ?_
    intro e he
    rcases forces_read _ _ _ _ e he with ⟨ha, rfl⟩ | ⟨_, _, _, rfl⟩
    · exact absurd ha h6
    · rfl
  · refine ((hh (some LWMQTT_SUCCESS) h1).seq success_only
      (read_remaining_length_step k h fuel _ _)).seq (of_not_ne_some h4) ?_
    refine TransportStep.one _ rfl ?_
    intro e he
    rcases forces_read _ _ _ _ e he with ⟨ha, rfl⟩ | ⟨_, _, hb, rfl⟩
    · exact absurd ha h6
    · exact absurd hb h7
  · exact ((hh (some LWMQTT_SUCCESS) h1).seq success_only
      (read_remaining_length_step k h fuel _ _)).weaken (of_not_ne_some h4) _

theorem read_packet_step (k : Codec) (h : Hooks W) (fuel : Nat) (c : lwmqtt_client_t W)
    (packet_type : lwmqtt_packet_type_t) :
    TransportStep c (lwmqtt_read_packet k h fuel c packet_type).2.2
      (lwmqtt_read_packet k h fuel c packet_type).1 := by
  unfold lwmqtt_read_packet
  split
  · simp only []
    split_ifs with h1 h2
    · refine TransportStep.one _ rfl ?_
      intro e he
      rcases forces_peek _ _ e he with ⟨_, rfl⟩
      rfl
    · refine TransportStep.one _ rfl ?_
      intro e he
      rcases forces_peek _ _ e he with ⟨ha, rfl⟩
      exact absurd ha h1
    · refine TransportStep.seq (TransportStep.one _ rfl ?_) success_only
        (read_packet_body_step k h fuel _ _)
      intro e he
      rcases forces_peek _ _ e he with ⟨ha, rfl⟩
      exact absurd ha h1
  · exact read_packet_body_step k h fuel c packet_type

theorem TransportStep.of_ext {c c1 c2 : lwmqtt_client_t W} {res : Option lwmqtt_err_t}
    (hr : c1.returns = c.returns) (h2 : TransportStep c1 c2 res) : TransportStep c c2 res :=
  (TransportStep.same (some LWMQTT_SUCCESS) hr).seq success_only h2

theorem encode_and_send_ack_step (k : Codec) (h : Hooks W) (c : lwmqtt_client_t W)
    (type : lwmqtt_packet_type_t) (packet_id : Nat) :
    TransportStep c (encode_and_send_ack k h c type packet_id).2
      (some (encode_and_send_ack k h c type packet_id).1) := by
  unfold encode_and_send_ack
  simp only []
  split_ifs
  · exact TransportStep.same _ rfl
  · exact TransportStep.of_ext rfl (send_packet_step h _ _)

theorem call_callback_returns (h : Hooks W) (c : lwmqtt_client_t W) (topic : lwmqtt_string_t)
    (msg : lwmqtt_message_t) : (call_callback h c topic msg).returns = c.returns := by
  unfold call_callback
  split <;> rfl

theorem cycle_publish_step (k : Codec) (h : Hooks W) (c : lwmqtt_client_t W) :
    TransportStep c (cycle_publish k h c).2 (some (cycle_publish k h c).1) := by
  unfold cycle_publish
  simp only []
  split_ifs
  all_goals first
    | exact TransportStep.same _ rfl
    | exact TransportStep.same _ (call_callback_returns h c _ _)
    | exact TransportStep.of_ext (call_callback_returns h c _ _)
        (encode_and_send_ack_step k h _ _ _)

theorem cycle_ack_step (k : Codec) (h : Hooks W) (c : lwmqtt_client_t W)
    (reply : lwmqtt_packet_type_t) :
    TransportStep c (cycle_ack k h c reply).2.2 (some (cycle_ack k h c reply).1) := by
  unfold cycle_ack
  simp only []
  split_ifs
  · exact TransportStep.same _ rfl
  · exact encode_and_send_ack_step k h c reply _

theorem cycle_step (k : Codec) (h : Hooks W) (fuel : Nat) (c : lwmqtt_client_t W)
    (packet_type : lwmqtt_packet_type_t) :
    TransportStep c (lwmqtt_cycle k h fuel c packet_type).2.2
      (lwmqtt_cycle k h fuel c packet_type).1 := by
  have hr := read_packet_step k h fuel c packet_type
  unfold lwmqtt_cycle
  simp only []
  split_ifs with h1 h2
  · exact hr
  · exact hr.weaken (of_not_ne_some h1) _
  · split
    · exact hr.seq (of_not_ne_some h1) (cycle_publish_step k h _)
    · exact hr.seq (of_not_ne_some h1) (cycle_ack_step k h _ _)
    · exact hr.seq (of_not_ne_some h1) (cycle_ack_step k h _ _)
    · exact hr.seq (of_not_ne_some h1) (TransportStep.same _ rfl)
    · exact hr.weaken (of_not_ne_some h1) _

theorem cycle_until_step (k : Codec) (h : Hooks W) (fuel : Nat) :
    ∀ (c : lwmqtt_client_t W) (packet_type needle : lwmqtt_packet_type_t),
      TransportStep c (lwmqtt_cycle_until k h fuel c packet_type needle).2.2
        (lwmqtt_cycle_until k h fuel c packet_type needle).1 := by
  induction fuel with
  | zero => intro c packet_type needle; exact TransportStep.same _ rfl
  | succ n ih =>
    intro c packet_type needle
    have hc := cycle_step k h (n + 1) c packet_type
    unfold lwmqtt_cycle_until
    simp only []
    split_ifs with h1 h2 h3
    · exact hc
    · exact hc.weaken (of_not_ne_some h1) _
    · exact hc.seq (of_not_ne_some h1) (TransportStep.of_ext rfl (ih _ _ _))
    · exact hc.seq (of_not_ne_some h1) (TransportStep.same _ rfl)

theorem connect_send_and_wait_step (k : Codec) (h : Hooks W) (fuel : Nat)
    (c : lwmqtt_client_t W) (len : Int) (return_code : lwmqtt_return_code_t) :
    TransportStep c (connect_send_and_wait k h fuel c len return_code).2.2
      (connect_send_and_wait k h fuel c len return_code).1 := by
  have hs := send_packet_step h c len
  unfold connect_send_and_wait
  simp only []
  split_ifs with h1 h2 h3 h4 h5
  · exact hs
  · exact hs.seq (of_not_ne h1) (cycle_until_step k h fuel _ _ _)
  · exact (hs.seq (of_not_ne h1) (cycle_until_step k h fuel _ _ _)).weaken (of_not_ne_some h2) _
  · exact (hs.seq (of_not_ne h1) (cycle_until_step k h fuel _ _ _)).weaken (of_not_ne_some h2) _
  · exact (hs.seq (of_not_ne h1) (cycle_until_step k h fuel _ _ _)).weaken (of_not_ne_some h2) _
  · exact (hs.seq (of_not_ne h1) (cycle_until_step k h fuel _ _ _)).weaken (of_not_ne_some h2) _

theorem subscribe_send_and_wait_step (k : Codec) (h : Hooks W) (fuel : Nat)
    (c : lwmqtt_client_t W) (len : Int) :
    TransportStep c (subscribe_send_and_wait k h fuel c len).2
      (subscribe_send_and_wait k h fuel c len).1 := by
  have hs := send_packet_step h c len
  unfold subscribe_send_and_wait
  simp only []
  split_ifs with h1 h2 h3 h4
  · exact hs
  · exact hs.seq (of_not_ne h1) (cycle_until_step k h fuel _ _ _)
  · exact (hs.seq (of_not_ne h1) (cycle_until_step k h fuel _ _ _)).weaken (of_not_ne_some h2) _
  · exact (hs.seq (of_not_ne h1) (cycle_until_step k h fuel _ _ _)).weaken (of_not_ne_some h2) _
  · exact (hs.seq (of_not_ne h1) (cycle_until_step k h fuel _ _ _)).weaken (of_not_ne_some h2) _

theorem unsubscribe_send_and_wait_step (k : Codec) (h : Hooks W) (fuel : Nat)
    (c : lwmqtt_client_t W) (len : Int) :
    TransportStep c (unsubscribe_send_and_wait k h fuel c len).2
      (unsubscribe_send_and_wait k h fuel c len).1 := by
  have hs := send_packet_step h c len
  unfold unsubscribe_send_and_wait
  simp only []
  split_ifs with h1 h2 h3 h4
  · exact hs
  · exact hs.seq (of_not_ne h1) (cycle_until_step k h fuel _ _ _)
  · exact (hs.seq (of_not_ne h1) (cycle_until_step k h fuel _ _ _)).weaken (of_not_ne_some h2) _
  · exact (hs.seq (of_not_ne h1) (cycle_until_step k h fuel _ _ _)).weaken (of_not_ne_some h2) _
  · exact (hs.seq (of_not_ne h1) (cycle_until_step k h fuel _ _ _)).weaken (of_not_ne_some h2) _

theorem publish_send_and_wait_step (k : Codec) (h : Hooks W) (fuel : Nat)
    (c : lwmqtt_client_t W) (len : Int) (qos : lwmqtt_qos_t) :
    TransportStep c (publish_send_and_wait k h fuel c len qos).2
      (publish_send_and_wait k h fuel c len qos).1 := by
  have hs := send_packet_step h c len
  unfold publish_send_and_wait
  simp only []
  split_ifs with h1 h0
  · exact hs
  · exact hs.weaken (of_not_ne h1) _
  all_goals first
    | exact hs.seq (of_not_ne h1) (cycle_until_step k h fuel _ _ _)
    | exact (hs.seq (of_not_ne h1) (cycle_until_step k h fuel _ _ _)).weaken
        (of_not_ne_some (by assumption)) _

theorem connect_step (k : Codec) (h : Hooks W) (fuel : Nat) (c : lwmqtt_client_t W)
    (options : lwmqtt_options_t) (will : Option lwmqtt_will_t)
    (return_code : lwmqtt_return_code_t) (timeout : Nat) :
    TransportStep c (lwmqtt_connect k h fuel c options will return_code timeout).2.2
      (lwmqtt_connect k h fuel c options will return_code timeout).1 := by
  have hr : ∀ c3 : lwmqtt_client_t W, c3.returns = c.returns →
      TransportStep c
        (if (call_encode_connect k c3 options will).1 ≠ LWMQTT_SUCCESS then
          (some LWMQTT_FAILURE, return_code, (call_encode_connect k c3 options will).2.2)
        else connect_send_and_wait k h fuel (call_encode_connect k c3 options will).2.2
          (call_encode_connect k c3 options will).2.1 return_code).2.2
        (if (call_encode_connect k c3 options will).1 ≠ LWMQTT_SUCCESS then
          (some LWMQTT_FAILURE, return_code, (call_encode_connect k c3 options will).2.2)
        else connect_send_and_wait k h fuel (call_encode_connect k c3 options will).2.2
          (call_encode_connect k c3 options will).2.1 return_code).1 := by
    intro c3 h3
    split_ifs
    · exact TransportStep.same _ h3
    · exact TransportStep.of_ext h3 (connect_send_and_wait_step k h fuel _ _ _)
  unfold lwmqtt_connect
  simp only []
  apply hr
  split_ifs <;> rfl

theorem subscribe_step (k : Codec) (h : Hooks W) (fuel : Nat) (c : lwmqtt_client_t W)
    (topic_filter : lwmqtt_string_t) (qos : lwmqtt_qos_t) (timeout : Nat) :
    TransportStep c (lwmqtt_subscribe k h fuel c topic_filter qos timeout).2
      (lwmqtt_subscribe k h fuel c topic_filter qos timeout).1 := by
  unfold lwmqtt_subscribe
  simp only []
  split_ifs
  · exact TransportStep.same _ rfl
  · exact TransportStep.of_ext rfl (subscribe_send_and_wait_step k h fuel _ _)

theorem unsubscribe_step (k : Codec) (h : Hooks W) (fuel : Nat) (c : lwmqtt_client_t W)
    (topic_filter : lwmqtt_string_t) (timeout : Nat) :
    TransportStep c (lwmqtt_unsubscribe k h fuel c topic_filter timeout).2
      (lwmqtt_unsubscribe k h fuel c topic_filter timeout).1 := by
  unfold lwmqtt_unsubscribe
  simp only []
  split_ifs
  · exact TransportStep.same _ rfl
  · exact TransportStep.of_ext rfl (unsubscribe_send_and_wait_step k h fuel _ _)

theorem publish_step (k : Codec) (h : Hooks W) (fuel : Nat) (c : lwmqtt_client_t W)
    (topicName : lwmqtt_string_t) (message : lwmqtt_message_t) (timeout : Nat) :
    TransportStep c (lwmqtt_publish k h fuel c topicName message timeout).2
      (lwmqtt_publish k h fuel c topicName message timeout).1 := by
  have hr : ∀ g : Nat × lwmqtt_client_t W, g.2.returns = c.returns →
      TransportStep c
        (if (call_encode_publish k g.2 false message.qos message.retained g.1 topicName
            message.payload message.payload_len).1 ≠ LWMQTT_SUCCESS then
          (some (call_encode_publish k g.2 false message.qos message.retained g.1 topicName
            message.payload message.payload_len).1,
           (call_encode_publish k g.2 false message.qos message.retained g.1 topicName
            message.payload message.payload_len).2.2)
        else publish_send_and_wait k h fuel
          (call_encode_publish k g.2 false message.qos message.retained g.1 topicName
            message.payload message.payload_len).2.2
          (call_encode_publish k g.2 false message.qos message.retained g.1 topicName
            message.payload message.payload_len).2.1 message.qos).2
        (if (call_encode_publish k g.2 false message.qos message.retained g.1 topicName
            message.payload message.payload_len).1 ≠ LWMQTT_SUCCESS then
          (some (call_encode_publish k g.2 false message.qos message.retained g.1 topicName
            message.payload message.payload_len).1,
           (call_encode_publish k g.2 false message.qos message.retained g.1 topicName
            message.payload message.payload_len).2.2)
        else publish_send_and_wait k h fuel
          (call_encode_publish k g.2 false message.qos message.retained g.1 topicName
            message.payload message.payload_len).2.2
          (call_encode_publish k g.2 false message.qos message.retained g.1 topicName
            message.payload message.payload_len).2.1 message.qos).1 := by
    intro g hg
    split_ifs
    · exact TransportStep.same _ hg
    · exact TransportStep.of_ext hg (publish_send_and_wait_step k h fuel _ _ _)
  unfold lwmqtt_publish
  simp only []
  apply hr
  split_ifs <;> rfl

theorem disconnect_step (k : Codec) (h : Hooks W) (c : lwmqtt_client_t W) (timeout : Nat) :
    TransportStep c (lwmqtt_disconnect k h c timeout).2
      (some (lwmqtt_disconnect k h c timeout).1) := by
  unfold lwmqtt_disconnect
  simp only []
  split_ifs with h1 h2
  · exact TransportStep.same _ rfl
  · exact TransportStep.of_ext rfl (send_packet_step h _ _)
  · exact (TransportStep.of_ext rfl (send_packet_step h _ _)).weaken (of_not_ne h2) _

theorem yield_step (k : Codec) (h : Hooks W) (fuel : Nat) (c : lwmqtt_client_t W)
    (timeout : Nat) :
    TransportStep c (lwmqtt_yield k h fuel c timeout).2 (lwmqtt_yield k h fuel c timeout).1 := by
  unfold lwmqtt_yield
  simp only []
  split_ifs with h1
  · exact TransportStep.of_ext rfl (cycle_until_step k h fuel _ _ _)
  · exact (TransportStep.of_ext rfl (cycle_until_step k h fuel _ _ _)).weaken
      (of_not_ne_some h1) _

theorem keep_alive_step (k : Codec) (h : Hooks W) (c : lwmqtt_client_t W) (timeout : Nat) :
    TransportStep c (lwmqtt_keep_alive k h c timeout).2
      (some (lwmqtt_keep_alive k h c timeout).1) := by
  unfold lwmqtt_keep_alive
  simp only []
  split_ifs with h1 h2 h3 h4 h5
  · exact TransportStep.same _ rfl
  · exact TransportStep.same _ rfl
  · exact TransportStep.same _ rfl
  · exact TransportStep.same _ rfl
  · exact TransportStep.of_ext rfl (send_packet_step h _ _)
  · exact (TransportStep.of_ext rfl (send_packet_step h _ _)).weaken (of_not_ne h5) _

theorem run_command_step (k : Codec) (h : Hooks W) (fuel : Nat) (c : lwmqtt_client_t W)
    (cmd : Command) :
    TransportStep c (run_command k h fuel c cmd).2 (run_command k h fuel c cmd).1 := by
  cases cmd with
  | connect options will return_code timeout => exact connect_step k h fuel c _ _ _ _
  | subscribe topic_filter qos timeout => exact subscribe_step k h fuel c _ _ _
  | unsubscribe topic_filter timeout => exact unsubscribe_step k h fuel c _ _
  | publish topicName message timeout => exact publish_step k h fuel c _ _ _
  | disconnect timeout => exact disconnect_step k h c _
  | yield timeout => exact yield_step k h fuel c _
  | keep_alive timeout => exact keep_alive_step k h c _

theorem transport_calls_append (a b : List Event) :
    transport_calls (a ++ b) = transport_calls a ++ transport_calls b := by
  induction a with
  | nil => rfl
  | cons e t ih => cases e <;> simp [transport_calls, ih]

theorem Logged.refl_logged (c : lwmqtt_client_t W) : Logged c c :=
  ⟨[], [], by simp, by simp, rfl⟩

theorem Logged.trans_logged {a b c : lwmqtt_client_t W} (h1 : Logged a b) (h2 : Logged b c) :
    Logged a c := by
  obtain ⟨e1, n1, t1, r1, p1⟩ := h1
  obtain ⟨e2, n2, t2, r2, p2⟩ := h2
  refine ⟨e1 ++ e2, n1 ++ n2, ?_, ?_, ?_⟩
  · rw [t2, t1, List.append_assoc]
  · rw [r2, r1, List.append_assoc]
  · rw [transport_calls_append, p1, p2, List.map_append]

theorem Logged.other {c c' : lwmqtt_client_t W} (e : Event) (ht : c'.trace = c.trace ++ [e])
    (hr : c'.returns = c.returns) (he : transport_calls [e] = []) : Logged c c' :=
  ⟨[e], [], ht, by simp [hr], by simp [he]⟩

theorem Logged.call {c c' : lwmqtt_client_t W} (r : HookReturn)
    (hr : c'.returns = c.returns ++ [r]) (ht : c'.trace = c.trace ++ [r.call])
    (he : transport_calls [r.call] = [r.call]) : Logged c c' :=
  ⟨[r.call], [r], ht, hr, by simp [he]⟩

theorem call_timer_set_logged (h : Hooks W) (c : lwmqtt_client_t W) (t : Timer) (ms : Nat) :
    Logged c (call_timer_set h c t ms) :=
  Logged.other (Event.timer_set t ms) rfl rfl rfl

theorem call_timer_get_logged (h : Hooks W) (c : lwmqtt_client_t W) (t : Timer) :
    Logged c (call_timer_get h c t).2 :=
  Logged.other (Event.timer_get t) rfl rfl rfl

theorem call_network_read_logged (h : Hooks W) (c : lwmqtt_client_t W) (offset len : Int) :
    Logged c (call_network_read h c offset len).2.2 :=
  (call_timer_get_logged h c Timer.command_timer).trans_logged
    (Logged.call _ rfl (by rfl) (by rfl))

theorem call_encode_ack_logged (k : Codec) (c : lwmqtt_client_t W)
    (type : lwmqtt_packet_type_t) (dup : Bool) (packet_id : Nat) :
    Logged c (call_encode_ack k c type dup packet_id).2.2 :=
  Logged.other (Event.encode_ack type packet_id) rfl rfl rfl

theorem call_encode_zero_logged (k : Codec) (c : lwmqtt_client_t W)
    (type : lwmqtt_packet_type_t) : Logged c (call_encode_zero k c type).2.2 :=
  Logged.other (Event.encode_zero type) rfl rfl rfl

theorem call_encode_connect_logged (k : Codec) (c : lwmqtt_client_t W)
    (options : lwmqtt_options_t) (will : Option lwmqtt_will_t) :
    Logged c (call_encode_connect k c options will).2.2 :=
  Logged.other Event.encode_connect rfl rfl rfl

theorem call_encode_subscribe_logged (k : Codec) (c : lwmqtt_client_t W) (packet_id : Nat)
    (topic_filter : lwmqtt_string_t) (qos : lwmqtt_qos_t) :
    Logged c (call_encode_subscribe k c packet_id topic_filter qos).2.2 :=
  Logged.other (Event.encode_subscribe packet_id) rfl rfl rfl

theorem call_encode_unsubscribe_logged (k : Codec) (c : lwmqtt_client_t W) (packet_id : Nat)
    (topic_filter : lwmqtt_string_t) :
    Logged c (call_encode_unsubscribe k c packet_id topic_filter).2.2 :=
  Logged.other (Event.encode_unsubscribe packet_id) rfl rfl rfl

theorem call_encode_publish_logged (k : Codec) (c : lwmqtt_client_t W) (dup : Bool)
    (qos : lwmqtt_qos_t) (retained : Bool) (packet_id : Nat) (topic : lwmqtt_string_t)
    (payload : List Nat) (payload_len : Int) :
    Logged c (call_encode_publish k c dup qos retained packet_id topic payload payload_len).2.2 :=
  Logged.other (Event.encode_publish qos packet_id) rfl rfl rfl

theorem get_next_packet_id_logged (c : lwmqtt_client_t W) :
    Logged c (lwmqtt_get_next_packet_id c).2 :=
  ⟨[], [], by simp [lwmqtt_get_next_packet_id], by simp [lwmqtt_get_next_packet_id], rfl⟩

theorem call_callback_logged (h : Hooks W) (c : lwmqtt_client_t W) (topic : lwmqtt_string_t)
    (msg : lwmqtt_message_t) : Logged c (call_callback h c topic msg) := by
  unfold call_callback
  split
  · exact Logged.other (Event.callback topic msg) rfl rfl rfl
  · exact Logged.refl_logged c

theorem send_packet_logged (h : Hooks W) (c : lwmqtt_client_t W) (len : Int) :
    Logged c (lwmqtt_send_packet h c len).2 := by
  have ht := call_timer_get_logged h c Timer.command_timer
  unfold lwmqtt_send_packet
  simp only []
  split_ifs
  · exact ht.trans_logged (Logged.call _ rfl (by rfl) (by rfl))
  · exact ht.trans_logged (Logged.call _ rfl (by rfl) (by rfl))
  · exact (ht.trans_logged (Logged.call _ rfl (by rfl) (by rfl))).trans_logged (call_timer_set_logged h _ _ _)

theorem read_remaining_length_logged (k : Codec) (h : Hooks W) (fuel : Nat) :
    ∀ (c : lwmqtt_client_t W) (len : Int),
      Logged c (read_remaining_length k h fuel c len).client := by
  induction fuel with
  | zero => intro c len; exact Logged.refl_logged c
  | succ n ih =>
    intro c len
    unfold read_remaining_length
    simp only []
    split_ifs
    · exact call_network_read_logged h c _ _
    · exact call_network_read_logged h c _ _
    · exact (call_network_read_logged h c _ _).trans_logged (ih _ _)
    · exact call_network_read_logged h c _ _

theorem read_packet_body_logged (k : Codec) (h : Hooks W) (fuel : Nat) (c : lwmqtt_client_t W)
    (packet_type : lwmqtt_packet_type_t) :
    Logged c (read_packet_body k h fuel c packet_type).2.2 := by
  have h0 := call_network_read_logged h c 0 1
  have hl := h0.trans_logged (read_remaining_length_logged k h fuel (call_network_read h c 0 1).2.2 0)
  unfold read_packet_body
  simp only []
  split_ifs
  · exact h0
  · exact h0
  · exact h0
  · exact hl
  · exact hl.trans_logged (call_network_read_logged h _ _ _)
  · exact hl.trans_logged (call_network_read_logged h _ _ _)
  · exact hl.trans_logged (call_network_read_logged h _ _ _)
  · exact hl

theorem read_packet_logged (k : Codec) (h : Hooks W) (fuel : Nat) (c : lwmqtt_client_t W)
    (packet_type : lwmqtt_packet_type_t) :
    Logged c (lwmqtt_read_packet k h fuel c packet_type).2.2 := by
  unfold lwmqtt_read_packet
  split
  · simp only []
    split_ifs
    · exact Logged.call _ rfl (by rfl) (by rfl)
    · exact Logged.call _ rfl (by rfl) (by rfl)
    · exact (Logged.call _ rfl (by rfl) (by rfl)).trans_logged (read_packet_body_logged k h fuel _ _)
  · exact read_packet_body_logged k h fuel c packet_type

theorem encode_and_send_ack_logged (k : Codec) (h : Hooks W) (c : lwmqtt_client_t W)
    (type : lwmqtt_packet_type_t) (packet_id : Nat) :
    Logged c (encode_and_send_ack k h c type packet_id).2 := by
  unfold encode_and_send_ack
  simp only []
  split_ifs
  · exact call_encode_ack_logged k c _ _ _
  · exact (call_encode_ack_logged k c _ _ _).trans_logged (send_packet_logged h _ _)

theorem cycle_publish_logged (k : Codec) (h : Hooks W) (c : lwmqtt_client_t W) :
    Logged c (cycle_publish k h c).2 := by
  unfold cycle_publish
  simp only []
  split_ifs
  all_goals first
    | exact Logged.refl_logged c
    | exact call_callback_logged h c _ _
    | exact (call_callback_logged h c _ _).trans_logged (encode_and_send_ack_logged k h _ _ _)

theorem cycle_ack_logged (k : Codec) (h : Hooks W) (c : lwmqtt_client_t W)
    (reply : lwmqtt_packet_type_t) : Logged c (cycle_ack k h c reply).2.2 := by
  unfold cycle_ack
  simp only []
  split_ifs
  · exact Logged.refl_logged c
  · exact encode_and_send_ack_logged k h c reply _

theorem cycle_logged (k : Codec) (h : Hooks W) (fuel : Nat) (c : lwmqtt_client_t W)
    (packet_type : lwmqtt_packet_type_t) :
    Logged c (lwmqtt_cycle k h fuel c packet_type).2.2 := by
  have hr := read_packet_logged k h fuel c packet_type
  unfold lwmqtt_cycle
  simp only []
  split_ifs
  · exact hr
  · exact hr
  · split
    · exact hr.trans_logged (cycle_publish_logged k h _)
    · exact hr.trans_logged (cycle_ack_logged k h _ _)
    · exact hr.trans_logged (cycle_ack_logged k h _ _)
    · exact hr.trans_logged (Logged.other (Event.ping_outstanding false) rfl rfl rfl)
    · exact hr

theorem cycle_until_logged (k : Codec) (h : Hooks W) (fuel : Nat) :
    ∀ (c : lwmqtt_client_t W) (packet_type needle : lwmqtt_packet_type_t),
      Logged c (lwmqtt_cycle_until k h fuel c packet_type needle).2.2 := by
  induction fuel with
  | zero => intro c packet_type needle; exact Logged.refl_logged c
  | succ n ih =>
    intro c packet_type needle
    have hc := cycle_logged k h (n + 1) c packet_type
    unfold lwmqtt_cycle_until
    simp only []
    split_ifs
    · exact hc
    · exact hc
    · exact (hc.trans_logged (call_timer_get_logged h _ _)).trans_logged (ih _ _ _)
    · exact hc.trans_logged (call_timer_get_logged h _ _)

theorem connect_send_and_wait_logged (k : Codec) (h : Hooks W) (fuel : Nat)
    (c : lwmqtt_client_t W) (len : Int) (return_code : lwmqtt_return_code_t) :
    Logged c (connect_send_and_wait k h fuel c len return_code).2.2 := by
  have hs := send_packet_logged h c len
  unfold connect_send_and_wait
  simp only []
  split_ifs
  · exact hs
  all_goals exact hs.trans_logged (cycle_until_logged k h fuel _ _ _)

theorem subscribe_send_and_wait_logged (k : Codec) (h : Hooks W) (fuel : Nat)
    (c : lwmqtt_client_t W) (len : Int) :
    Logged c (subscribe_send_and_wait k h fuel c len).2 := by
  have hs := send_packet_logged h c len
  unfold subscribe_send_and_wait
  simp only []
  split_ifs
  · exact hs
  all_goals exact hs.trans_logged (cycle_until_logged k h fuel _ _ _)

theorem unsubscribe_send_and_wait_logged (k : Codec) (h : Hooks W) (fuel : Nat)
    (c : lwmqtt_client_t W) (len : Int) :
    Logged c (unsubscribe_send_and_wait k h fuel c len).2 := by
  have hs := send_packet_logged h c len
  unfold unsubscribe_send_and_wait
  simp only []
  split_ifs
  · exact hs
  all_goals exact hs.trans_logged (cycle_until_logged k h fuel _ _ _)

theorem publish_send_and_wait_logged (k : Codec) (h : Hooks W) (fuel : Nat)
    (c : lwmqtt_client_t W) (len : Int) (qos : lwmqtt_qos_t) :
    Logged c (publish_send_and_wait k h fuel c len qos).2 := by
  have hs := send_packet_logged h c len
  unfold publish_send_and_wait
  simp only []
  split_ifs
  all_goals first
    | exact hs
    | exact hs.trans_logged (cycle_until_logged k h fuel _ _ _)

theorem connect_logged (k : Codec) (h : Hooks W) (fuel : Nat) (c : lwmqtt_client_t W)
    (options : lwmqtt_options_t) (will : Option lwmqtt_will_t)
    (return_code : lwmqtt_return_code_t) (timeout : Nat) :
    Logged c (lwmqtt_connect k h fuel c options will return_code timeout).2.2 := by
  have hr : ∀ c3 : lwmqtt_client_t W, Logged c c3 →
      Logged c
        (if (call_encode_connect k c3 options will).1 ≠ LWMQTT_SUCCESS then
          (some LWMQTT_FAILURE, return_code, (call_encode_connect k c3 options will).2.2)
        else connect_send_and_wait k h fuel (call_encode_connect k c3 options will).2.2
          (call_encode_connect k c3 options will).2.1 return_code).2.2 := by
    intro c3 h3
    split_ifs
    · exact h3.trans_logged (call_encode_connect_logged k c3 _ _)
    · exact (h3.trans_logged (call_encode_connect_logged k c3 _ _)).trans_logged
        (connect_send_and_wait_logged k h fuel _ _ _)
  have h2 : Logged c
      { call_timer_set h c Timer.command_timer timeout with
        keep_alive_interval := options.keep_alive } :=
    Logged.other (Event.timer_set Timer.command_timer timeout) rfl rfl rfl
  unfold lwmqtt_connect
  simp only []
  apply hr
  split_ifs
  · exact h2.trans_logged (call_timer_set_logged h _ _ _)
  · exact h2

theorem subscribe_logged (k : Codec) (h : Hooks W) (fuel : Nat) (c : lwmqtt_client_t W)
    (topic_filter : lwmqtt_string_t) (qos : lwmqtt_qos_t) (timeout : Nat) :
    Logged c (lwmqtt_subscribe k h fuel c topic_filter qos timeout).2 := by
  have he := ((call_timer_set_logged h c Timer.command_timer timeout).trans_logged
    (get_next_packet_id_logged _)).trans_logged
    (call_encode_subscribe_logged k _
      (lwmqtt_get_next_packet_id (call_timer_set h c Timer.command_timer timeout)).1
      topic_filter qos)
  unfold lwmqtt_subscribe
  simp only []
  split_ifs
  · exact he
  · exact he.trans_logged (subscribe_send_and_wait_logged k h fuel _ _)

theorem unsubscribe_logged (k : Codec) (h : Hooks W) (fuel : Nat) (c : lwmqtt_client_t W)
    (topic_filter : lwmqtt_string_t) (timeout : Nat) :
    Logged c (lwmqtt_unsubscribe k h fuel c topic_filter timeout).2 := by
  have he := ((call_timer_set_logged h c Timer.command_timer timeout).trans_logged
    (get_next_packet_id_logged _)).trans_logged
    (call_encode_unsubscribe_logged k _
      (lwmqtt_get_next_packet_id (call_timer_set h c Timer.command_timer timeout)).1
      topic_filter)
  unfold lwmqtt_unsubscribe
  simp only []
  split_ifs
  · exact he
  · exact he.trans_logged (unsubscribe_send_and_wait_logged k h fuel _ _)

theorem publish_logged (k : Codec) (h : Hooks W) (fuel : Nat) (c : lwmqtt_client_t W)
    (topicName : lwmqtt_string_t) (message : lwmqtt_message_t) (timeout : Nat) :
    Logged c (lwmqtt_publish k h fuel c topicName message timeout).2 := by
  have hr : ∀ g : Nat × lwmqtt_client_t W, Logged c g.2 →
      Logged c
        (if (call_encode_publish k g.2 false message.qos message.retained g.1 topicName
            message.payload message.payload_len).1 ≠ LWMQTT_SUCCESS then
          (some (call_encode_publish k g.2 false message.qos message.retained g.1 topicName
            message.payload message.payload_len).1,
           (call_encode_publish k g.2 false message.qos message.retained g.1 topicName
            message.payload message.payload_len).2.2)
        else publish_send_and_wait k h fuel
          (call_encode_publish k g.2 false message.qos message.retained g.1 topicName
            message.payload message.payload_len).2.2
          (call_encode_publish k g.2 false message.qos message.retained g.1 topicName
            message.payload message.payload_len).2.1 message.qos).2 := by
    intro g hg
    split_ifs
    · exact hg.trans_logged (call_encode_publish_logged k _ _ _ _ _ _ _ _)
    · exact (hg.trans_logged (call_encode_publish_logged k _ _ _ _ _ _ _ _)).trans_logged
        (publish_send_and_wait_logged k h fuel _ _ _)
  have h1 := call_timer_set_logged h c Timer.command_timer timeout
  unfold lwmqtt_publish
  simp only []
  apply hr
  split_ifs
  · exact h1.trans_logged (get_next_packet_id_logged _)
  · exact h1

theorem disconnect_logged (k : Codec) (h : Hooks W) (c : lwmqtt_client_t W) (timeout : Nat) :
    Logged c (lwmqtt_disconnect k h c timeout).2 := by
  have he := (call_timer_set_logged h c Timer.command_timer timeout).trans_logged
    (call_encode_zero_logged k _ LWMQTT_DISCONNECT_PACKET)
  unfold lwmqtt_disconnect
  simp only []
  split_ifs
  · exact he
  · exact he.trans_logged (send_packet_logged h _ _)
  · exact he.trans_logged (send_packet_logged h _ _)

theorem yield_logged (k : Codec) (h : Hooks W) (fuel : Nat) (c : lwmqtt_client_t W)
    (timeout : Nat) : Logged c (lwmqtt_yield k h fuel c timeout).2 := by
  have hy := (call_timer_set_logged h c Timer.command_timer timeout).trans_logged
    (cycle_until_logged k h fuel _ LWMQTT_NO_PACKET LWMQTT_NO_PACKET)
  unfold lwmqtt_yield
  simp only []
  split_ifs
  · exact hy
  · exact hy

theorem keep_alive_logged (k : Codec) (h : Hooks W) (c : lwmqtt_client_t W) (timeout : Nat) :
    Logged c (lwmqtt_keep_alive k h c timeout).2 := by
  have h1 := call_timer_set_logged h c Timer.command_timer timeout
  have h2 := h1.trans_logged (call_timer_get_logged h _ Timer.keep_alive_timer)
  have h3 := h2.trans_logged (call_encode_zero_logged k _ LWMQTT_PINGREQ_PACKET)
  unfold lwmqtt_keep_alive
  simp only []
  split_ifs
  · exact h1
  · exact h2
  · exact h2
  · exact h3
  · exact h3.trans_logged (send_packet_logged h _ _)
  · exact (h3.trans_logged (send_packet_logged h _ _)).trans_logged
      (Logged.other (Event.ping_outstanding true) rfl rfl rfl)

theorem run_command_logged (k : Codec) (h : Hooks W) (fuel : Nat) (c : lwmqtt_client_t W)
    (cmd : Command) : Logged c (run_command k h fuel c cmd).2 := by
  cases cmd with
  | connect options will return_code timeout => exact connect_logged k h fuel c _ _ _ _
  | subscribe topic_filter qos timeout => exact subscribe_logged k h fuel c _ _ _
  | unsubscribe topic_filter timeout => exact unsubscribe_logged k h fuel c _ _
  | publish topicName message timeout => exact publish_logged k h fuel c _ _ _
  | disconnect timeout => exact disconnect_logged k h c _
  | yield timeout => exact yield_logged k h fuel c _
  | keep_alive timeout => exact keep_alive_logged k h c _

/-- C16: during a command every transport hook call of the trace has its
result in `returns`; a `network_peek`, `network_read` or `network_write`
result whose error is not `LWMQTT_SUCCESS` is the last transport result of
the command (no transport hook is called after it) and its error is what the
command returns. -/
theorem transport_errors_verbatim (k : Codec) (h : Hooks W) (fuel : Nat)
    (c : lwmqtt_client_t W) (cmd : Command) :
    ∃ evs new,
      (run_command k h fuel c cmd).2.trace = c.trace ++ evs
      ∧ (run_command k h fuel c cmd).2.returns = c.returns ++ new
      ∧ transport_calls evs = new.map HookReturn.call
      ∧ ∀ pre r post, new = pre ++ r :: post → r.err ≠ LWMQTT_SUCCESS →
          post = [] ∧ (run_command k h fuel c cmd).1 = some r.err := by
  obtain ⟨evs, new, ht, hr, hc⟩ := run_command_logged k h fuel c cmd
  obtain ⟨new', hr', hv⟩ := run_command_step k h fuel c cmd
  have hn : new' = new := List.append_cancel_left (hr'.symm.trans hr)
  subst hn
  exact ⟨evs, new', ht, hr, hc, fun pre r post hn he =>
    hv.split pre r post hn r.err (forces_of_error r he)⟩

/-- C16 on the examples: a QoS-1 publish over a transport whose writes fail
with the error -9; the write is the only transport call and the command
returns -9. -/
theorem transport_errors_verbatim_witness :
    (run_command exampleCodec brokenWriteHooks 10 (freshClient [])
        (Command.publish [0x61]
          { qos := LWMQTT_QOS1, retained := false, payload := [0x78], payload_len := 1 }
          100)).2.returns
      = [{ call := Event.network_write [0x32, 6, 0, 1, 0x61, 0, 2, 0x78] 8, err := other (-9),
           count := 0 }]
    ∧ (run_command exampleCodec brokenWriteHooks 10 (freshClient [])
        (Command.publish [0x61]
          { qos := LWMQTT_QOS1, retained := false, payload := [0x78], payload_len := 1 }
          100)).1 = some (other (-9)) := by
  obtain ⟨evs, new, _, hr, _, hv⟩ := transport_errors_verbatim exampleCodec brokenWriteHooks 10
    (freshClient [])
    (Command.publish [0x61]
      { qos := LWMQTT_QOS1, retained := false, payload := [0x78], payload_len := 1 } 100)
  have hret : (run_command exampleCodec brokenWriteHooks 10 (freshClient [])
        (Command.publish [0x61]
          { qos := LWMQTT_QOS1, retained := false, payload := [0x78], payload_len := 1 }
          100)).2.returns
      = [{ call := Event.network_write [0x32, 6, 0, 1, 0x61, 0, 2, 0x78] 8, err := other (-9),
           count := 0 }] := by decide
  have hn : new
      = [{ call := Event.network_write [0x32, 6, 0, 1, 0x61, 0, 2, 0x78] 8, err := other (-9),
           count := 0 }] := by
    rw [hret] at hr
    exact List.append_cancel_left (hr.symm.trans (by rfl))
  exact ⟨hret, (hv [] _ [] hn (by decide)).2⟩

/-! ## C20: the outcomes of `lwmqtt_read_packet` -/

theorem call_network_read_returns (h : Hooks W) (c : lwmqtt_client_t W) (offset len : Int) :
    (call_network_read h c offset len).2.2.returns
      = c.returns ++ [{ call := Event.network_read offset len,
                        err := (call_network_read h c offset len).1,
                        count := (call_network_read h c offset len).2.1 }] := rfl

/-- The reads of the remaining-length loop go to offsets past the header
byte. -/
theorem read_remaining_length_reads (k : Codec) (h : Hooks W) (fuel : Nat) :
    ∀ (c : lwmqtt_client_t W) (len : Int), 0 ≤ len →
      (∃ new, (read_remaining_length k h fuel c len).client.returns = c.returns ++ new
        ∧ ∀ r ∈ new, ∃ offset n, r.call = Event.network_read offset n ∧ 0 < offset)
      ∧ 0 ≤ (read_remaining_length k h fuel c len).len := by
  induction fuel with
  | zero =>
    intro c len hl
    exact ⟨⟨[], by simp [read_remaining_length], by simp⟩, hl⟩
  | succ n ih =>
    intro c len hl
    have h1 : ∃ new, (call_network_read h c (len + 1) 1).2.2.returns = c.returns ++ new
        ∧ ∀ r ∈ new, ∃ offset n, r.call = Event.network_read offset n ∧ 0 < offset :=
      ⟨_, call_network_read_returns h c (len + 1) 1, by
        intro r hr
        rw [List.mem_singleton] at hr
        exact ⟨len + 1, 1, by rw [hr], by omega⟩⟩
    have h0 : (0 : Int) ≤ len + 1 := by omega
    unfold read_remaining_length
    simp only []
    split_ifs
    · exact ⟨h1, h0⟩
    · exact ⟨h1, h0⟩
    · obtain ⟨⟨n2, hn2, hp2⟩, hl2⟩ := ih (call_network_read h c (len + 1) 1).2.2 (len + 1) h0
      obtain ⟨n1, hn1, hp1⟩ := h1
      refine ⟨⟨n1 ++ n2, by rw [hn2, hn1, List.append_assoc], ?_⟩, hl2⟩
      intro r hr
      rcases List.mem_append.mp hr with hr | hr
      · exact hp1 r hr
      · exact hp2 r hr
    · exact ⟨h1, h0⟩

/-- The transport results of `lwmqtt_read_packet` from the header read on:
the header read at offset 0, then reads at offsets past the header byte; a
header read that succeeds with no byte ends the call with `LWMQTT_NO_PACKET`. -/
theorem read_packet_body_reads (k : Codec) (h : Hooks W) (fuel : Nat) (c : lwmqtt_client_t W)
    (packet_type : lwmqtt_packet_type_t) :
    ∃ hdr later,
      (read_packet_body k h fuel c packet_type).2.2.returns = c.returns ++ hdr :: later
      ∧ hdr.call = Event.network_read 0 1
      ∧ (∀ r ∈ later, ∃ offset n, r.call = Event.network_read offset n ∧ 0 < offset)
      ∧ (hdr.err = LWMQTT_SUCCESS → hdr.count = 0 →
          (read_packet_body k h fuel c packet_type).1 = some LWMQTT_SUCCESS
          ∧ (read_packet_body k h fuel c packet_type).2.1 = LWMQTT_NO_PACKET) := by
  obtain ⟨⟨nl, hnl, hpl⟩, hll⟩ :=
    read_remaining_length_reads k h fuel (call_network_read h c 0 1).2.2 0 (le_refl 0)
  have hl : (read_remaining_length k h fuel (call_network_read h c 0 1).2.2 0).client.returns
      = c.returns ++ { call := Event.network_read 0 1, err := (call_network_read h c 0 1).1,
                       count := (call_network_read h c 0 1).2.1 } :: nl := by
    rw [hnl, call_network_read_returns, List.append_assoc]
    rfl
  have hb : ∀ n : Int,
      (call_network_read h (read_remaining_length k h fuel (call_network_read h c 0 1).2.2 0).client
        (1 + (read_remaining_length k h fuel (call_network_read h c 0 1).2.2 0).len) n).2.2.returns
      = c.returns ++ { call := Event.network_read 0 1, err := (call_network_read h c 0 1).1,
                       count := (call_network_read h c 0 1).2.1 } ::
          (nl ++ [{ call := Event.network_read
                      (1 + (read_remaining_length k h fuel (call_network_read h c 0 1).2.2 0).len) n,
                    err := (call_network_read h
                      (read_remaining_length k h fuel (call_network_read h c 0 1).2.2 0).client
                      (1 + (read_remaining_length k h fuel (call_network_read h c 0 1).2.2 0).len)
                      n).1,
                    count := (call_network_read h
                      (read_remaining_length k h fuel (call_network_read h c 0 1).2.2 0).client
                      (1 + (read_remaining_length k h fuel (call_network_read h c 0 1).2.2 0).len)
                      n).2.1 }]) := by
    intro n
    rw [call_network_read_returns, hl, List.append_assoc]
    rfl
  have hpb : ∀ (n : Int) (x : HookReturn),
      x.call = Event.network_read
        (1 + (read_remaining_length k h fuel (call_network_read h c 0 1).2.2 0).len) n →
      ∀ r ∈ nl ++ [x], ∃ offset n, r.call = Event.network_read offset n ∧ 0 < offset := by
    intro n x hx r hr
    rcases List.mem_append.mp hr with hr | hr
    · exact hpl r hr
    · rw [List.mem_singleton] at hr
      exact ⟨_, n, by rw [hr, hx], by omega⟩
  unfold read_packet_body
  simp only []
  split_ifs with h1 h2 h3 h4 h5 h6 h7
  · exact ⟨_, [], call_network_read_returns h c 0 1, rfl, by simp,
      fun ha => absurd ha h1⟩
  · exact ⟨_, [], call_network_read_returns h c 0 1, rfl, by simp, fun _ _ => ⟨rfl, rfl⟩⟩
  · exact ⟨_, [], call_network_read_returns h c 0 1, rfl, by simp,
      fun _ hb => absurd hb h2⟩
  · exact ⟨_, nl, hl, rfl, hpl, fun _ hb => absurd hb h2⟩
  · exact ⟨_, _, hb _, rfl, hpb _ _ rfl, fun _ hb => absurd hb h2⟩
  · exact ⟨_, _, hb _, rfl, hpb _ _ rfl, fun _ hb => absurd hb h2⟩
  · exact ⟨_, _, hb _, rfl, hpb _ _ rfl, fun _ hb => absurd hb h2⟩
  · exact ⟨_, nl, hl, rfl, hpl, fun _ hb => absurd hb h2⟩

/-- The transport results of one `lwmqtt_read_packet` call: at most one
`network_peek`, then the header read at offset 0 and reads at offsets past the
header byte. -/
theorem read_packet_reads (k : Codec) (h : Hooks W) (fuel : Nat) (c : lwmqtt_client_t W)
    (packet_type : lwmqtt_packet_type_t) :
    ∃ peeks reads,
      (lwmqtt_read_packet k h fuel c packet_type).2.2.returns = c.returns ++ (peeks ++ reads)
      ∧ peeks.length ≤ 1
      ∧ (∀ r ∈ peeks, r.call = Event.network_peek)
      ∧ (∀ r ∈ reads.head?, r.call = Event.network_read 0 1
          ∧ (r.err = LWMQTT_SUCCESS → r.count = 0 →
            (lwmqtt_read_packet k h fuel c packet_type).1 = some LWMQTT_SUCCESS
            ∧ (lwmqtt_read_packet k h fuel c packet_type).2.1 = LWMQTT_NO_PACKET))
      ∧ (∀ r ∈ reads.tail, ∃ offset n, r.call = Event.network_read offset n ∧ 0 < offset) := by
  have key : ∀ (peeks : List HookReturn) (c1 : lwmqtt_client_t W),
      c1.returns = c.returns ++ peeks →
      ∃ reads,
        (read_packet_body k h fuel c1 packet_type).2.2.returns = c.returns ++ (peeks ++ reads)
        ∧ (∀ r ∈ reads.head?, r.call = Event.network_read 0 1
            ∧ (r.err = LWMQTT_SUCCESS → r.count = 0 →
              (read_packet_body k h fuel c1 packet_type).1 = some LWMQTT_SUCCESS
              ∧ (read_packet_body k h fuel c1 packet_type).2.1 = LWMQTT_NO_PACKET))
        ∧ (∀ r ∈ reads.tail, ∃ offset n, r.call = Event.network_read offset n ∧ 0 < offset) := by
    intro peeks c1 h1
    obtain ⟨hdr, later, hb, hc, hl, hz⟩ := read_packet_body_reads k h fuel c1 packet_type
    refine ⟨hdr :: later, by rw [hb, h1, List.append_assoc], ?_, hl⟩
    intro r hr
    rw [List.head?_cons, Option.mem_def, Option.some.injEq] at hr
    subst hr
    exact ⟨hc, hz⟩
  unfold lwmqtt_read_packet
  split
  · rename_i peek hp
    simp only []
    split_ifs
    · exact ⟨[_], [], rfl, le_refl 1, by simp, by simp, by simp⟩
    · exact ⟨[_], [], rfl, le_refl 1, by simp, by simp, by simp⟩
    · obtain ⟨reads, h1, h2, h3⟩ := key
        [{ call := Event.network_peek, err := (peek c.world).1, count := (peek c.world).2.1 }]
        { c with
          world := (peek c.world).2.2
          trace := c.trace ++ [Event.network_peek]
          returns := c.returns ++
            [{ call := Event.network_peek, err := (peek c.world).1,
               count := (peek c.world).2.1 }] }
        rfl
      exact ⟨_, reads, h1, le_refl 1, by simp, h2, h3⟩
  · obtain ⟨reads, h1, h2, h3⟩ := key [] c (by simp)
    exact ⟨[], reads, h1, by simp, by simp, h2, h3⟩

/-- C20: the outcomes of `lwmqtt_read_packet`.  Its transport results are at
most one `network_peek`, then the header read (offset 0, one byte), then
reads at offsets past the header byte.  When the peek hook is set and
succeeds with 0 available bytes the call returns `LWMQTT_SUCCESS` with
`LWMQTT_NO_PACKET` and the peek is its only hook call; when the header read
succeeds with 0 bytes it returns `LWMQTT_SUCCESS` with `LWMQTT_NO_PACKET`;
when a read past the header byte succeeds with a count other than the length
asked for it returns `LWMQTT_NOT_ENOUGH_DATA`. -/
theorem read_packet_outcomes (k : Codec) (h : Hooks W) (fuel : Nat) (c : lwmqtt_client_t W)
    (packet_type : lwmqtt_packet_type_t) :
    ∃ evs new,
      (lwmqtt_read_packet k h fuel c packet_type).2.2.trace = c.trace ++ evs
      ∧ (lwmqtt_read_packet k h fuel c packet_type).2.2.returns = c.returns ++ new
      ∧ transport_calls evs = new.map HookReturn.call
      ∧ (∃ peeks reads, new = peeks ++ reads ∧ peeks.length ≤ 1
          ∧ (∀ r ∈ peeks, r.call = Event.network_peek)
          ∧ (∀ r ∈ reads.head?, r.call = Event.network_read 0 1)
          ∧ (∀ r ∈ reads.tail, ∃ offset n, r.call = Event.network_read offset n ∧ 0 < offset))
      ∧ (∀ peek, h.network_peek = some peek → (peek c.world).1 = LWMQTT_SUCCESS →
          (peek c.world).2.1 = 0 →
          (lwmqtt_read_packet k h fuel c packet_type).1 = some LWMQTT_SUCCESS
          ∧ (lwmqtt_read_packet k h fuel c packet_type).2.1 = LWMQTT_NO_PACKET
          ∧ evs = [Event.network_peek])
      ∧ (∀ r ∈ new, r.call = Event.network_read 0 1 → r.err = LWMQTT_SUCCESS → r.count = 0 →
          (lwmqtt_read_packet k h fuel c packet_type).1 = some LWMQTT_SUCCESS
          ∧ (lwmqtt_read_packet k h fuel c packet_type).2.1 = LWMQTT_NO_PACKET)
      ∧ (∀ r ∈ new, ∀ offset n, r.call = Event.network_read offset n → offset ≠ 0 →
          r.err = LWMQTT_SUCCESS → r.count ≠ n →
          (lwmqtt_read_packet k h fuel c packet_type).1 = some LWMQTT_NOT_ENOUGH_DATA) := by
  obtain ⟨evs, new, ht, hr, hc⟩ := read_packet_logged k h fuel c packet_type
  obtain ⟨new1, hr1, hv⟩ := read_packet_step k h fuel c packet_type
  obtain ⟨peeks, reads, hr2, hlen, hpk, hhd, htl⟩ := read_packet_reads k h fuel c packet_type
  have hn1 : new1 = new := List.append_cancel_left (hr1.symm.trans hr)
  have hn2 : new = peeks ++ reads := List.append_cancel_left (hr.symm.trans hr2)
  subst hn1
  refine ⟨evs, new1, ht, hr, hc, ⟨peeks, reads, hn2, hlen, hpk, fun r hr => (hhd r hr).1, htl⟩,
    ?_, ?_, ?_⟩
  · intro peek hp h1 h2
    have hres : lwmqtt_read_packet k h fuel c packet_type
        = (some LWMQTT_SUCCESS, LWMQTT_NO_PACKET,
            { c with
              world := (peek c.world).2.2
              trace := c.trace ++ [Event.network_peek]
              returns := c.returns ++
                [{ call := Event.network_peek, err := (peek c.world).1,
                   count := (peek c.world).2.1 }] }) := by
      simp only [lwmqtt_read_packet, hp]
      rw [if_neg (by simpa using h1), if_pos h2]
    rw [hres] at ht
    exact ⟨by rw [hres], by rw [hres], (List.append_cancel_left ht).symm⟩
  · intro r hr hcall herr hcount
    rw [hn2] at hr
    rcases List.mem_append.mp hr with hm | hm
    · rw [hpk r hm] at hcall
      cases hcall
    · cases reads with
      | nil => cases hm
      | cons hd tl =>
        rcases List.mem_cons.mp hm with rfl | hm
        · exact (hhd r (by simp)).2 herr hcount
        · obtain ⟨offset, n, ho, hpos⟩ := htl r hm
          rw [ho] at hcall
          injection hcall with h1 h2
          omega
  · intro r hr offset n hcall hoff herr hcount
    obtain ⟨pre, post, hsplit⟩ := List.append_of_mem hr
    have hf : r.forces = some LWMQTT_NOT_ENOUGH_DATA := by
      unfold HookReturn.forces
      rw [if_neg (by simpa using herr), hcall]
      simp only []
      rw [if_pos ⟨hoff, hcount⟩]
    exact (hv.split pre r post hsplit _ hf).2

/-- C20 on the examples: with a peek hook that reports nothing queued the
call gives `LWMQTT_NO_PACKET` at once; a PUBLISH that announces five more
bytes of which the broker delivers one gives `LWMQTT_NOT_ENOUGH_DATA`. -/
theorem read_packet_outcomes_witness :
    ((lwmqtt_read_packet exampleCodec peekHooks 10 (freshClient []) LWMQTT_CONNACK_PACKET).1
        = some LWMQTT_SUCCESS
      ∧ (lwmqtt_read_packet exampleCodec peekHooks 10 (freshClient []) LWMQTT_CONNACK_PACKET).2.1
        = LWMQTT_NO_PACKET)
    ∧ (lwmqtt_read_packet exampleCodec exampleHooks 10 (freshClient [0x30, 5, 0])
        LWMQTT_NO_PACKET).2.2.returns
      = [{ call := Event.network_read 0 1, err := LWMQTT_SUCCESS, count := 1 },
         { call := Event.network_read 1 1, err := LWMQTT_SUCCESS, count := 1 },
         { call := Event.network_read 2 5, err := LWMQTT_SUCCESS, count := 1 }]
    ∧ (lwmqtt_read_packet exampleCodec exampleHooks 10 (freshClient [0x30, 5, 0])
        LWMQTT_NO_PACKET).1 = some LWMQTT_NOT_ENOUGH_DATA := by
  obtain ⟨_, _, _, _, _, _, hpeek, _, _⟩ :=
    read_packet_outcomes exampleCodec peekHooks 10 (freshClient []) LWMQTT_CONNACK_PACKET
  obtain ⟨_, new, _, hr, _, _, _, _, hlater⟩ :=
    read_packet_outcomes exampleCodec exampleHooks 10 (freshClient [0x30, 5, 0]) LWMQTT_NO_PACKET
  have hret : (lwmqtt_read_packet exampleCodec exampleHooks 10 (freshClient [0x30, 5, 0])
        LWMQTT_NO_PACKET).2.2.returns
      = [{ call := Event.network_read 0 1, err := LWMQTT_SUCCESS, count := 1 },
         { call := Event.network_read 1 1, err := LWMQTT_SUCCESS, count := 1 },
         { call := Event.network_read 2 5, err := LWMQTT_SUCCESS, count := 1 }] := by decide
  have hn : new
      = [{ call := Event.network_read 0 1, err := LWMQTT_SUCCESS, count := 1 },
         { call := Event.network_read 1 1, err := LWMQTT_SUCCESS, count := 1 },
         { call := Event.network_read 2 5, err := LWMQTT_SUCCESS, count := 1 }] := by
    rw [hret] at hr
    exact List.append_cancel_left (hr.symm.trans (by rfl))
  refine ⟨⟨(hpeek _ rfl rfl rfl).1, (hpeek _ rfl rfl rfl).2.1⟩, hret, ?_⟩
  exact hlater { call := Event.network_read 2 5, err := LWMQTT_SUCCESS, count := 1 }
    (by rw [hn]; simp) 2 5 rfl (by decide) rfl (by decide)

/-! ## C21: reads and the size of the read buffer -/

/-- C21 at a failing input: a client with a read buffer of four bytes to which
the broker sends the seven bytes of the PUBLISH `30 05 00 01 74 68 69`.
`lwmqtt_read_packet` returns `LWMQTT_SUCCESS` after asking for 5 bytes at
offset 2 of the read buffer, that is for the offsets 2 to 6 of a buffer that
ends at offset 3, and so does `lwmqtt_yield`.  (The list that stands for the
read buffer drops the bytes stored past its end; the C code writes them
behind the caller's buffer.) -/
theorem read_packet_overruns_read_buf :
    (tightReadClient [0x30, 5, 0, 1, 0x74, 0x68, 0x69]).read_buf_size = 4
    ∧ (lwmqtt_read_packet exampleCodec exampleHooks 10
        (tightReadClient [0x30, 5, 0, 1, 0x74, 0x68, 0x69]) LWMQTT_NO_PACKET).1
      = some LWMQTT_SUCCESS
    ∧ network_reads (lwmqtt_read_packet exampleCodec exampleHooks 10
        (tightReadClient [0x30, 5, 0, 1, 0x74, 0x68, 0x69]) LWMQTT_NO_PACKET).2.2.trace
      = [Event.network_read 0 1, Event.network_read 1 1, Event.network_read 2 5]
    ∧ reads_within 4 (lwmqtt_read_packet exampleCodec exampleHooks 10
        (tightReadClient [0x30, 5, 0, 1, 0x74, 0x68, 0x69]) LWMQTT_NO_PACKET).2.2.trace = false
    ∧ (lwmqtt_yield exampleCodec exampleHooks 10
        (tightReadClient [0x30, 5, 0, 1, 0x74, 0x68, 0x69]) 100).1 = some LWMQTT_SUCCESS
    ∧ reads_within 4 (lwmqtt_yield exampleCodec exampleHooks 10
        (tightReadClient [0x30, 5, 0, 1, 0x74, 0x68, 0x69]) 100).2.trace = false := by
  decide

/-! ## C22: the packet id of the awaited acknowledgement -/

/-- After the awaited SUBACK has been read, `lwmqtt_subscribe` returns
`LWMQTT_SUCCESS` in the state in which `lwmqtt_cycle_until` returned. -/
theorem subscribe_after_ack (k : Codec) (h : Hooks W) (fuel : Nat) (c : lwmqtt_client_t W)
    (topic_filter : lwmqtt_string_t) (qos : lwmqtt_qos_t) (timeout : Nat) :
    let g := lwmqtt_get_next_packet_id (call_timer_set h c Timer.command_timer timeout)
    let e := call_encode_subscribe k g.2 g.1 topic_filter qos
    let s := lwmqtt_send_packet h e.2.2 e.2.1
    let r := lwmqtt_cycle_until k h fuel s.2 LWMQTT_NO_PACKET LWMQTT_SUBACK_PACKET
    e.1 = LWMQTT_SUCCESS → s.1 = LWMQTT_SUCCESS → r.1 = some LWMQTT_SUCCESS →
      r.2.1 = LWMQTT_SUBACK_PACKET →
      lwmqtt_subscribe k h fuel c topic_filter qos timeout = (some LWMQTT_SUCCESS, r.2.2) := by
  intro g e s r h1 h2 h3 h4
  have h1' : ¬ e.1 ≠ LWMQTT_SUCCESS := by simpa using h1
  have h2' : ¬ s.1 ≠ LWMQTT_SUCCESS := by simpa using h2
  have h3' : ¬ r.1 ≠ some LWMQTT_SUCCESS := by simpa using h3
  have h4' : ¬ r.2.1 ≠ LWMQTT_SUBACK_PACKET := by simpa using h4
  simp only [lwmqtt_subscribe, subscribe_send_and_wait]
  rw [if_neg h1', if_neg h2', if_neg h3', if_neg h4']
  by_cases hd : (k.lwmqtt_decode_suback r.2.2.read_buf r.2.2.read_buf_size).1 = LWMQTT_SUCCESS
  · rw [if_pos hd, hd]
  · rw [if_neg hd]

/-- After the awaited UNSUBACK has been read, `lwmqtt_unsubscribe` returns the
error of `lwmqtt_decode_ack` in the state in which `lwmqtt_cycle_until`
returned. -/
theorem unsubscribe_after_ack (k : Codec) (h : Hooks W) (fuel : Nat) (c : lwmqtt_client_t W)
    (topic_filter : lwmqtt_string_t) (timeout : Nat) :
    let g := lwmqtt_get_next_packet_id (call_timer_set h c Timer.command_timer timeout)
    let e := call_encode_unsubscribe k g.2 g.1 topic_filter
    let s := lwmqtt_send_packet h e.2.2 e.2.1
    let r := lwmqtt_cycle_until k h fuel s.2 LWMQTT_NO_PACKET LWMQTT_UNSUBACK_PACKET
    let d := k.lwmqtt_decode_ack r.2.2.read_buf r.2.2.read_buf_size
    e.1 = LWMQTT_SUCCESS → s.1 = LWMQTT_SUCCESS → r.1 = some LWMQTT_SUCCESS →
      r.2.1 = LWMQTT_UNSUBACK_PACKET →
      lwmqtt_unsubscribe k h fuel c topic_filter timeout = (some d.1, r.2.2) := by
  intro g e s r d h1 h2 h3 h4
  have h1' : ¬ e.1 ≠ LWMQTT_SUCCESS := by simpa using h1
  have h2' : ¬ s.1 ≠ LWMQTT_SUCCESS := by simpa using h2
  have h3' : ¬ r.1 ≠ some LWMQTT_SUCCESS := by simpa using h3
  have h4' : ¬ r.2.1 ≠ LWMQTT_UNSUBACK_PACKET := by simpa using h4
  simp only [lwmqtt_unsubscribe, unsubscribe_send_and_wait]
  rw [if_neg h1', if_neg h2', if_neg h3', if_neg h4']
  by_cases hd : d.1 ≠ LWMQTT_SUCCESS
  · rw [if_pos hd]
  · rw [if_neg hd, ← not_not.mp hd]

/-- After the awaited PUBACK (QoS 1) or PUBCOMP (QoS 2) has been read,
`lwmqtt_publish` returns the error of `lwmqtt_decode_ack` in the state in
which `lwmqtt_cycle_until` returned. -/
theorem publish_after_ack (k : Codec) (h : Hooks W) (fuel : Nat) (c : lwmqtt_client_t W)
    (topicName : lwmqtt_string_t) (message : lwmqtt_message_t) (timeout : Nat)
    (ack_type : lwmqtt_packet_type_t) :
    let g := lwmqtt_get_next_packet_id (call_timer_set h c Timer.command_timer timeout)
    let e := call_encode_publish k g.2 false message.qos message.retained g.1 topicName
      message.payload message.payload_len
    let s := lwmqtt_send_packet h e.2.2 e.2.1
    let r := lwmqtt_cycle_until k h fuel s.2 LWMQTT_NO_PACKET ack_type
    let d := k.lwmqtt_decode_ack r.2.2.read_buf r.2.2.read_buf_size
    (message.qos = LWMQTT_QOS1 ∧ ack_type = LWMQTT_PUBACK_PACKET)
        ∨ (message.qos = LWMQTT_QOS2 ∧ ack_type = LWMQTT_PUBCOMP_PACKET) →
      e.1 = LWMQTT_SUCCESS → s.1 = LWMQTT_SUCCESS → r.1 = some LWMQTT_SUCCESS →
      r.2.1 = ack_type →
      lwmqtt_publish k h fuel c topicName message timeout = (some d.1, r.2.2) := by
  intro g e s r d hq h1 h2 h3 h4
  have h1' : ¬ e.1 ≠ LWMQTT_SUCCESS := by simpa using h1
  have h2' : ¬ s.1 ≠ LWMQTT_SUCCESS := by simpa using h2
  have h3' : ¬ r.1 ≠ some LWMQTT_SUCCESS := by simpa using h3
  have h4' : ¬ r.2.1 ≠ ack_type := by simpa using h4
  have hor : message.qos = LWMQTT_QOS1 ∨ message.qos = LWMQTT_QOS2 := by
    rcases hq with ⟨hq, _⟩ | ⟨hq, _⟩
    · exact Or.inl hq
    · exact Or.inr hq
  have h0 : ¬ message.qos = LWMQTT_QOS0 := by
    rcases hor with hq | hq <;> rw [hq] <;> decide
  have hack : (if message.qos = LWMQTT_QOS1 then LWMQTT_PUBACK_PACKET
      else if message.qos = LWMQTT_QOS2 then LWMQTT_PUBCOMP_PACKET
      else LWMQTT_NO_PACKET) = ack_type := by
    rcases hq with ⟨hq, ha⟩ | ⟨hq, ha⟩
    · rw [if_pos hq, ha]
    · rw [if_neg (by rw [hq]; decide), if_pos hq, ha]
  simp only [lwmqtt_publish, publish_send_and_wait, if_pos hor, hack]
  rw [if_neg h1', if_neg h2', if_neg h0, if_neg h3', if_neg h4']
  by_cases hd : d.1 ≠ LWMQTT_SUCCESS
  · rw [if_pos hd]
  · rw [if_neg hd, ← not_not.mp hd]

/-- The awaited acknowledgement, for any codec.  Take
two runs of `lwmqtt_subscribe`, of `lwmqtt_unsubscribe` or of a QoS-1 or QoS-2
`lwmqtt_publish` with the same arguments, in each of which the request was
sent and `lwmqtt_cycle_until` returned with the awaited acknowledgement read.
Whatever packet id the two acknowledgements carry, and whatever id the
command sent: each run ends in the state in which `lwmqtt_cycle_until`
returned, `lwmqtt_subscribe` returns `LWMQTT_SUCCESS` in both, and
`lwmqtt_unsubscribe` and `lwmqtt_publish` return the same result in both as
soon as `lwmqtt_decode_ack` reports the same error for both acknowledgements
(the result is that error). -/
theorem awaited_ack_runs_agree (k : Codec) (h h' : Hooks W) (fuel fuel' : Nat)
    (c c' : lwmqtt_client_t W) (timeout : Nat) :
    (∀ topic_filter qos,
      let g := lwmqtt_get_next_packet_id (call_timer_set h c Timer.command_timer timeout)
      let e := call_encode_subscribe k g.2 g.1 topic_filter qos
      let s := lwmqtt_send_packet h e.2.2 e.2.1
      let r := lwmqtt_cycle_until k h fuel s.2 LWMQTT_NO_PACKET LWMQTT_SUBACK_PACKET
      let g' := lwmqtt_get_next_packet_id (call_timer_set h' c' Timer.command_timer timeout)
      let e' := call_encode_subscribe k g'.2 g'.1 topic_filter qos
      let s' := lwmqtt_send_packet h' e'.2.2 e'.2.1
      let r' := lwmqtt_cycle_until k h' fuel' s'.2 LWMQTT_NO_PACKET LWMQTT_SUBACK_PACKET
      (e.1 = LWMQTT_SUCCESS ∧ s.1 = LWMQTT_SUCCESS ∧ r.1 = some LWMQTT_SUCCESS
          ∧ r.2.1 = LWMQTT_SUBACK_PACKET) →
        (e'.1 = LWMQTT_SUCCESS ∧ s'.1 = LWMQTT_SUCCESS ∧ r'.1 = some LWMQTT_SUCCESS
          ∧ r'.2.1 = LWMQTT_SUBACK_PACKET) →
        (lwmqtt_subscribe k h fuel c topic_filter qos timeout).1
            = (lwmqtt_subscribe k h' fuel' c' topic_filter qos timeout).1
          ∧ (lwmqtt_subscribe k h fuel c topic_filter qos timeout).1 = some LWMQTT_SUCCESS
          ∧ (lwmqtt_subscribe k h fuel c topic_filter qos timeout).2 = r.2.2
          ∧ (lwmqtt_subscribe k h' fuel' c' topic_filter qos timeout).2 = r'.2.2)
    ∧ (∀ topic_filter,
      let g := lwmqtt_get_next_packet_id (call_timer_set h c Timer.command_timer timeout)
      let e := call_encode_unsubscribe k g.2 g.1 topic_filter
      let s := lwmqtt_send_packet h e.2.2 e.2.1
      let r := lwmqtt_cycle_until k h fuel s.2 LWMQTT_NO_PACKET LWMQTT_UNSUBACK_PACKET
      let d := k.lwmqtt_decode_ack r.2.2.read_buf r.2.2.read_buf_size
      let g' := lwmqtt_get_next_packet_id (call_timer_set h' c' Timer.command_timer timeout)
      let e' := call_encode_unsubscribe k g'.2 g'.1 topic_filter
      let s' := lwmqtt_send_packet h' e'.2.2 e'.2.1
      let r' := lwmqtt_cycle_until k h' fuel' s'.2 LWMQTT_NO_PACKET LWMQTT_UNSUBACK_PACKET
      let d' := k.lwmqtt_decode_ack r'.2.2.read_buf r'.2.2.read_buf_size
      (e.1 = LWMQTT_SUCCESS ∧ s.1 = LWMQTT_SUCCESS ∧ r.1 = some LWMQTT_SUCCESS
          ∧ r.2.1 = LWMQTT_UNSUBACK_PACKET) →
        (e'.1 = LWMQTT_SUCCESS ∧ s'.1 = LWMQTT_SUCCESS ∧ r'.1 = some LWMQTT_SUCCESS
          ∧ r'.2.1 = LWMQTT_UNSUBACK_PACKET) →
        d.1 = d'.1 →
        (lwmqtt_unsubscribe k h fuel c topic_filter timeout).1
            = (lwmqtt_unsubscribe k h' fuel' c' topic_filter timeout).1
          ∧ (lwmqtt_unsubscribe k h fuel c topic_filter timeout).1 = some d.1
          ∧ (lwmqtt_unsubscribe k h fuel c topic_filter timeout).2 = r.2.2
          ∧ (lwmqtt_unsubscribe k h' fuel' c' topic_filter timeout).2 = r'.2.2)
    ∧ (∀ topicName (message : lwmqtt_message_t) ack_type,
      let g := lwmqtt_get_next_packet_id (call_timer_set h c Timer.command_timer timeout)
      let e := call_encode_publish k g.2 false message.qos message.retained g.1 topicName
        message.payload message.payload_len
      let s := lwmqtt_send_packet h e.2.2 e.2.1
      let r := lwmqtt_cycle_until k h fuel s.2 LWMQTT_NO_PACKET ack_type
      let d := k.lwmqtt_decode_ack r.2.2.read_buf r.2.2.read_buf_size
      let g' := lwmqtt_get_next_packet_id (call_timer_set h' c' Timer.command_timer timeout)
      let e' := call_encode_publish k g'.2 false message.qos message.retained g'.1 topicName
        message.payload message.payload_len
      let s' := lwmqtt_send_packet h' e'.2.2 e'.2.1
      let r' := lwmqtt_cycle_until k h' fuel' s'.2 LWMQTT_NO_PACKET ack_type
      let d' := k.lwmqtt_decode_ack r'.2.2.read_buf r'.2.2.read_buf_size
      (message.qos = LWMQTT_QOS1 ∧ ack_type = LWMQTT_PUBACK_PACKET)
          ∨ (message.qos = LWMQTT_QOS2 ∧ ack_type = LWMQTT_PUBCOMP_PACKET) →
        (e.1 = LWMQTT_SUCCESS ∧ s.1 = LWMQTT_SUCCESS ∧ r.1 = some LWMQTT_SUCCESS
          ∧ r.2.1 = ack_type) →
        (e'.1 = LWMQTT_SUCCESS ∧ s'.1 = LWMQTT_SUCCESS ∧ r'.1 = some LWMQTT_SUCCESS
          ∧ r'.2.1 = ack_type) →
        d.1 = d'.1 →
        (lwmqtt_publish k h fuel c topicName message timeout).1
            = (lwmqtt_publish k h' fuel' c' topicName message timeout).1
          ∧ (lwmqtt_publish k h fuel c topicName message timeout).1 = some d.1
          ∧ (lwmqtt_publish k h fuel c topicName message timeout).2 = r.2.2
          ∧ (lwmqtt_publish k h' fuel' c' topicName message timeout).2 = r'.2.2) := by
  refine ⟨?_, ?_, ?_⟩
  · intro topic_filter qos g e s r g' e' s' r' h1 h2
    have a := subscribe_after_ack k h fuel c topic_filter qos timeout h1.1 h1.2.1 h1.2.2.1
      h1.2.2.2
    have b := subscribe_after_ack k h' fuel' c' topic_filter qos timeout h2.1 h2.2.1 h2.2.2.1
      h2.2.2.2
    rw [a, b]
    exact ⟨rfl, rfl, rfl, rfl⟩
  · intro topic_filter g e s r d g' e' s' r' d' h1 h2 hd
    have a := unsubscribe_after_ack k h fuel c topic_filter timeout h1.1 h1.2.1 h1.2.2.1
      h1.2.2.2
    have b := unsubscribe_after_ack k h' fuel' c' topic_filter timeout h2.1 h2.2.1 h2.2.2.1
      h2.2.2.2
    rw [a, b]
    exact ⟨congrArg some hd, rfl, rfl, rfl⟩
  · intro topicName message ack_type g e s r d g' e' s' r' d' hq h1 h2 hd
    have a := publish_after_ack k h fuel c topicName message timeout ack_type hq h1.1 h1.2.1
      h1.2.2.1 h1.2.2.2
    have b := publish_after_ack k h' fuel' c' topicName message timeout ack_type hq h2.1 h2.2.1
      h2.2.2.1 h2.2.2.2
    rw [a, b]
    exact ⟨congrArg some hd, rfl, rfl, rfl⟩

theorem read_remaining_length_remap (k : Codec) (f : Nat → Nat) (h : Hooks W) (fuel : Nat) :
    ∀ (c : lwmqtt_client_t W) (len : Int),
      read_remaining_length (k.remap_ack_id f) h fuel c len
        = read_remaining_length k h fuel c len := by
  induction fuel with
  | zero => intro c len; rfl
  | succ n ih =>
    intro c len
    unfold read_remaining_length
    simp only [ih]
    rfl

theorem read_packet_remap (k : Codec) (f : Nat → Nat) (h : Hooks W) (fuel : Nat)
    (c : lwmqtt_client_t W) (pt : lwmqtt_packet_type_t) :
    lwmqtt_read_packet (k.remap_ack_id f) h fuel c pt = lwmqtt_read_packet k h fuel c pt := by
  unfold lwmqtt_read_packet read_packet_body
  simp only [read_remaining_length_remap]
  rfl

/-- A read at an offset past the header byte leaves the header byte as it is. -/
theorem call_network_read_header (h : Hooks W) (c : lwmqtt_client_t W) (offset len : Int)
    (ho : 0 < offset) :
    (call_network_read h c offset len).2.2.read_buf[0]? = c.read_buf[0]? := by
  simp only [call_network_read, call_timer_get]
  exact store_bytes_outside _ _ _ 0 (Or.inl (by omega))

theorem read_remaining_length_header (k : Codec) (h : Hooks W) (fuel : Nat) :
    ∀ (c : lwmqtt_client_t W) (len : Int), 0 ≤ len →
      (read_remaining_length k h fuel c len).client.read_buf[0]? = c.read_buf[0]? := by
  induction fuel with
  | zero => intro c len _; rfl
  | succ n ih =>
    intro c len hl
    have h1 := call_network_read_header h c (len + 1) 1 (by omega)
    unfold read_remaining_length
    simp only []
    split_ifs
    · exact h1
    · exact h1
    · exact (ih _ _ (by omega)).trans h1
    · exact h1

/-- The packet type `lwmqtt_read_packet` reports with `LWMQTT_SUCCESS`, when it
is not `LWMQTT_NO_PACKET`, is the type detected on a buffer with the header
byte of the read buffer it leaves. -/
theorem read_packet_body_type (k : Codec) (h : Hooks W) (fuel : Nat) (c : lwmqtt_client_t W)
    (pt : lwmqtt_packet_type_t) :
    (read_packet_body k h fuel c pt).1 = some LWMQTT_SUCCESS →
    (read_packet_body k h fuel c pt).2.1 ≠ LWMQTT_NO_PACKET →
    ∃ B, (read_packet_body k h fuel c pt).2.1 = k.lwmqtt_detect_packet_type B
      ∧ (read_packet_body k h fuel c pt).2.2.read_buf[0]? = B[0]? := by
  have hl := read_remaining_length_header k h fuel (call_network_read h c 0 1).2.2 0 (le_refl 0)
  have hpos := (read_remaining_length_reads k h fuel (call_network_read h c 0 1).2.2 0
    (le_refl 0)).2
  have hb : ∀ n : Int,
      (call_network_read h (read_remaining_length k h fuel (call_network_read h c 0 1).2.2 0).client
        (1 + (read_remaining_length k h fuel (call_network_read h c 0 1).2.2 0).len)
        n).2.2.read_buf[0]? = (call_network_read h c 0 1).2.2.read_buf[0]? := fun n =>
    (call_network_read_header h _ _ n (by omega)).trans hl
  unfold read_packet_body
  simp only []
  split_ifs with h1 h2 h3 h4 h5 h6 h7
  · intro hs _
    exact absurd (Option.some.inj hs) h1
  · intro _ hn
    exact absurd rfl hn
  · intro hs _
    cases hs
  · intro hs _
    exact absurd hs h4
  · intro hs _
    exact absurd (Option.some.inj hs) h6
  · intro hs _
    cases hs
  · intro _ _
    exact ⟨_, rfl, hb _⟩
  · intro _ _
    exact ⟨_, rfl, hl⟩

theorem read_packet_type (k : Codec) (h : Hooks W) (fuel : Nat) (c : lwmqtt_client_t W)
    (pt : lwmqtt_packet_type_t) :
    (lwmqtt_read_packet k h fuel c pt).1 = some LWMQTT_SUCCESS →
    (lwmqtt_read_packet k h fuel c pt).2.1 ≠ LWMQTT_NO_PACKET →
    ∃ B, (lwmqtt_read_packet k h fuel c pt).2.1 = k.lwmqtt_detect_packet_type B
      ∧ (lwmqtt_read_packet k h fuel c pt).2.2.read_buf[0]? = B[0]? := by
  unfold lwmqtt_read_packet
  split
  · simp only []
    split_ifs with h1 h2
    · intro hs _
      exact absurd (Option.some.inj hs) h1
    · intro _ hn
      exact absurd rfl hn
    · exact read_packet_body_type k h fuel _ pt
  · exact read_packet_body_type k h fuel c pt

theorem cycle_ack_remap (k : Codec) (f : Nat → Nat) (h : Hooks W) (c : lwmqtt_client_t W)
    (reply : lwmqtt_packet_type_t)
    (ht : k.lwmqtt_detect_packet_type c.read_buf = LWMQTT_PUBREC_PACKET
      ∨ k.lwmqtt_detect_packet_type c.read_buf = LWMQTT_PUBREL_PACKET) :
    cycle_ack (k.remap_ack_id f) h c reply = cycle_ack k h c reply := by
  have hd : (k.remap_ack_id f).lwmqtt_decode_ack c.read_buf c.read_buf_size
      = k.lwmqtt_decode_ack c.read_buf c.read_buf_size := by
    simp only [Codec.remap_ack_id]
    rw [if_pos ht]
  unfold cycle_ack
  simp only [hd]
  rfl

/-- With a packet type detection that looks at the header byte only,
`lwmqtt_cycle` does the same with the codec `k` and with `k` after the ids of
the acknowledgements a command waits for have been replaced. -/
theorem cycle_remap (k : Codec) (f : Nat → Nat) (h : Hooks W) (fuel : Nat)
    (c : lwmqtt_client_t W) (pt : lwmqtt_packet_type_t)
    (hh : ∀ buf buf' : List Nat, buf[0]? = buf'[0]? →
      k.lwmqtt_detect_packet_type buf = k.lwmqtt_detect_packet_type buf') :
    lwmqtt_cycle (k.remap_ack_id f) h fuel c pt = lwmqtt_cycle k h fuel c pt := by
  have hty : (lwmqtt_read_packet k h fuel c pt).1 = some LWMQTT_SUCCESS →
      (lwmqtt_read_packet k h fuel c pt).2.1 ≠ LWMQTT_NO_PACKET →
      k.lwmqtt_detect_packet_type (lwmqtt_read_packet k h fuel c pt).2.2.read_buf
        = (lwmqtt_read_packet k h fuel c pt).2.1 := by
    intro hs hn
    obtain ⟨B, hB, hhead⟩ := read_packet_type k h fuel c pt hs hn
    rw [hB]
    exact hh _ _ hhead
  unfold lwmqtt_cycle
  simp only [read_packet_remap]
  split_ifs with h1 h2
  · rfl
  · rfl
  · have hs : (lwmqtt_read_packet k h fuel c pt).1 = some LWMQTT_SUCCESS := not_not.mp h1
    have ht := hty hs h2
    split
    · rfl
    · rename_i heq
      rw [cycle_ack_remap k f h _ _ (Or.inl (ht.trans heq))]
    · rename_i heq
      rw [cycle_ack_remap k f h _ _ (Or.inr (ht.trans heq))]
    · rfl
    · rfl

theorem cycle_until_remap (k : Codec) (f : Nat → Nat) (h : Hooks W) (fuel : Nat)
    (hh : ∀ buf buf' : List Nat, buf[0]? = buf'[0]? →
      k.lwmqtt_detect_packet_type buf = k.lwmqtt_detect_packet_type buf') :
    ∀ (c : lwmqtt_client_t W) (pt needle : lwmqtt_packet_type_t),
      lwmqtt_cycle_until (k.remap_ack_id f) h fuel c pt needle
        = lwmqtt_cycle_until k h fuel c pt needle := by
  induction fuel with
  | zero => intro c pt needle; rfl
  | succ n ih =>
    intro c pt needle
    unfold lwmqtt_cycle_until
    simp only [cycle_remap k f h _ _ _ hh, ih]

theorem ack_error_remap (k : Codec) (f : Nat → Nat) (buf : List Nat) (size : Int) :
    ((k.remap_ack_id f).lwmqtt_decode_ack buf size).1 = (k.lwmqtt_decode_ack buf size).1 := by
  simp only [Codec.remap_ack_id]
  split_ifs <;> rfl

/-- With a packet type detection that looks at the header byte only, every
command gives the same result and leaves the same client state with the
codec `k` and with `k` after the ids of the acknowledgements a command waits
for have been replaced. -/
theorem run_command_remap (k : Codec) (f : Nat → Nat) (h : Hooks W) (fuel : Nat)
    (c : lwmqtt_client_t W) (cmd : Command)
    (hh : ∀ buf buf' : List Nat, buf[0]? = buf'[0]? →
      k.lwmqtt_detect_packet_type buf = k.lwmqtt_detect_packet_type buf') :
    run_command (k.remap_ack_id f) h fuel c cmd = run_command k h fuel c cmd := by
  have hcu := cycle_until_remap k f h fuel hh
  cases cmd with
  | connect options will return_code timeout =>
    simp only [run_command, lwmqtt_connect, connect_send_and_wait, hcu]
    rfl
  | subscribe topic_filter qos timeout =>
    simp only [run_command, lwmqtt_subscribe, subscribe_send_and_wait, hcu]
    rfl
  | unsubscribe topic_filter timeout =>
    simp only [run_command, lwmqtt_unsubscribe, unsubscribe_send_and_wait, hcu, ack_error_remap]
    rfl
  | publish topicName message timeout =>
    simp only [run_command, lwmqtt_publish, publish_send_and_wait, hcu, ack_error_remap]
    rfl
  | disconnect timeout => rfl
  | yield timeout =>
    simp only [run_command, lwmqtt_yield, hcu]
  | keep_alive timeout => rfl

/-- The packet type detection of the examples looks at the header byte
only. -/
theorem exampleCodec_header_only (buf buf' : List Nat) (hb : buf[0]? = buf'[0]?) :
    exampleCodec.lwmqtt_detect_packet_type buf = exampleCodec.lwmqtt_detect_packet_type buf' := by
  simp only [exampleCodec]
  cases buf <;> cases buf' <;> simp_all

/-- C22: the packet id of the awaited acknowledgement is not compared.  Let
the packet type detection look at the header byte only (the codec is not
among the sources; the specification has `detect_packet_type(byte)` extract
the high nibble) and take two runs of `lwmqtt_publish`, of
`lwmqtt_subscribe` or of `lwmqtt_unsubscribe` from the same state, with the
same arguments and over the same transport, that differ only in the packet
ids of the acknowledgements: in the second run every PUBACK, PUBCOMP,
UNSUBACK and SUBACK decodes to the image under `f` of the id it decodes to in
the first.  Both runs return the same result and leave the same client state,
whatever `f` is, so whether or not the id of the acknowledgement is the id
the command sent. -/
theorem ack_id_not_compared (k : Codec) (f : Nat → Nat) (h : Hooks W) (fuel : Nat)
    (c : lwmqtt_client_t W)
    (hh : ∀ buf buf' : List Nat, buf[0]? = buf'[0]? →
      k.lwmqtt_detect_packet_type buf = k.lwmqtt_detect_packet_type buf') :
    (∀ topicName message timeout,
      lwmqtt_publish (k.remap_ack_id f) h fuel c topicName message timeout
        = lwmqtt_publish k h fuel c topicName message timeout)
    ∧ (∀ topic_filter qos timeout,
      lwmqtt_subscribe (k.remap_ack_id f) h fuel c topic_filter qos timeout
        = lwmqtt_subscribe k h fuel c topic_filter qos timeout)
    ∧ (∀ topic_filter timeout,
      lwmqtt_unsubscribe (k.remap_ack_id f) h fuel c topic_filter timeout
        = lwmqtt_unsubscribe k h fuel c topic_filter timeout)
    ∧ (∀ buf size,
      ((k.remap_ack_id f).lwmqtt_decode_suback buf size).2.1
        = f (k.lwmqtt_decode_suback buf size).2.1)
    ∧ (∀ buf size,
      k.lwmqtt_detect_packet_type buf ≠ LWMQTT_PUBREC_PACKET →
      k.lwmqtt_detect_packet_type buf ≠ LWMQTT_PUBREL_PACKET →
      ((k.remap_ack_id f).lwmqtt_decode_ack buf size).2.2.2
        = f (k.lwmqtt_decode_ack buf size).2.2.2) := by
  refine ⟨?_, ?_, ?_, fun _ _ => rfl, ?_⟩
  · intro topicName message timeout
    exact run_command_remap k f h fuel c (Command.publish topicName message timeout) hh
  · intro topic_filter qos timeout
    exact run_command_remap k f h fuel c (Command.subscribe topic_filter qos timeout) hh
  · intro topic_filter timeout
    exact run_command_remap k f h fuel c (Command.unsubscribe topic_filter timeout) hh
  · intro buf size h1 h2
    simp only [Codec.remap_ack_id]
    rw [if_neg (by rintro (h3 | h3); exact h1 h3; exact h2 h3)]

/-- C22 on the examples: the QoS-1 publish scenario, in which the command
sends packet id 2 and the PUBACK `40 02 00 01` carries id 1.  The run in which
the PUBACK decodes to id 2 instead ends with the same result,
`LWMQTT_SUCCESS`, and the same client state. -/
theorem ack_id_not_compared_witness :
    (∀ buf buf' : List Nat, buf[0]? = buf'[0]? →
      exampleCodec.lwmqtt_detect_packet_type buf = exampleCodec.lwmqtt_detect_packet_type buf')
    ∧ publish_packet_ids firstPublish.2.trace = [2]
    ∧ (exampleCodec.lwmqtt_decode_ack firstPublish.2.read_buf 32).2.2.2 = 1
    ∧ ((exampleCodec.remap_ack_id (fun _ => 2)).lwmqtt_decode_ack
        firstPublish.2.read_buf 32).2.2.2 = 2
    ∧ lwmqtt_publish (exampleCodec.remap_ack_id (fun _ => 2)) exampleHooks 10
        (freshClient [0x40, 2, 0, 1]) [0x61]
        { qos := LWMQTT_QOS1, retained := false, payload := [0x78], payload_len := 1 } 100
      = firstPublish
    ∧ firstPublish.1 = some LWMQTT_SUCCESS :=
  ⟨exampleCodec_header_only, by decide, by decide, by decide,
    (ack_id_not_compared exampleCodec (fun _ => 2) exampleHooks 10 (freshClient [0x40, 2, 0, 1])
      exampleCodec_header_only).1 [0x61]
      { qos := LWMQTT_QOS1, retained := false, payload := [0x78], payload_len := 1 } 100,
    by decide⟩

end Lwmqtt
